import Mathlib

/-!
# OneFlow eager blob instructions: a shallow embedding

Embedding of `oneflow/core/eager/blob_instruction_type.cpp`: the pin / unpin
instructions (`CudaHostRegisterBlob`, `CudaHostUnregisterBlob`), the transfer
instruction (`CopyBlobToOtherDeviceInstructionType`) with its registration
helpers, and the two registered transfer instruction types.

Conventions of the embedding
* a pointer is a natural number, `0` is `nullptr`;
* a `Blob*` that may be null is an `Option Blob`;
* glog `CHECK*` failures and `OF_CUDA_CHECK` failures abort the process: status `Fatal`;
* a member call through a null `Blob*` is undefined behaviour: status `NullDeref`;
* `JUST` on a failed `Maybe` returns the error to the caller: status `Error`;
* the device runtime (CUDA) is external: the instructions take it as a
  parameter `rt : DeviceRuntime`; every call made to it is appended to a call log;
* the pin / unpin and transfer instructions are the `WITH_CUDA` build of the file;
* the two tensors of a transfer operand are distinct objects.
-/

namespace oneflow

/-! ## Data model -/

/-- One byte of a blob body. The copy never interprets bytes. -/
abbrev Byte := Nat

/-- Result codes of the device runtime. The source distinguishes three of them by
name; every remaining code is `cudaErrorOther`. -/
inductive cudaError_t where
  | cudaSuccess
  | cudaErrorHostMemoryAlreadyRegistered
  | cudaErrorHostMemoryNotRegistered
  | cudaErrorOther (code : Nat)
  deriving DecidableEq, Repr

/-- The `MemoryCase` message as the source reads it: either host memory, which may
carry the `cuda_pinned_mem` sub-message, or accelerator memory of a device. -/
inductive MemoryCase where
  | host_mem (cuda_pinned_mem : Bool)
  | device_cuda_mem (device_id : Nat)
  deriving DecidableEq, Repr

/-- Embeds `mem_case().has_host_mem()`. -/
def MemoryCase.has_host_mem : MemoryCase → Bool
  | .host_mem _ => true
  | .device_cuda_mem _ => false

/-- Embeds `mem_case().host_mem().has_cuda_pinned_mem()`: on a memory case that is not host
memory, `host_mem()` is the default message, which has no `cuda_pinned_mem`. -/
def MemoryCase.has_cuda_pinned_mem : MemoryCase → Bool
  | .host_mem pinned => pinned
  | .device_cuda_mem _ => false

/-- A `Blob`: data pointer, memory case, the bytes of the body, and the aligned body
size (computed by `Blob`, whose declaration is outside the embedded file). -/
structure Blob where
  dptr : Nat
  mem_case : MemoryCase
  body : List Byte
  AlignedByteSizeOfBlobBody : Nat
  deriving DecidableEq, Repr

/-- Embeds `Blob::ByteSizeOfBlobBody()`: the length of the body. -/
def Blob.ByteSizeOfBlobBody (b : Blob) : Nat := b.body.length

/-- A `one::MirroredTensor` as far as the instructions read and write it.
`eager_blob_object` is `none` when `eager_blob_object()` returns an error. -/
structure MirroredTensor where
  shape : List Nat
  dtype : Nat
  requires_grad : Bool
  retain_grad : Bool
  is_leaf : Bool
  is_cuda : Bool
  eager_blob_object : Option Blob
  deriving DecidableEq, Repr

/-- The accessor a callback is handed: `OfBlob(device_ctx, blob)`, the stream's device
context together with the blob it gives access to. -/
structure OfBlob where
  device_ctx : Nat
  blob : Blob
  deriving DecidableEq, Repr

/-- What a callback captures by reference on the submitting side: the caller's array and
the completion flag. -/
structure CallerState where
  array : List Byte
  synced : Bool
  deriving DecidableEq, Repr

/-- A caller-supplied `std::function<void(uint64_t)>`: called with the address of an
accessor, it may read and write the blob behind the accessor and the state it captured.
The result is the blob and the captured state after the call. -/
abbrev Callback := OfBlob → CallerState → Blob × CallerState

/-- The physical operand of an instruction message. -/
inductive PhyInstrOperand where
  | CopyBlobToOtherDevicePhyInstrOperand (src_tensor dst_tensor : MirroredTensor)
  | AccessBlobArgCbPhyInstrOperand (eager_blob_object : Blob) (callback : Callback)
  | otherPhyInstrOperand

/-- An error carried by a failed `Maybe`. -/
abbrev ErrorProto := String

/-- The stream an instruction is bound to: its device context, machine and device. -/
structure Stream where
  device_ctx : Nat
  machine_id : Int
  device_id : Int
  deriving DecidableEq, Repr

/-- The `ParallelDesc` of an instruction as far as it is used:
`GetParallelContext(&ctx, machine_id, device_id)` either fails with an error or fills
the context, of which only `parallel_id()` is read. -/
structure ParallelDesc where
  GetParallelContext : Int → Int → Except ErrorProto Int

/-- A `vm::Instruction` as far as the blob instructions read it:
`phy_instr_operand` is the (possibly empty) shared pointer of the message;
`blob` is the `BlobObject` behind the `blob` operand of `PinBlobInstruction`,
`none` when `Mut<BlobObject>()` fails; `stream` is the stream it runs on;
`lbn_sym_id` is what `Get<vm::StringObject>()` yields on the name operand of
`LazyReferenceInstruction`, and `parallel_desc` the instruction's parallel description. -/
structure Instruction where
  phy_instr_operand : Option PhyInstrOperand
  blob : Option Blob
  stream : Stream := { device_ctx := 0, machine_id := 0, device_id := 0 }
  lbn_sym_id : Except ErrorProto String := .error "no name operand"
  parallel_desc : ParallelDesc :=
    { GetParallelContext := fun _ _ => .error "no parallel description" }

/-- How a handler leaves. -/
inductive Status where
  | Ok
  | Error
  | Fatal
  | NullDeref
  deriving DecidableEq, Repr

/-! ## The device runtime -/

/-- State of the device runtime: the base addresses of the host regions that are
currently registered (page-locked), and the last error it recorded. -/
structure CudaState where
  registered : List Nat
  lastError : cudaError_t
  deriving DecidableEq, Repr

/-- The device runtime entry points the file calls. `memcpy` is the result the
runtime reports for the transfer issued by `SyncAutoMemcpy`. -/
structure DeviceRuntime where
  cudaHostRegister : CudaState → Nat → Nat → cudaError_t × CudaState
  cudaHostUnregister : CudaState → Nat → cudaError_t × CudaState
  cudaGetLastError : CudaState → cudaError_t × CudaState
  memcpy : CudaState → Nat → Nat → Nat → cudaError_t × CudaState

/-- A call made to the device runtime. -/
inductive Call where
  | cudaHostRegister (ptr size : Nat)
  | cudaHostUnregister (ptr : Nat)
  | cudaGetLastError
  | SyncAutoMemcpy (dst src sz : Nat) (src_mem_case dst_mem_case : MemoryCase)
  deriving DecidableEq, Repr

/-- The runtime state together with the log of the calls made so far. -/
structure World where
  cuda : CudaState
  calls : List Call
  deriving DecidableEq, Repr

/-- Modelled from the spec: the device runtime's registry of pinned host regions,
which is external to the repository. Registering a region that is registered reports
"already registered", unregistering one that is not reports "not registered" (the two
codes the source tests for); otherwise the call succeeds and adds or removes the region.
A failed call records its code as the last error, `cudaGetLastError` returns and clears
it. The transfer always succeeds. -/
def referenceRuntime : DeviceRuntime where
  cudaHostRegister c ptr _ :=
    if ptr ∈ c.registered then
      (.cudaErrorHostMemoryAlreadyRegistered,
        { c with lastError := .cudaErrorHostMemoryAlreadyRegistered })
    else (.cudaSuccess, { c with registered := ptr :: c.registered })
  cudaHostUnregister c ptr :=
    if ptr ∈ c.registered then
      (.cudaSuccess, { c with registered := c.registered.filter (fun q => q ≠ ptr) })
    else
      (.cudaErrorHostMemoryNotRegistered,
        { c with lastError := .cudaErrorHostMemoryNotRegistered })
  cudaGetLastError c := (c.lastError, { c with lastError := .cudaSuccess })
  memcpy c _ _ _ := (.cudaSuccess, c)

/-- The reference runtime with a transfer that reports the error `code`. -/
def failingCopyRuntime (code : Nat) : DeviceRuntime :=
  { referenceRuntime with memcpy := fun c _ _ _ => (.cudaErrorOther code, c) }

/-- A runtime that never reports an unexpected code: registration reports success or
"already registered", unregistration success or "not registered", the transfer
success. -/
def DeviceRuntime.Healthy (rt : DeviceRuntime) : Prop :=
  (∀ c ptr size, (rt.cudaHostRegister c ptr size).1 = .cudaSuccess ∨
      (rt.cudaHostRegister c ptr size).1 = .cudaErrorHostMemoryAlreadyRegistered) ∧
  (∀ c ptr, (rt.cudaHostUnregister c ptr).1 = .cudaSuccess ∨
      (rt.cudaHostUnregister c ptr).1 = .cudaErrorHostMemoryNotRegistered) ∧
  (∀ c dst src sz, (rt.memcpy c dst src sz).1 = .cudaSuccess)

/-- Modelled from the spec: the `OF_CUDA_CHECK` macro, which is declared outside the
embedded file. An unexpected device-runtime code aborts the process. -/
def OF_CUDA_CHECK (e : cudaError_t) (w : World) : Status × World :=
  if e = .cudaSuccess then (.Ok, w) else (.Fatal, w)

/-! ## Pin and unpin instructions -/

/-- Embeds `CudaHostRegisterBlobInstructionType::Compute` (lines 61-76): the operand must
hold a blob object in host memory; a blob marked pinned is left alone; otherwise the data
pointer must be non-null and the region is registered, "already registered" being benign. -/
def CudaHostRegisterBlobInstructionType.Compute (rt : DeviceRuntime) (w : World)
    (instruction : Instruction) : Status × World :=
  match instruction.blob with
  | none => (.Fatal, w)
  | some blob =>
    if !blob.mem_case.has_host_mem then (.Fatal, w)
    else if blob.mem_case.has_cuda_pinned_mem then (.Ok, w)
    else if blob.dptr = 0 then (.Fatal, w)
    else
      let r := rt.cudaHostRegister w.cuda blob.dptr blob.AlignedByteSizeOfBlobBody
      let w1 : World :=
        { cuda := r.2,
          calls := w.calls ++ [.cudaHostRegister blob.dptr blob.AlignedByteSizeOfBlobBody] }
      if r.1 = .cudaErrorHostMemoryAlreadyRegistered then
        (.Ok, { cuda := (rt.cudaGetLastError w1.cuda).2,
                calls := w1.calls ++ [.cudaGetLastError] })
      else OF_CUDA_CHECK r.1 w1

/-- Embeds `CudaHostUnregisterBlobInstructionType::Compute` (lines 90-104): as the pin
instruction, with `cudaHostUnregister` and "not registered" as the benign code. -/
def CudaHostUnregisterBlobInstructionType.Compute (rt : DeviceRuntime) (w : World)
    (instruction : Instruction) : Status × World :=
  match instruction.blob with
  | none => (.Fatal, w)
  | some blob =>
    if !blob.mem_case.has_host_mem then (.Fatal, w)
    else if blob.mem_case.has_cuda_pinned_mem then (.Ok, w)
    else if blob.dptr = 0 then (.Fatal, w)
    else
      let r := rt.cudaHostUnregister w.cuda blob.dptr
      let w1 : World :=
        { cuda := r.2, calls := w.calls ++ [.cudaHostUnregister blob.dptr] }
      if r.1 = .cudaErrorHostMemoryNotRegistered then
        (.Ok, { cuda := (rt.cudaGetLastError w1.cuda).2,
                calls := w1.calls ++ [.cudaGetLastError] })
      else OF_CUDA_CHECK r.1 w1

/-! ## The transfer instruction -/

/-- Embeds `CopyBlobToOtherDeviceInstructionType::Infer` (lines 109-123): returns the
instruction with the destination tensor's metadata set from the source tensor, in the
order of the source's setter calls. -/
def CopyBlobToOtherDeviceInstructionType.Infer (instruction : Instruction) :
    Status × Instruction :=
  match instruction.phy_instr_operand with
  | none => (.Fatal, instruction)
  | some .otherPhyInstrOperand => (.Fatal, instruction)
  | some (.AccessBlobArgCbPhyInstrOperand _ _) => (.Fatal, instruction)
  | some (.CopyBlobToOtherDevicePhyInstrOperand src_tensor dst_tensor) =>
    let dst1 := { dst_tensor with shape := src_tensor.shape }
    let dst2 := { dst1 with requires_grad := src_tensor.requires_grad }
    let dst3 := { dst2 with retain_grad := src_tensor.retain_grad }
    let dst4 := { dst3 with is_leaf := false }
    let dst5 := { dst4 with dtype := src_tensor.dtype }
    (.Ok, { instruction with
      phy_instr_operand := some (.CopyBlobToOtherDevicePhyInstrOperand src_tensor dst5) })

/-- Embeds `RegisterMemory(Blob* blob)` (lines 127-139): the data pointer is read through
`blob` and must be non-null; the runtime call is made only if the memory case carries
`cuda_pinned_mem`. -/
def RegisterMemory (rt : DeviceRuntime) (w : World) (blob : Option Blob) : Status × World :=
  match blob with
  | none => (.NullDeref, w)
  | some blob =>
    if blob.dptr = 0 then (.Fatal, w)
    else if blob.mem_case.has_cuda_pinned_mem then
      let r := rt.cudaHostRegister w.cuda blob.dptr blob.AlignedByteSizeOfBlobBody
      let w1 : World :=
        { cuda := r.2,
          calls := w.calls ++ [.cudaHostRegister blob.dptr blob.AlignedByteSizeOfBlobBody] }
      if r.1 = .cudaErrorHostMemoryAlreadyRegistered then
        (.Ok, { cuda := (rt.cudaGetLastError w1.cuda).2,
                calls := w1.calls ++ [.cudaGetLastError] })
      else OF_CUDA_CHECK r.1 w1
    else (.Ok, w)

/-- Embeds `UnRegisterMemory(Blob* blob)` (lines 141-152), the mirror image of
`RegisterMemory`. -/
def UnRegisterMemory (rt : DeviceRuntime) (w : World) (blob : Option Blob) : Status × World :=
  match blob with
  | none => (.NullDeref, w)
  | some blob =>
    if blob.dptr = 0 then (.Fatal, w)
    else if blob.mem_case.has_cuda_pinned_mem then
      let r := rt.cudaHostUnregister w.cuda blob.dptr
      let w1 : World :=
        { cuda := r.2, calls := w.calls ++ [.cudaHostUnregister blob.dptr] }
      if r.1 = .cudaErrorHostMemoryNotRegistered then
        (.Ok, { cuda := (rt.cudaGetLastError w1.cuda).2,
                calls := w1.calls ++ [.cudaGetLastError] })
      else OF_CUDA_CHECK r.1 w1
    else (.Ok, w)

/-- Modelled from the spec: `SyncAutoMemcpy`, which is defined outside the embedded
file. It issues the byte-exact copy of `sz` bytes from the source region to the
destination region; a failure reported by the device runtime aborts the process. The
result carries the destination blob after the copy. -/
def SyncAutoMemcpy (rt : DeviceRuntime) (w : World) (dst_blob src_blob : Blob) (sz : Nat)
    (src_mem_case dst_mem_case : MemoryCase) : Status × World × Blob :=
  let r := rt.memcpy w.cuda dst_blob.dptr src_blob.dptr sz
  let w1 : World :=
    { cuda := r.2,
      calls := w.calls ++
        [.SyncAutoMemcpy dst_blob.dptr src_blob.dptr sz src_mem_case dst_mem_case] }
  if r.1 = .cudaSuccess then
    (.Ok, w1, { dst_blob with body := src_blob.body.take sz ++ dst_blob.body.drop sz })
  else (.Fatal, w1, dst_blob)

/-- The local `register_blob` of `Run` (lines 168-173): the destination blob when only
the source is on the accelerator, the source blob when only the destination is, and
`nullptr` otherwise. -/
def register_blob (src_tensor dst_tensor : MirroredTensor) (src_blob dst_blob : Blob) :
    Option Blob :=
  if src_tensor.is_cuda && !dst_tensor.is_cuda then some dst_blob
  else if !src_tensor.is_cuda && dst_tensor.is_cuda then some src_blob
  else none

/-- Puts the destination blob back into the instruction's operand after `Run` wrote it. -/
def Instruction.with_dst_blob (instruction : Instruction) (src_tensor dst_tensor : MirroredTensor)
    (dst_blob : Blob) : Instruction :=
  { instruction with
    phy_instr_operand := some (.CopyBlobToOtherDevicePhyInstrOperand src_tensor
      { dst_tensor with eager_blob_object := some dst_blob }) }

/-- Embeds `CopyBlobToOtherDeviceInstructionType::Run` (lines 155-179), the stream's device
context being the runtime `rt`: the status, the runtime state with the
call log, and the instruction whose destination blob holds the bytes after the run. -/
def CopyBlobToOtherDeviceInstructionType.Run (rt : DeviceRuntime) (w : World)
    (instruction : Instruction) : Status × World × Instruction :=
  match instruction.phy_instr_operand with
  | none => (.Fatal, w, instruction)
  | some .otherPhyInstrOperand => (.Fatal, w, instruction)
  | some (.AccessBlobArgCbPhyInstrOperand _ _) => (.Fatal, w, instruction)
  | some (.CopyBlobToOtherDevicePhyInstrOperand src_tensor dst_tensor) =>
    match src_tensor.eager_blob_object with
    | none => (.Error, w, instruction)
    | some src_blob =>
      match dst_tensor.eager_blob_object with
      | none => (.Error, w, instruction)
      | some dst_blob =>
        if src_blob.ByteSizeOfBlobBody ≠ dst_blob.ByteSizeOfBlobBody then
          (.Fatal, w, instruction)
        else
          match RegisterMemory rt w (register_blob src_tensor dst_tensor src_blob dst_blob) with
          | (.Ok, w1) =>
            match SyncAutoMemcpy rt w1 dst_blob src_blob src_blob.ByteSizeOfBlobBody
                src_blob.mem_case dst_blob.mem_case with
            | (.Ok, w2, dst_blob1) =>
              match UnRegisterMemory rt w2
                  (register_blob src_tensor dst_tensor src_blob dst_blob1) with
              | (.Ok, w3) =>
                (.Ok, w3, instruction.with_dst_blob src_tensor dst_tensor dst_blob1)
              | (s, w3) => (s, w3, instruction.with_dst_blob src_tensor dst_tensor dst_blob1)
            | (s, w2, dst_blob1) =>
              (s, w2, instruction.with_dst_blob src_tensor dst_tensor dst_blob1)
          | (s, w1) => (s, w1, instruction)

/-- The destination blob an instruction carries, when it carries one. -/
def Instruction.dst_blob (instruction : Instruction) : Option Blob :=
  match instruction.phy_instr_operand with
  | some (.CopyBlobToOtherDevicePhyInstrOperand _ dst_tensor) => dst_tensor.eager_blob_object
  | _ => none

/-- The stream types the transfer instruction types are bound to. -/
inductive StreamType where
  | DeviceHelperStreamType
  | CudaCopyH2DStreamType
  | CudaCopyD2HStreamType
  deriving DecidableEq, Repr

/-- A registered transfer instruction type: its registered name, its `stream_type`, and
the `Infer` and `Run` it answers with. -/
structure TransferInstructionType where
  name : String
  stream_type : StreamType
  Infer : Instruction → Status × Instruction
  Run : DeviceRuntime → World → Instruction → Status × World × Instruction

/-- Embeds `CpuCopyBlobToGpuInstructionType`: inherits `Infer` and `Run`, overrides nothing. -/
def CpuCopyBlobToGpuInstructionType : TransferInstructionType where
  name := "cpu.to.gpu.CopyBlobToOtherDevice"
  stream_type := .CudaCopyH2DStreamType
  Infer := CopyBlobToOtherDeviceInstructionType.Infer
  Run := CopyBlobToOtherDeviceInstructionType.Run

/-- Embeds `GpuCopyBlobToCpuInstructionType`: inherits `Infer` and `Run`, overrides nothing. -/
def GpuCopyBlobToCpuInstructionType : TransferInstructionType where
  name := "gpu.to.cpu.CopyBlobToOtherDevice"
  stream_type := .CudaCopyD2HStreamType
  Infer := CopyBlobToOtherDeviceInstructionType.Infer
  Run := CopyBlobToOtherDeviceInstructionType.Run

/-! ## `Infer` of the pin and unpin instructions -/

/-- Embeds `CudaHostRegisterBlobInstructionType::Infer` (lines 58-60), whose body is the
comment `do nothing`: the runtime state and the instruction come back as they went in. -/
def CudaHostRegisterBlobInstructionType.Infer (w : World) (instruction : Instruction) :
    Status × World × Instruction :=
  (.Ok, w, instruction)

/-- Embeds `CudaHostUnregisterBlobInstructionType::Infer` (lines 87-89), whose body is the
comment `do nothing`. -/
def CudaHostUnregisterBlobInstructionType.Infer (w : World) (instruction : Instruction) :
    Status × World × Instruction :=
  (.Ok, w, instruction)

/-- The instruction with its physical operand replaced by `op`, everything else kept. -/
def Instruction.with_operand (instruction : Instruction) (op : PhyInstrOperand) :
    Instruction :=
  { instruction with phy_instr_operand := some op }

/-- The source and destination tensors an instruction carries, when its operand is a
transfer operand. -/
def Instruction.transfer_tensors (instruction : Instruction) :
    Option (MirroredTensor × MirroredTensor) :=
  match instruction.phy_instr_operand with
  | some (.CopyBlobToOtherDevicePhyInstrOperand src_tensor dst_tensor) =>
    some (src_tensor, dst_tensor)
  | _ => none

/-! ## Access by callback -/

/-- Embeds `AccessBlobByCallbackInstructionType::Compute` (lines 217-227): the operand
must be present and an `AccessBlobArgCbPhyInstrOperand`; the accessor is built from the
stream's device context and the operand's blob, and the callback is called on it.
The result is the status, the instruction with the operand's blob as the callback left
it, the captured state as the callback left it, and the accessors the callback was
invoked with, in order. -/
def AccessBlobByCallbackInstructionType.Compute (instruction : Instruction)
    (caller : CallerState) : Status × Instruction × CallerState × List OfBlob :=
  match instruction.phy_instr_operand with
  | none => (.Fatal, instruction, caller, [])
  | some (.CopyBlobToOtherDevicePhyInstrOperand _ _) => (.Fatal, instruction, caller, [])
  | some .otherPhyInstrOperand => (.Fatal, instruction, caller, [])
  | some (.AccessBlobArgCbPhyInstrOperand eager_blob_object callback) =>
    let ofblob : OfBlob :=
      { device_ctx := instruction.stream.device_ctx, blob := eager_blob_object }
    let r := callback ofblob caller
    (.Ok,
      { instruction with
        phy_instr_operand := some (.AccessBlobArgCbPhyInstrOperand r.1 callback) },
      r.2, [ofblob])

/-- The blob behind an access-by-callback operand, when the instruction carries one. -/
def Instruction.accessed_blob (instruction : Instruction) : Option Blob :=
  match instruction.phy_instr_operand with
  | some (.AccessBlobArgCbPhyInstrOperand eager_blob_object _) => some eager_blob_object
  | _ => none

/-! ## Lazy reference -/

/-- A logical blob id: operator name and blob name. -/
structure LogicalBlobId where
  op_name : String
  blob_name : String
  deriving DecidableEq, Repr

/-- The register manager and the name parser `Run` calls, both outside the embedded
file. `GenLogicalBlobId` parses a logical name, `Blob4LbiAndParallelId` returns the
address of the blob registered under a logical blob id and parallel id. `none` stands
for a call that does not return (a failed check inside it). -/
structure RegstMgr where
  GenLogicalBlobId : String → Option LogicalBlobId
  Blob4LbiAndParallelId : LogicalBlobId → Int → Option Nat

/-- A `LazyRefBlobObject`: it holds the address of a blob it does not own, no bytes. -/
structure LazyRefBlobObject where
  blob : Nat
  deriving DecidableEq, Repr

/-- Embeds `LazyReferenceInstructionType::Run` (lines 203-215), for an output operand
that holds no object when `Run` starts. The result is the status, the error `Run`
returned if any, and the object the output operand holds afterwards (`none`: still
unbound). -/
def LazyReferenceInstructionType.Run (mgr : RegstMgr) (instruction : Instruction) :
    Status × Option ErrorProto × Option LazyRefBlobObject :=
  match instruction.lbn_sym_id with
  | .error e => (.Error, some e, none)
  | .ok lbn =>
    match instruction.parallel_desc.GetParallelContext instruction.stream.machine_id
        instruction.stream.device_id with
    | .error e => (.Error, some e, none)
    | .ok parallel_id =>
      match mgr.GenLogicalBlobId lbn with
      | none => (.Fatal, none, none)
      | some lbi =>
        match mgr.Blob4LbiAndParallelId lbi parallel_id with
        | none => (.Fatal, none, none)
        | some blob => (.Ok, none, some { blob := blob })

/-! ## Host binding: copies between a tensor and a caller array (`tensor.cpp`) -/

/-- The type of the `Copy` function pointer of `CopyBetweenMirroredTensorAndNumpy`: given
the accessor and the caller's array, the blob and the array after the copy. -/
abbrev CopyFn := OfBlob → List Byte → Blob × List Byte

/-- Modelled from the spec: `OfBlob_CopyToBuffer`, declared outside the embedded files,
the "read buffer into externally supplied memory" half of the pair. The array receives
the bytes of the blob; the blob is not written. -/
def OfBlob_CopyToBuffer : CopyFn := fun ofblob _ => (ofblob.blob, ofblob.blob.body)

/-- Modelled from the spec: `OfBlob_CopyFromBuffer`, declared outside the embedded files,
the "write externally supplied memory into buffer" half of the pair. The blob receives
the bytes of the array; the array is not written. -/
def OfBlob_CopyFromBuffer : CopyFn := fun ofblob array =>
  ({ ofblob.blob with body := array }, array)

/-- The lambda of lines 80-83: `Copy(ofblob_ptr, array); synced = true;`. -/
def copyCallback (Copy : CopyFn) : Callback := fun ofblob st =>
  let r := Copy ofblob st.array
  (r.1, { array := r.2, synced := true })

/-- What the instructions builder receives from
`builder->AccessBlobByCallback(tensor, callback, modifier)`. -/
structure AccessBlobByCallbackCall where
  tensor : MirroredTensor
  callback : Callback
  modifier : String

/-- Embeds the submitting part of `CopyBetweenMirroredTensorAndNumpy` (lines 75-85): the
flag starts down and one access is handed to the builder, with the lambda around `Copy`
and the caller's modifier. The result is the initial flag and the list of accesses
submitted. -/
def CopyBetweenMirroredTensorAndNumpy.submit (tensor : MirroredTensor) (Copy : CopyFn)
    (modifier : String) : Bool × List AccessBlobByCallbackCall :=
  (false, [{ tensor := tensor, callback := copyCallback Copy, modifier := modifier }])

/-- Embeds `ApiCopyMirroredTensorToNumpy` (lines 94-99) as far as the submission goes. -/
def ApiCopyMirroredTensorToNumpy.submit (tensor : MirroredTensor) :
    Bool × List AccessBlobByCallbackCall :=
  CopyBetweenMirroredTensorAndNumpy.submit tensor OfBlob_CopyToBuffer "const"

/-- Embeds `ApiCopyMirroredTensorFromNumpy` (lines 101-106) as far as the submission
goes. -/
def ApiCopyMirroredTensorFromNumpy.submit (tensor : MirroredTensor) :
    Bool × List AccessBlobByCallbackCall :=
  CopyBetweenMirroredTensorAndNumpy.submit tensor OfBlob_CopyFromBuffer "mut"

/-- Where the calling thread is in `CopyBetweenMirroredTensorAndNumpy`: before
`PhysicalRun` (line 77), before `WithScopedRelease` (line 87), in the spin loop
`while (!synced)` (line 88), past the loop and before the end of the scoped release, and
returned (line 91). -/
inductive CallerPc where
  | atSubmit
  | atRelease
  | spinning
  | atReacquire
  | returned
  deriving DecidableEq, Repr

/-- Where the stream worker is in the submitted callback (lines 80-83): not started,
past `Copy(ofblob_ptr, array)`, past `synced = true`. -/
inductive WorkerPc where
  | idle
  | copied
  | finished
  deriving DecidableEq, Repr

/-- The two threads. -/
inductive Thread where
  | caller
  | worker
  deriving DecidableEq, Repr

/-- The state shared by the two threads: their positions, whether the access has been
handed to the stream, whether the caller holds the foreign lock, the atomic flag
`synced`, and the blob and array the copy works on. -/
structure WaitState where
  caller : CallerPc
  worker : WorkerPc
  submitted : Bool
  lockHeld : Bool
  synced : Bool
  blob : Blob
  array : List Byte
  deriving DecidableEq, Repr

/-- The state in which `CopyBetweenMirroredTensorAndNumpy` is entered: the caller holds
the foreign lock, `synced` is initialised to false (line 75), nothing is submitted. -/
def CopyBetweenMirroredTensorAndNumpy.init (blob : Blob) (array : List Byte) : WaitState :=
  { caller := .atSubmit, worker := .idle, submitted := false, lockHeld := true,
    synced := false, blob := blob, array := array }

/-- Modelled from the spec: one step of one thread. `PhysicalRun`, the stream worker and
`ForeignLockHelper::WithScopedRelease` are outside the embedded files: `PhysicalRun`
hands the access to the stream, the worker then runs the callback of lines 80-83 on the
accessor of its device context and the blob, one statement per step, and
`WithScopedRelease` releases the foreign lock, runs the spin loop of line 88 and takes
the lock again. Reads and writes of the atomic flag are single steps. A thread that
cannot move leaves the state as it is. -/
def CopyBetweenMirroredTensorAndNumpy.step (Copy : CopyFn) (device_ctx : Nat) (t : Thread)
    (s : WaitState) : WaitState :=
  match t with
  | .caller =>
    match s.caller with
    | .atSubmit => { s with submitted := true, caller := .atRelease }
    | .atRelease => { s with lockHeld := false, caller := .spinning }
    | .spinning => if s.synced then { s with caller := .atReacquire } else s
    | .atReacquire => { s with lockHeld := true, caller := .returned }
    | .returned => s
  | .worker =>
    match s.worker with
    | .idle =>
      if s.submitted then
        { s with
          blob := (Copy { device_ctx := device_ctx, blob := s.blob } s.array).1
          array := (Copy { device_ctx := device_ctx, blob := s.blob } s.array).2
          worker := .copied }
      else s
    | .copied => { s with synced := true, worker := .finished }
    | .finished => s

/-- The state after the threads have moved in the order of `schedule`. -/
def CopyBetweenMirroredTensorAndNumpy.run (Copy : CopyFn) (device_ctx : Nat)
    (schedule : List Thread) (s : WaitState) : WaitState :=
  schedule.foldl (fun st t => CopyBetweenMirroredTensorAndNumpy.step Copy device_ctx t st) s

/-- What holds in every state the two threads can reach from the initial state on
`blob` and `array`. -/
def CopyBetweenMirroredTensorAndNumpy.Inv (Copy : CopyFn) (device_ctx : Nat) (blob : Blob)
    (array : List Byte) (s : WaitState) : Prop :=
  (s.synced = true ↔ s.worker = .finished) ∧
  (s.caller = .atReacquire ∨ s.caller = .returned → s.synced = true) ∧
  (s.lockHeld = false ↔ s.caller = .spinning ∨ s.caller = .atReacquire) ∧
  (s.worker = .idle → s.blob = blob ∧ s.array = array) ∧
  (s.worker ≠ .idle →
    s.blob = (Copy { device_ctx := device_ctx, blob := blob } array).1 ∧
    s.array = (Copy { device_ctx := device_ctx, blob := blob } array).2)

/-! ### The name of the copy method for an element type -/

/-- The table `data_type2func_name` of lines 110-115 and 125-130, built from the sequence
`POD_DATA_TYPE_SEQ` of pairs (C++ type name, data type value): one entry per pair, the
name being the given stem followed by the type name. The sequence is a macro defined
outside the embedded files and is a parameter here. -/
def data_type2func_name (stem : String) (POD_DATA_TYPE_SEQ : List (String × Int)) :
    List (Int × String) :=
  POD_DATA_TYPE_SEQ.map fun tp => (tp.2, stem ++ tp.1)

/-- Modelled from the spec: the helper `MapAt` of `container_util.h`, outside the embedded
files, whose result the source passes through `JUST`: the lookup behind the
dtype-parameterized pair yields the value stored under the key and fails with an error
when the key is absent. Of several entries with one key the hash map built from an
initializer list keeps the first. -/
def MapAt (m : List (Int × String)) (key : Int) : Except ErrorProto String :=
  match m.find? (fun kv => kv.1 == key) with
  | some kv => .ok kv.2
  | none => .error "key not found"

/-- Embeds `GetCopyMirroredTensorToNumpyFuncName` (lines 108-117); `data_type` is
`static_cast<int64_t>(dtype.data_type())`. -/
def GetCopyMirroredTensorToNumpyFuncName (POD_DATA_TYPE_SEQ : List (String × Int))
    (data_type : Int) : Except ErrorProto String :=
  MapAt (data_type2func_name "_copy_to_numpy_" POD_DATA_TYPE_SEQ) data_type

/-- Embeds `GetCopyMirroredTensorFromNumpyFuncName` (lines 123-132). -/
def GetCopyMirroredTensorFromNumpyFuncName (POD_DATA_TYPE_SEQ : List (String × Int))
    (data_type : Int) : Except ErrorProto String :=
  MapAt (data_type2func_name "_copy_from_numpy_" POD_DATA_TYPE_SEQ) data_type

/-- Embeds `SpecializedDef<MirroredTensor>` (lines 140-153): the names it defines on the
class, in order. -/
def SpecializedDef_MirroredTensor (POD_DATA_TYPE_SEQ : List (String × Int)) : List String :=
  (POD_DATA_TYPE_SEQ.map fun tp =>
      ["_copy_to_numpy_" ++ tp.1, "_copy_from_numpy_" ++ tp.1]).flatten ++
    ["_get_copy_mirrored_tensor_to_numpy_func_name",
      "_get_copy_mirrored_tensor_from_numpy_func_name"]

/-- Embeds `ExportTensor<MirroredTensor>(m, "LocalTensor")` (lines 155-187, 193): the
names of the properties and methods exported on `LocalTensor`. -/
def ExportTensor_LocalTensor (POD_DATA_TYPE_SEQ : List (String × Int)) : List String :=
  ["shape", "device", "is_cuda", "dtype", "data", "grad", "grad_fn", "requires_grad",
    "is_leaf", "retain_grad", "detach", "placement", "is_lazy", "is_consistent",
    "_blob_object", "_set_requires_grad", "_set_blob_object"] ++
    SpecializedDef_MirroredTensor POD_DATA_TYPE_SEQ

/-! ## Collective boxing executor (`executor.h`)

`Executor` is an abstract interface: `Init`, `GroupRequests` and `ExecuteRequests` are
pure virtual and no implementation is among the embedded files. The three operations are
modelled from the contract the spec gives for them. -/

/-- Modelled from the spec: what is known of a collective request, the rank of the
participant that issued it and, from the plan, the site it belongs to (operation kind,
participant set, data shape). The request type is only declared in `executor.h`. -/
structure RequestDesc where
  rank : Nat
  op_kind : Nat
  participants : List Nat
  shape : List Nat
  deriving DecidableEq, Repr

/-- Modelled from the spec: two requests can be issued as a single combined communication
operation when they have the same operation kind, the same participant set and the same
data shape. Compatibility is not defined in the embedded files. -/
def RequestDesc.compatible (a b : RequestDesc) : Bool :=
  a.op_kind == b.op_kind && a.participants == b.participants && a.shape == b.shape

/-- Modelled from the spec: the request store, which is only declared in `executor.h`: the
identifiers of the pending requests, and the identifiers whose completion callback has
been invoked, in order. -/
structure RequestStore where
  pending : List Int
  completed : List Int
  deriving DecidableEq, Repr

/-- Modelled from the spec: an executor after `Init(plan, request_store)`, bound to a
fixed plan, which describes the request behind every identifier, and to a request store.
No implementation of the interface is among the embedded files. -/
structure Executor where
  plan : Int → RequestDesc
  request_store : RequestStore

/-- Modelled from the spec: `Init` binds the executor to the plan and the store. The
method is pure virtual in `executor.h`. -/
def Executor.Init (plan : Int → RequestDesc) (request_store : RequestStore) : Executor :=
  { plan := plan, request_store := request_store }

/-- Modelled from the spec: `GroupRequests`, pure virtual in `executor.h`. The batch is cut
into groups of requests that can be issued as one combined operation. Submission order is
never changed (no dependency information is available from which an independent request
could be told), and among the groupings that keep the order each group is as large as
possible: a request joins the group of the request that follows it exactly when the two
are compatible. -/
def Executor.GroupRequests (ex : Executor) : List Int → List (List Int)
  | [] => []
  | id :: rest =>
    match ex.GroupRequests rest with
    | [] => [[id]]
    | [] :: groups => [id] :: groups
    | (next :: group) :: groups =>
      if (ex.plan id).compatible (ex.plan next) then (id :: next :: group) :: groups
      else [id] :: (next :: group) :: groups

/-- Modelled from the spec: `ExecuteRequests`, pure virtual in `executor.h`. The operation
is issued for exactly the given identifiers; on completion the completion callback of each
is invoked and the request is removed from the store. -/
def Executor.ExecuteRequests (ex : Executor) (request_ids : List Int) : Executor :=
  { ex with
    request_store :=
      { pending := ex.request_store.pending.filter (fun id => id ∉ request_ids)
        completed := ex.request_store.completed ++ request_ids } }

/-! ## The IR layer (`MLIROneFlowTranslation.cpp`): attributes -/

/-- The data type enumeration of the job description, `::oneflow::DataType`: the eleven
values the source names, and any other value. -/
inductive DataType where
  | kInvalidDataType
  | kChar
  | kFloat
  | kDouble
  | kInt8
  | kInt32
  | kInt64
  | kUInt8
  | kOFRecord
  | kFloat16
  | kTensorBuffer
  | kOther (value : Nat)
  deriving DecidableEq, Repr

/-- The data type enumeration of the IR dialect, `mlir::oneflow::DataType`: the eleven
cases the source names. It is generated code outside the embedded files. -/
inductive IrDataType where
  | InvalidDataType
  | Char
  | Float
  | Double
  | Int8
  | Int32
  | Int64
  | UInt8
  | OFRecord
  | Float16
  | TensorBuffer
  deriving DecidableEq, Repr

/-- The generated `symbolizeDataType`, from a value of the job-side enumeration to the
dialect-side case: the two enumerations mirror each other case by case, as the two
`switch` statements of the source pair them; a value outside the eleven has no case. -/
def symbolizeDataType : DataType → Option IrDataType
  | .kInvalidDataType => some .InvalidDataType
  | .kChar => some .Char
  | .kFloat => some .Float
  | .kDouble => some .Double
  | .kInt8 => some .Int8
  | .kInt32 => some .Int32
  | .kInt64 => some .Int64
  | .kUInt8 => some .UInt8
  | .kOFRecord => some .OFRecord
  | .kFloat16 => some .Float16
  | .kTensorBuffer => some .TensorBuffer
  | .kOther _ => none

/-- The generated `stringifyEnum`: the name of the case. -/
def stringifyEnum : IrDataType → String
  | .InvalidDataType => "InvalidDataType"
  | .Char => "Char"
  | .Float => "Float"
  | .Double => "Double"
  | .Int8 => "Int8"
  | .Int32 => "Int32"
  | .Int64 => "Int64"
  | .UInt8 => "UInt8"
  | .OFRecord => "OFRecord"
  | .Float16 => "Float16"
  | .TensorBuffer => "TensorBuffer"

/-- The generated `symbolizeEnum<DataType>`: the case of that name, if any. -/
def symbolizeEnum (name : String) : Option IrDataType :=
  [IrDataType.InvalidDataType, .Char, .Float, .Double, .Int8, .Int32, .Int64, .UInt8,
    .OFRecord, .Float16, .TensorBuffer].find? (fun dt => stringifyEnum dt == name)

/-- The attribute value of a user op, `::oneflow::AttrValue`: the twelve cases the import
reads, any other case of the message, and the message with no case set. Floating-point
values are kept as their bit patterns; the conversions only move them. -/
inductive AttrValue where
  | at_int32 (v : Int)
  | at_int64 (v : Int)
  | at_bool (v : Bool)
  | at_float (bits : Nat)
  | at_double (bits : Nat)
  | at_string (v : String)
  | at_shape (dim : List Int)
  | at_list_int32 (val : List Int)
  | at_list_int64 (val : List Int)
  | at_list_float (val : List Nat)
  | at_list_string (val : List String)
  | at_data_type (v : DataType)
  | at_other
  | VALUE_NOT_SET
  deriving DecidableEq, Repr

/-- The types of the IR that the conversions compare. `NoneType` is the type of an
attribute that carries no type of its own, such as an array attribute. -/
inductive IrType where
  | i1
  | i32
  | i64
  | f32
  | f64
  | NoneType
  | otherType
  deriving DecidableEq, Repr

/-- An attribute that stands as an element of an array attribute. -/
inductive ElementAttr where
  | IntegerAttr (type : IrType) (value : Int)
  | FloatAttr (type : IrType) (bits : Nat)
  | StringAttr (value : String)
  | otherAttr
  deriving DecidableEq, Repr

/-- An attribute of the IR. A `BoolAttr` is an `IntegerAttr` of type `i1` (the source
handles "bool before int because it is i1"). -/
inductive Attribute where
  | IntegerAttr (type : IrType) (value : Int)
  | FloatAttr (type : IrType) (bits : Nat)
  | StringAttr (value : String)
  | DenseIntElementsAttr (values : List Int)
  | ArrayAttr (value : List ElementAttr)
  | otherAttr
  deriving DecidableEq, Repr

/-- The `getType()` of an attribute. -/
def Attribute.getType : Attribute → IrType
  | .IntegerAttr type _ => type
  | .FloatAttr type _ => type
  | .DenseIntElementsAttr _ => .otherType
  | _ => .NoneType

/-- The builder call `getBoolAttr`. -/
def getBoolAttr (v : Bool) : Attribute := .IntegerAttr .i1 (if v then 1 else 0)

/-- The builder call `getI32ArrayAttr`. -/
def getI32ArrayAttr (vs : List Int) : Attribute :=
  .ArrayAttr (vs.map (ElementAttr.IntegerAttr .i32))

/-- The builder call `getI64ArrayAttr`. -/
def getI64ArrayAttr (vs : List Int) : Attribute :=
  .ArrayAttr (vs.map (ElementAttr.IntegerAttr .i64))

/-- The builder call `getF32ArrayAttr`. -/
def getF32ArrayAttr (vs : List Nat) : Attribute :=
  .ArrayAttr (vs.map (ElementAttr.FloatAttr .f32))

/-- The builder call `getStrArrayAttr`. -/
def getStrArrayAttr (vs : List String) : Attribute :=
  .ArrayAttr (vs.map ElementAttr.StringAttr)

/-- What a handler writes: text on standard output, text on standard error, a `dump()`
of the module or of an operation, and an error emitted on the module. -/
inductive Output where
  | cout (text : String)
  | cerr (text : String)
  | dump (what : String)
  | emitError (message : String)
  deriving DecidableEq, Repr

/-- The body of the loop of `Importer::namedAttributesFromUserOp` (lines 125-200) for one
attribute `name`, `value`: the IR attribute pushed on `attr_vec`, `none` when the value
cannot be handled and the function returns `failure()`, together with the errors emitted
on the module. -/
def Importer.attributeFromAttrValue (name : String) (value : AttrValue) :
    Option Attribute × List Output :=
  match value with
  | .at_int32 v => (some (.IntegerAttr .i32 v), [])
  | .at_int64 v => (some (.IntegerAttr .i64 v), [])
  | .at_bool v => (some (getBoolAttr v), [])
  | .at_float bits => (some (.FloatAttr .f32 bits), [])
  | .at_double bits => (some (.FloatAttr .f64 bits), [])
  | .at_string v => (some (.StringAttr v), [])
  | .at_shape dim => (some (.DenseIntElementsAttr dim), [])
  | .at_list_int32 val => (some (getI32ArrayAttr val), [])
  | .at_list_int64 val => (some (getI64ArrayAttr val), [])
  | .at_list_float val => (some (getF32ArrayAttr val), [])
  | .at_list_string val => (some (getStrArrayAttr val), [])
  | .at_data_type v =>
    let dt := symbolizeDataType v
    let emitted : List Output :=
      match v with
      | .kOther _ => [.emitError ("fail to convert op attr, key: " ++ name)]
      | _ => []
    (some (.StringAttr ("dt::" ++ stringifyEnum (dt.getD .InvalidDataType))), emitted)
  | .at_other => (none, [.emitError ("can't handle user op attr: " ++ name)])
  | .VALUE_NOT_SET => (none, [.emitError ("can't handle user op attr: " ++ name)])

/-- The effect of `user_attr.mutable_at_shape()->add_dim(v)`: the shape case is selected,
empty if another case was set, and `v` is appended. -/
def AttrValue.add_dim (user_attr : AttrValue) (v : Int) : AttrValue :=
  match user_attr with
  | .at_shape dim => .at_shape (dim ++ [v])
  | _ => .at_shape [v]

/-- The effect of `user_attr.mutable_at_list_int32()->add_val(v)`. -/
def AttrValue.add_list_int32 (user_attr : AttrValue) (v : Int) : AttrValue :=
  match user_attr with
  | .at_list_int32 val => .at_list_int32 (val ++ [v])
  | _ => .at_list_int32 [v]

/-- The effect of `user_attr.mutable_at_list_int64()->add_val(v)`. -/
def AttrValue.add_list_int64 (user_attr : AttrValue) (v : Int) : AttrValue :=
  match user_attr with
  | .at_list_int64 val => .at_list_int64 (val ++ [v])
  | _ => .at_list_int64 [v]

/-- The effect of `user_attr.mutable_at_list_float()->add_val(v)`. -/
def AttrValue.add_list_float (user_attr : AttrValue) (v : Nat) : AttrValue :=
  match user_attr with
  | .at_list_float val => .at_list_float (val ++ [v])
  | _ => .at_list_float [v]

/-- The job-side value set for a dialect-side data type (the `switch` of lines 401-421). -/
def DataType.ofIr : IrDataType → DataType
  | .InvalidDataType => .kInvalidDataType
  | .Char => .kChar
  | .Float => .kFloat
  | .Double => .kDouble
  | .Int8 => .kInt8
  | .Int32 => .kInt32
  | .Int64 => .kInt64
  | .UInt8 => .kUInt8
  | .OFRecord => .kOFRecord
  | .Float16 => .kFloat16
  | .TensorBuffer => .kTensorBuffer

/-- The string test `StringRef::startswith`, on the characters of the two strings. -/
def startswith (s start : String) : Bool :=
  s.data.take start.data.length == start.data

/-- The second half of `StringRef::split("::")` for a string that starts with `first`
followed by `::`, `first` holding no colon: the characters after that first separator. -/
def splitSecond (s first : String) : String :=
  String.mk (s.data.drop (first.data.length + 2))

/-- One round of the loop over the elements of an array attribute (lines 431-449):
`array_type` is `ref.getType()`, the type of the array attribute itself, which line 435
compares with the 64-bit integer type. -/
def Importer.convertArrayElement (key : String) (array_type : IrType)
    (state : AttrValue × String) (v : ElementAttr) : AttrValue × String :=
  match v with
  | .IntegerAttr type value =>
    if type = .i32 then (state.1.add_list_int32 value, state.2)
    else if array_type = .i64 then (state.1.add_list_int64 value, state.2)
    else (state.1, "fail to convert op attr to int list, key: " ++ key)
  | .FloatAttr type bits =>
    if type = .f32 then (state.1.add_list_float bits, state.2)
    else (state.1, "fail to convert op attr to float list, key: " ++ key)
  | _ => (state.1, "fail to convert op attr to list, key: " ++ key)

/-- The conversion of one attribute in `Importer::tryToUpdateJob` (lines 377-452): from
the IR attribute under `key` and the error text so far, the `user_attr` that is stored
under `key` and the error text afterwards. -/
def Importer.attrValueFromAttribute (key : String) (attr : Attribute) (err_str : String) :
    AttrValue × String :=
  match attr with
  | .IntegerAttr type value =>
    if type = .i1 then (.at_bool (value ≠ 0), err_str)
    else if type = .i32 then (.at_int32 value, err_str)
    else if type = .i64 then (.at_int64 value, err_str)
    else (.VALUE_NOT_SET, "fail to convert op attr to int32 or int64, key: " ++ key)
  | .FloatAttr type bits =>
    if type = .f32 then (.at_float bits, err_str)
    else if type = .f64 then (.at_double bits, err_str)
    else (.VALUE_NOT_SET, "fail to convert op attr float or double, key: " ++ key)
  | .StringAttr value =>
    if startswith value "dt::" then
      match symbolizeEnum (splitSecond value "dt") with
      | some dt => (.at_data_type (DataType.ofIr dt), err_str)
      | none => (.VALUE_NOT_SET, err_str)
    else (.at_string value, err_str)
  | .DenseIntElementsAttr values =>
    (values.foldl AttrValue.add_dim .VALUE_NOT_SET, err_str)
  | .ArrayAttr value =>
    value.foldl (Importer.convertArrayElement key (Attribute.ArrayAttr value).getType)
      (.VALUE_NOT_SET, err_str)
  | .otherAttr => (.VALUE_NOT_SET, "fail to convert op attr, key: " ++ key)

/-- An attribute value there and back: imported under `name`, then converted back with
no error so far. `none` when the import does not accept the value. -/
def Importer.roundTripAttr (name : String) (value : AttrValue) :
    Option (AttrValue × String) :=
  match (Importer.attributeFromAttrValue name value).1 with
  | some attr => some (Importer.attrValueFromAttribute name attr "")
  | none => none

/-! ## The IR layer: import of a job, and the round trip -/

/-- The `UserOpConf` message as far as the import reads it. The three maps are lists of
entries in the order in which the import iterates over them. -/
structure UserOpConf where
  op_type_name : String
  input : List (String × List String)
  output : List (String × List String)
  attr : List (String × AttrValue)
  deriving DecidableEq, Repr

/-- The `OperatorConf` message: `user_conf` is `none` when `has_user_conf()` is false. -/
structure OperatorConf where
  name : String
  user_conf : Option UserOpConf
  deriving DecidableEq, Repr

/-- The `ParallelConf` message as far as the import reads it. -/
structure ParallelConf where
  device_tag : String
  device_name : List String
  deriving DecidableEq, Repr

/-- The `Job` message: its name and the operators of its net. -/
structure Job where
  job_name : String
  op : List OperatorConf
  deriving DecidableEq, Repr

/-- The interface `RoundTripOneFlowJobWrapperInterface`, declared outside the embedded
files: the job and the three lookups the import calls. -/
structure RoundTripOneFlowJobWrapperInterface where
  job : Job
  ParallelConf4OpName : String → ParallelConf
  InputBns4OpName : String → List String × List String
  OutputLbns4OpName : String → List String

/-- A value of the IR: result number `index` of the operation created as number `owner`
in the entry block. -/
structure Value where
  owner : Nat
  index : Nat
  deriving DecidableEq, Repr

/-- An attribute with its name. -/
abbrev NamedAttribute := String × Attribute

/-- An operation of the IR: its name, its attributes, its operands, and the element types
of its results (each result is a rank-0 tensor). -/
structure Operation where
  name : String
  attributes : List NamedAttribute
  operands : List Value
  results : List IrType
  deriving DecidableEq, Repr

/-- What `failed(...)` and `succeeded(...)` tell apart, and a third way out of a
function: the process is aborted inside a library call (a failed check or assertion). -/
inductive LogicalResult where
  | success
  | failure
  | aborted
  deriving DecidableEq, Repr

/-- The state of an `Importer`: the wrapper of the job, the operations created so far in
the entry block, the map `lbn2result_`, and what has been written so far. -/
structure Importer where
  job_wrapper : RoundTripOneFlowJobWrapperInterface
  block : List Operation
  lbn2result_ : List (String × Value)
  out : List Output

/-- The constructor of `Importer` (lines 53-59): nothing created, nothing bound, nothing
written. -/
def Importer.create (job_wrapper : RoundTripOneFlowJobWrapperInterface) : Importer :=
  { job_wrapper := job_wrapper, block := [], lbn2result_ := [], out := [] }

/-- The lookup `lbn2result_.find(lbn)` followed by `at(lbn)`. -/
def Importer.find (imp : Importer) (lbn : String) : Option Value :=
  (imp.lbn2result_.find? (fun kv => kv.1 == lbn)).map Prod.snd

/-- The call `lbn2result_.insert` on an unordered map: a key that is present keeps its
value. -/
def Importer.insert (imp : Importer) (lbn : String) (v : Value) : Importer :=
  if imp.lbn2result_.any (fun kv => kv.1 == lbn) then imp
  else { imp with lbn2result_ := imp.lbn2result_ ++ [(lbn, v)] }

/-- Embeds `Importer::AddInputOutputAndSegmentSizes` (lines 88-115). -/
def Importer.AddInputOutputAndSegmentSizes (user_conf : UserOpConf)
    (attr_vec : List NamedAttribute) : List NamedAttribute :=
  attr_vec ++
    [("input_lbn_segment_keys", getStrArrayAttr (user_conf.input.map Prod.fst)),
      ("input_lbn_segment_sizes",
        getI32ArrayAttr (user_conf.input.map fun kv => (kv.2.length : Int))),
      ("output_lbns", getStrArrayAttr (user_conf.output.map Prod.snd).flatten),
      ("output_lbn_segment_keys", getStrArrayAttr (user_conf.output.map Prod.fst)),
      ("output_lbn_segment_sizes",
        getI32ArrayAttr (user_conf.output.map fun kv => (kv.2.length : Int)))]

/-- The loop of `Importer::namedAttributesFromUserOp` over the attributes (lines
123-201): it stops with `failure` at the first value that cannot be handled. -/
def Importer.namedAttributesLoop :
    List (String × AttrValue) → List NamedAttribute → List Output →
      LogicalResult × List NamedAttribute × List Output
  | [], attr_vec, out => (.success, attr_vec, out)
  | (name, value) :: rest, attr_vec, out =>
    match Importer.attributeFromAttrValue name value with
    | (some attr, emitted) =>
      Importer.namedAttributesLoop rest (attr_vec ++ [(name, attr)]) (out ++ emitted)
    | (none, emitted) => (.failure, attr_vec, out ++ emitted)

/-- Embeds `Importer::namedAttributesFromUserOp` (lines 117-211): the result, `attr_vec`
afterwards, and what was emitted. -/
def Importer.namedAttributesFromUserOp (op : OperatorConf) (attr_vec : List NamedAttribute) :
    LogicalResult × List NamedAttribute × List Output :=
  match op.user_conf with
  | none => (.failure, attr_vec, [.emitError ("Not a user op. op name: " ++ op.name)])
  | some user_conf =>
    match Importer.namedAttributesLoop user_conf.attr attr_vec [] with
    | (.success, attr_vec1, out) =>
      (.success,
        Importer.AddInputOutputAndSegmentSizes user_conf attr_vec1 ++
          [("op_type_name", .StringAttr user_conf.op_type_name),
            ("name", .StringAttr op.name)],
        out)
    | r => r

/-- Embeds `Importer::operandsFromUserOp` (lines 213-232) for a user op: the values bound
to the input names that are known, in order; unknown names are skipped. -/
def Importer.operandsFromUserOp (imp : Importer) (user_conf : UserOpConf) : List Value :=
  ((user_conf.input.map Prod.snd).flatten.map imp.find).reduceOption

/-- The inner loop of lines 282-286 for the names of one output key: the name number `i`
of the key is bound to `created_op->getResult(i)`; asking for a result the operation does
not have aborts. `owner` is the number of the created operation. -/
def Importer.bindResults (owner results : Nat) :
    Nat → List String → Importer → LogicalResult × Importer
  | _, [], imp => (.success, imp)
  | i, lbn :: rest, imp =>
    if i < results then
      Importer.bindResults owner results (i + 1) rest
        (imp.insert lbn { owner := owner, index := i })
    else (.aborted, imp)

/-- The outer loop of lines 281-287 over the output keys: `int i = 0` is declared inside
the loop over the keys, so the numbering starts again at 0 for every key. -/
def Importer.bindOutputs (owner results : Nat) :
    List (String × List String) → Importer → LogicalResult × Importer
  | [], imp => (.success, imp)
  | kv :: rest, imp =>
    match Importer.bindResults owner results 0 kv.2 imp with
    | (.success, imp1) => Importer.bindOutputs owner results rest imp1
    | r => r

/-- Embeds `Importer::processUserOp` (lines 234-290). -/
def Importer.processUserOp (imp : Importer) (op : OperatorConf) : LogicalResult × Importer :=
  match op.user_conf with
  | none =>
    (.failure,
      { imp with out := imp.out ++ [.emitError ("Not a user op. op name: " ++ op.name)] })
  | some user_conf =>
    let pc := imp.job_wrapper.ParallelConf4OpName op.name
    let attr_vec : List NamedAttribute :=
      [("device", .StringAttr pc.device_tag), ("placement", getStrArrayAttr pc.device_name)]
    match Importer.namedAttributesFromUserOp op attr_vec with
    | (.success, named_attributes, emitted) =>
      let imp1 : Importer := { imp with out := imp.out ++ emitted }
      let operands := imp1.operandsFromUserOp user_conf
      let created : Option Operation :=
        if user_conf.op_type_name = "constant" then
          match user_conf.attr.find? (fun kv => kv.1 == "is_floating_value") with
          | none => none
          | some kv =>
            let is_floating_value := match kv.2 with
              | .at_bool v => v
              | _ => false
            some { name := "oneflow.constant", attributes := named_attributes,
                   operands := operands,
                   results := [if is_floating_value then .f32 else .i32] }
        else
          some { name := "oneflow." ++ user_conf.op_type_name,
                 attributes := named_attributes, operands := operands,
                 results := (user_conf.output.map Prod.snd).flatten.map fun _ => IrType.f32 }
      match created with
      | none => (.aborted, imp1)
      | some created_op =>
        Importer.bindOutputs imp1.block.length created_op.results.length user_conf.output
          { imp1 with block := imp1.block ++ [created_op] }
    | (r, _, emitted) => (r, { imp with out := imp.out ++ emitted })

/-- The loop of lines 324-328: `int i = 0` is declared inside the loop, so every output
name is bound to `created_op->getResult(0)`. -/
def Importer.bindSystemOutputs (owner : Nat) : List String → Importer → Importer
  | [], imp => imp
  | output_lbn :: rest, imp =>
    Importer.bindSystemOutputs owner rest (imp.insert output_lbn { owner := owner, index := 0 })

/-- Embeds `Importer::processSystemOp` (lines 292-334). -/
def Importer.processSystemOp (imp : Importer) (op : OperatorConf) : LogicalResult × Importer :=
  match op.user_conf with
  | some _ =>
    (.failure,
      { imp with out := imp.out ++ [.emitError ("Not a sys op. op name: " ++ op.name)] })
  | none =>
    let input_bns_lbns := imp.job_wrapper.InputBns4OpName op.name
    let output_lbns := imp.job_wrapper.OutputLbns4OpName op.name
    let attr_vec : List NamedAttribute :=
      [("input_bns", getStrArrayAttr input_bns_lbns.1),
        ("output_lbns", getStrArrayAttr output_lbns),
        ("op_name", .StringAttr op.name)]
    let created_op : Operation :=
      { name := "oneflow.system", attributes := attr_vec,
        operands := (input_bns_lbns.2.map imp.find).reduceOption,
        results := output_lbns.map fun _ => IrType.f32 }
    (.success,
      Importer.bindSystemOutputs imp.block.length output_lbns
        { imp with block := imp.block ++ [created_op] })

/-- The loop of `Importer::processJob` over the operators (lines 342-349). -/
def Importer.processOps : List OperatorConf → Importer → LogicalResult × Importer
  | [], imp => (.success, imp)
  | op :: rest, imp =>
    match (if op.user_conf.isSome then imp.processUserOp op else imp.processSystemOp op) with
    | (.success, imp1) => Importer.processOps rest imp1
    | r => r

/-- Embeds `Importer::processJob` (lines 336-355): after the operators, a `ReturnOp` is
appended to the entry block unless its last operation is one. -/
def Importer.processJob (imp : Importer) : LogicalResult × Importer :=
  match Importer.processOps imp.job_wrapper.job.op imp with
  | (.success, imp1) =>
    let returnOp : Operation :=
      { name := "std.return", attributes := [], operands := [], results := [] }
    if (imp1.block.getLast?.map fun o => o.name) = some "std.return" then (.success, imp1)
    else (.success, { imp1 with block := imp1.block ++ [returnOp] })
  | r => r

/-- The substring test `StringRef::contains`, on characters. -/
def containsChars (sub : List Char) : List Char → Bool
  | [] => sub.isEmpty
  | c :: cs => (c :: cs).take sub.length == sub || containsChars sub cs

/-- The loop over the attributes of one user op in `tryToUpdateJob` (lines 370-455): the
attributes `name`, `placement`, `device` and those whose name contains `lbn` are skipped,
each other one is converted. The result is the error text afterwards. -/
def Importer.convertAttributes : List NamedAttribute → String → String
  | [], err_str => err_str
  | (key, attr) :: rest, err_str =>
    if key = "name" ∨ key = "placement" ∨ key = "device" ∨
        containsChars "lbn".data key.data = true then
      Importer.convertAttributes rest err_str
    else
      Importer.convertAttributes rest (Importer.attrValueFromAttribute key attr err_str).2

/-- The lambda `convertOps` of `tryToUpdateJob` (lines 361-457) on one operation: what
is written and the error text afterwards. An operation carrying `op_type_name` is dumped
when it is a `ReluOp` or a `ConstantOp`; its attribute `name` is read as a string
attribute, which aborts when there is none. -/
def Importer.convertOps (op : Operation) (state : LogicalResult × List Output × String) :
    LogicalResult × List Output × String :=
  match state.1 with
  | .success =>
    if op.attributes.any (fun kv => kv.1 == "op_type_name") then
      let dumps : List Output :=
        (if op.name = "oneflow.relu" then [.dump op.name] else []) ++
          (if op.name = "oneflow.constant" then [.dump op.name] else [])
      match op.attributes.find? (fun kv => kv.1 == "name") with
      | some (_, .StringAttr _) =>
        (.success, state.2.1 ++ dumps, Importer.convertAttributes op.attributes state.2.2)
      | _ => (.aborted, state.2.1 ++ dumps, state.2.2)
    else state
  | _ => state

/-- Embeds `Importer::tryToUpdateJob` (lines 357-465) on the operations of the module:
the result and what is written. -/
def Importer.tryToUpdateJob (block : List Operation) : LogicalResult × List Output :=
  match block.foldl (fun st op => Importer.convertOps op st)
      (.success, [Output.cout "try updating job\n"], "") with
  | (.success, out, err_str) =>
    if err_str = "" then (.success, out) else (.failure, out ++ [.emitError err_str])
  | (r, out, _) => (r, out)

/-- Embeds `applyRoundTripPatterns` (lines 467-490). The greedy rewrite driver belongs
to the IR library and is a parameter: from the operations of the module it gives whether
it succeeded and the operations afterwards. -/
def applyRoundTripPatterns
    (applyPatternsAndFoldGreedily : List Operation → Bool × List Operation)
    (block : List Operation) (debug : Bool) : List Operation × List Output :=
  let out1 : List Output := if debug then [.cout "import:\n", .dump "module"] else []
  let applied := applyPatternsAndFoldGreedily block
  let out2 : List Output :=
    if applied.1 then [] else [.emitError "Failed to rewrite user ops"]
  let out3 : List Output := if debug then [.cout "optimized:\n", .dump "module"] else []
  let exported := applyPatternsAndFoldGreedily applied.2
  let out4 : List Output :=
    if exported.1 then [] else [.emitError "Failed to export user ops"]
  let out5 : List Output := if debug then [.cout "to export:\n", .dump "module"] else []
  (exported.2, out1 ++ out2 ++ out3 ++ out4 ++ out5)

/-- Embeds `RoundTripOneFlowJob` (lines 506-526): `getenv` is `std::getenv`, `none` for a
variable that is not set. The result is everything written, in order. -/
def RoundTripOneFlowJob (job_wrapper : RoundTripOneFlowJobWrapperInterface)
    (applyPatternsAndFoldGreedily : List Operation → Bool × List Operation)
    (getenv : String → Option String) : List Output :=
  let imp : Importer := Importer.create job_wrapper
  match imp.processJob with
  | (.success, imp1) =>
    let patterns := applyRoundTripPatterns applyPatternsAndFoldGreedily imp1.block
      (getenv "ONEFLOW_DEBUG_MODE").isSome
    match Importer.tryToUpdateJob patterns.1 with
    | (.failure, out) =>
      imp1.out ++ patterns.2 ++ out ++
        [.cerr ("fail to update job with IR, job will stay intact, job_name: " ++
          job_wrapper.job.job_name ++ "\n")]
    | (_, out) => imp1.out ++ patterns.2 ++ out
  | (.failure, imp1) =>
    imp1.out ++
      [.cerr ("fail to convert job to IR, job_name: " ++ job_wrapper.job.job_name ++ "\n")]
  | (.aborted, imp1) => imp1.out

/-- The text written on standard output. -/
def stdoutOf (out : List Output) : List String :=
  out.filterMap fun o =>
    match o with
    | .cout text => some text
    | _ => none

/-! ## The unfold ops (`unfold_op.cpp`) -/

/-- A tensor descriptor as far as the inference functions copy it: shape, data type and
the dynamic flag. -/
structure TensorDesc where
  shape : List Int
  data_type : DataType
  is_dynamic : Bool
  deriving DecidableEq, Repr

/-- The eight attributes the unfold ops register, as the typed reads `Attr<T>(name)`
return them. -/
structure UnfoldAttrs where
  data_format : String
  padding : String
  padding_before : List Int
  padding_after : List Int
  kernel_size : List Int
  strides : List Int
  dilation_rate : List Int
  ceil_mode : Bool
  deriving DecidableEq, Repr

/-- The `user_op::InferContext` of an unfold op as far as the inference functions use
it: the descriptors of `x`, `y` and `dx` (argument index 0) and the attributes. -/
structure InferContext where
  x : TensorDesc
  y : TensorDesc
  dx : TensorDesc
  attrs : UnfoldAttrs
  deriving DecidableEq, Repr

/-- Embeds the function `MakeFwTensorDescInferFn(dim)` returns (lines 29-55). The class
`ParamsUnfold3D` of `unfold_util.h` is outside the embedded files: `GetYShape` is a
parameter that, from `dim`, the shape of `x` and the attributes, gives the shape of `y`,
or `none` when the constructor does not return. The result is the status and the context
afterwards. -/
def MakeFwTensorDescInferFn (GetYShape : Int → List Int → UnfoldAttrs → Option (List Int))
    (dim : Int) (ctx : InferContext) : Status × InferContext :=
  if (ctx.attrs.kernel_size.length : Int) ≠ dim then (.Error, ctx)
  else if ctx.attrs.kernel_size.any (fun kernel_dim => decide (¬ kernel_dim > 0)) then
    (.Error, ctx)
  else if (ctx.attrs.strides.length : Int) ≠ dim then (.Error, ctx)
  else if ctx.attrs.strides.any (fun stride_dim => decide (¬ stride_dim > 0)) then
    (.Error, ctx)
  else if (ctx.attrs.dilation_rate.length : Int) ≠ dim then (.Error, ctx)
  else if ctx.attrs.dilation_rate.any (fun dilation_dim => decide (¬ dilation_dim > 0)) then
    (.Error, ctx)
  else
    match GetYShape dim ctx.x.shape ctx.attrs with
    | none => (.Fatal, ctx)
    | some y_shape => (.Ok, { ctx with y := { ctx.x with shape := y_shape } })

/-- Embeds `BwTensorDescInferFn` (lines 57-60). -/
def BwTensorDescInferFn (ctx : InferContext) : Status × InferContext :=
  (.Ok, { ctx with dx := ctx.x })

/-- One parallel-split signature: the arguments (name and index) with the axis each is
split on, in the order of the `Split` calls. -/
abbrev SbpSignature := List (String × Nat × Int)

/-- The `user_op::SbpContext` as far as the functions use it: the attribute
`data_format` and the list of signatures built so far. -/
structure SbpContext where
  data_format : String
  sbp_sig_list : List SbpSignature
  deriving DecidableEq, Repr

/-- The effect of `ctx->NewBuilder(). ... .Build()`: the signature is added to the list. -/
def SbpContext.Build (ctx : SbpContext) (signature : SbpSignature) : SbpContext :=
  { ctx with sbp_sig_list := ctx.sbp_sig_list ++ [signature] }

/-- Embeds `FwGetSbpFn` (lines 72-80). -/
def FwGetSbpFn (ctx : SbpContext) : Status × SbpContext :=
  let ctx1 := ctx.Build [("x", 0, 0), ("y", 0, 0)]
  if ctx.data_format = "channels_first" then
    (.Ok, ctx1.Build [("x", 0, 1), ("y", 0, 1)])
  else (.Ok, ctx1)

/-- Embeds `BwGetSbpFn` (lines 82-100). -/
def BwGetSbpFn (ctx : SbpContext) : Status × SbpContext :=
  let ctx1 := ctx.Build [("x", 0, 0), ("y", 0, 0), ("dy", 0, 0), ("dx", 0, 0)]
  if ctx.data_format = "channels_first" then
    (.Ok, ctx1.Build [("x", 0, 1), ("y", 0, 1), ("dy", 0, 1), ("dx", 0, 1)])
  else (.Ok, ctx1)

/-- The `user_op::UserOpWrapper` of a forward unfold op as far as the gradient generator
reads it. -/
structure UserOpWrapper where
  op_name : String
  input : String → Nat → String
  output : String → Nat → String
  GetGradTensorWithOpOutput : String → Nat → String
  NeedGenGradTensor4OpInput : String → Nat → Bool
  attrs : UnfoldAttrs

/-- A `user_op::UserOpConfWrapper` as the builder of lines 105-120 assembles it: name,
type, inputs (argument name and logical blob name), output argument names, attributes,
each list in the order of the builder calls. -/
structure UserOpConfWrapper where
  op_name : String
  op_type_name : String
  input : List (String × String)
  output : List String
  attr : List (String × AttrValue)
  deriving DecidableEq, Repr

/-- The reference `grad_op.output(name, index)` to an output of a built op: the op, the
argument name and the index. How it is spelled as a logical blob name is decided outside
the embedded files. -/
structure OpOutput where
  op_name : String
  arg_name : String
  index : Nat
  deriving DecidableEq, Repr

/-- What the gradient generator leaves behind: the ops handed to `AddOp`, and the
bindings `BindGradTensorWithOpInput(output, input name, index)`, each in order. -/
structure BackwardOps where
  added : List UserOpConfWrapper
  bound : List (OpOutput × String × Nat)
  deriving DecidableEq, Repr

/-- The text `std::to_string(dim)`: the decimal digits of `dim`, after a minus sign when
it is negative. -/
def to_string (dim : Int) : String := toString dim

/-- Embeds the function `MakeGenBackwardOpConfFn(dim)` returns (lines 102-125), started
with nothing added and nothing bound. -/
def MakeGenBackwardOpConfFn (dim : Int) (op : UserOpWrapper) : BackwardOps :=
  if op.NeedGenGradTensor4OpInput "x" 0 then
    let grad_op : UserOpConfWrapper :=
      { op_name := op.op_name ++ "_grad",
        op_type_name := "unfold_" ++ to_string dim ++ "d_grad",
        input := [("x", op.input "x" 0), ("y", op.output "y" 0),
          ("dy", op.GetGradTensorWithOpOutput "y" 0)],
        output := ["dx"],
        attr := [("data_format", .at_string op.attrs.data_format),
          ("padding", .at_string op.attrs.padding),
          ("padding_before", .at_list_int32 op.attrs.padding_before),
          ("padding_after", .at_list_int32 op.attrs.padding_after),
          ("kernel_size", .at_list_int32 op.attrs.kernel_size),
          ("strides", .at_list_int32 op.attrs.strides),
          ("dilation_rate", .at_list_int32 op.attrs.dilation_rate),
          ("ceil_mode", .at_bool op.attrs.ceil_mode)] }
    { added := [grad_op],
      bound := [({ op_name := grad_op.op_name, arg_name := "dx", index := 0 }, "x", 0)] }
  else { added := [], bound := [] }

/-- The names under which `REGISTER_USER_OP` registers ops in the file (lines 129-227). -/
def registeredUnfoldOps : List String :=
  ["unfold_1d", "unfold_1d_grad", "unfold_2d", "unfold_2d_grad", "unfold_3d",
    "unfold_3d_grad"]

/-- The eight attributes of a forward unfold op, by name, as `REGISTER_USER_OP` declares
their types. -/
def UnfoldAttrs.named (a : UnfoldAttrs) : List (String × AttrValue) :=
  [("data_format", .at_string a.data_format), ("padding", .at_string a.padding),
    ("padding_before", .at_list_int32 a.padding_before),
    ("padding_after", .at_list_int32 a.padding_after),
    ("kernel_size", .at_list_int32 a.kernel_size), ("strides", .at_list_int32 a.strides),
    ("dilation_rate", .at_list_int32 a.dilation_rate), ("ceil_mode", .at_bool a.ceil_mode)]

/-- The signature that splits every argument of `args` (at index 0) on the axis `axis`. -/
def splitAll (args : List String) (axis : Int) : SbpSignature :=
  args.map fun arg => (arg, 0, axis)

/-! ## Which calls a log holds -/

/-- Whether a `cudaHostRegister` call is among the calls. -/
def callsRegister (calls : List Call) : Bool :=
  calls.any fun c =>
    match c with
    | .cudaHostRegister _ _ => true
    | _ => false

/-- A four-byte host blob that is not marked pinned. -/
def hostBlob : Blob :=
  { dptr := 4096, mem_case := .host_mem false, body := [1, 2, 3, 4],
    AlignedByteSizeOfBlobBody := 512 }

/-- A four-byte host blob whose memory case carries `cuda_pinned_mem`. -/
def pinnedBlob : Blob :=
  { dptr := 4096, mem_case := .host_mem true, body := [1, 2, 3, 4],
    AlignedByteSizeOfBlobBody := 512 }

/-- A second four-byte host blob, at another address and with other bytes. -/
def hostBlob2 : Blob :=
  { dptr := 12288, mem_case := .host_mem false, body := [9, 9, 9, 9],
    AlignedByteSizeOfBlobBody := 512 }

/-- A four-byte blob in accelerator memory. -/
def deviceBlob : Blob :=
  { dptr := 8192, mem_case := .device_cuda_mem 0, body := [0, 0, 0, 0],
    AlignedByteSizeOfBlobBody := 512 }

/-- A one-byte blob in accelerator memory. -/
def shortDeviceBlob : Blob :=
  { dptr := 8192, mem_case := .device_cuda_mem 0, body := [0],
    AlignedByteSizeOfBlobBody := 512 }

/-- A tensor on the accelerator (`cuda = true`) or on the host, holding `b`. -/
def tensorOf (cuda : Bool) (b : Blob) : MirroredTensor :=
  { shape := [4], dtype := 1, requires_grad := true, retain_grad := false, is_leaf := true,
    is_cuda := cuda, eager_blob_object := some b }

/-- The transfer instruction from `src` to `dst`. -/
def transferInstruction (src dst : MirroredTensor) : Instruction :=
  { phy_instr_operand := some (.CopyBlobToOtherDevicePhyInstrOperand src dst), blob := none }

/-- The pin / unpin instruction on `b`. -/
def pinInstruction (b : Blob) : Instruction :=
  { phy_instr_operand := none, blob := some b }

/-- A runtime state with no registered region and an empty call log. -/
def emptyWorld : World :=
  { cuda := { registered := [], lastError := .cudaSuccess }, calls := [] }

/-- A runtime state in which the region at 4096 is registered. -/
def registeredWorld : World :=
  { cuda := { registered := [4096], lastError := .cudaSuccess }, calls := [] }

/-- A callback that overwrites the first byte of the blob with 7 and records the blob's
old body in the caller's array. -/
def pokeCallback : Callback := fun ofblob st =>
  ({ ofblob.blob with body := 7 :: ofblob.blob.body.drop 1 },
    { st with array := ofblob.blob.body })

/-- The access-by-callback instruction on `b` with callback `cb`, on a stream whose device
context is 5. -/
def accessInstruction (b : Blob) (cb : Callback) : Instruction :=
  { phy_instr_operand := some (.AccessBlobArgCbPhyInstrOperand b cb), blob := none,
    stream := { device_ctx := 5, machine_id := 0, device_id := 1 } }

/-- A caller state with an empty array and the flag down. -/
def idleCaller : CallerState := { array := [], synced := false }

/-- A register manager that knows one blob, `conv1/out` under parallel id 1, at 20480. -/
def oneBlobRegstMgr : RegstMgr where
  GenLogicalBlobId lbn :=
    if lbn = "conv1/out" then some { op_name := "conv1", blob_name := "out" } else none
  Blob4LbiAndParallelId lbi parallel_id :=
    if lbi = { op_name := "conv1", blob_name := "out" } ∧ parallel_id = 1 then some 20480
    else none

/-- A parallel description in which machine 0, device 1 has parallel id 1 and every other
place is rejected. -/
def twoDeviceParallelDesc : ParallelDesc where
  GetParallelContext machine_id device_id :=
    if machine_id = 0 ∧ device_id = 1 then .ok 1 else .error "device not in placement"

/-- The lazy-reference instruction for the name `lbn` on machine 0, device `device_id`. -/
def lazyInstruction (lbn : Except ErrorProto String) (device_id : Int) : Instruction :=
  { phy_instr_operand := none, blob := none,
    stream := { device_ctx := 5, machine_id := 0, device_id := device_id },
    lbn_sym_id := lbn, parallel_desc := twoDeviceParallelDesc }

/-- A sequence of element types: C++ type names with data type values. -/
def examplePodSeq : List (String × Int) :=
  [("float", 2), ("double", 3), ("int8_t", 4), ("int32_t", 5), ("int64_t", 6), ("char", 1),
    ("uint8_t", 7)]

/-- A plan in which the request `id` comes from participant `id % 4` and every request
is an operation of kind 1 among the participants 0 to 3 on data of shape 1024. -/
def uniformPlan : Int → RequestDesc := fun id =>
  { rank := (id % 4).toNat, op_kind := 1, participants := [0, 1, 2, 3], shape := [1024] }

/-- A plan as `uniformPlan`, except that the requests from 100 on are of kind 2. -/
def mixedPlan : Int → RequestDesc := fun id =>
  { rank := (id % 4).toNat, op_kind := if id < 100 then 1 else 2,
    participants := [0, 1, 2, 3], shape := [1024] }

/-- A store holding the eight pending requests 0 to 7. -/
def eightPendingStore : RequestStore :=
  { pending := [0, 1, 2, 3, 4, 5, 6, 7], completed := [] }

/-- A job wrapper around the job `job`, with every op placed on `cpu` at `0:0` and no
system op inputs or outputs. -/
def wrapperOf (job : Job) : RoundTripOneFlowJobWrapperInterface :=
  { job := job,
    ParallelConf4OpName := fun _ => { device_tag := "cpu", device_name := ["0:0"] },
    InputBns4OpName := fun _ => ([], []),
    OutputLbns4OpName := fun _ => [] }

/-- A job with no operator. -/
def emptyJob : Job := { job_name := "empty", op := [] }

/-- A job with one `relu` user op whose only attribute is the 32-bit integer `axis`. -/
def reluJob : Job :=
  { job_name := "relu_job",
    op := [{ name := "relu1",
             user_conf := some { op_type_name := "relu", input := [("in", ["x/out"])],
                                 output := [("out", ["relu1/out"])],
                                 attr := [("axis", .at_int32 1)] } }] }

/-- A rewrite driver that succeeds and leaves the module as it is. -/
def identityDriver : List Operation → Bool × List Operation := fun block => (true, block)

/-- An environment in which no variable is set. -/
def noEnv : String → Option String := fun _ => none

/-- An environment in which only `ONEFLOW_DEBUG_MODE` is set. -/
def debugEnv : String → Option String := fun name =>
  if name = "ONEFLOW_DEBUG_MODE" then some "1" else none

/-- A job wrapper as `wrapperOf`, in which every system op has the two outputs `sys/a`
and `sys/b`. -/
def twoOutputWrapper (job : Job) : RoundTripOneFlowJobWrapperInterface :=
  { job := job,
    ParallelConf4OpName := fun _ => { device_tag := "cpu", device_name := ["0:0"] },
    InputBns4OpName := fun _ => ([], []),
    OutputLbns4OpName := fun _ => ["sys/a", "sys/b"] }

/-- A system op. -/
def systemOp : OperatorConf := { name := "sys", user_conf := none }

/-- A user op with two output keys of one name each. -/
def twoKeyUserOp : OperatorConf :=
  { name := "split1",
    user_conf := some { op_type_name := "split", input := [],
                        output := [("out", ["split1/out_0"]), ("mask", ["split1/mask_0"])],
                        attr := [] } }

/-- A user op with one output key of two names. -/
def oneKeyUserOp : OperatorConf :=
  { name := "split2",
    user_conf := some { op_type_name := "split", input := [],
                        output := [("out", ["split2/out_0", "split2/out_1"])],
                        attr := [] } }

/-- Attributes of a two-dimensional unfold with a 3 by 3 kernel. -/
def unfold2dAttrs : UnfoldAttrs :=
  { data_format := "channels_first", padding := "valid", padding_before := [0, 0],
    padding_after := [0, 0], kernel_size := [3, 3], strides := [1, 1],
    dilation_rate := [1, 1], ceil_mode := false }

/-- An inference context for a 1 by 4 by 8 by 8 input with the attributes `attrs`. -/
def unfoldContext (attrs : UnfoldAttrs) : InferContext :=
  { x := { shape := [1, 4, 8, 8], data_type := .kFloat, is_dynamic := false },
    y := { shape := [], data_type := .kInvalidDataType, is_dynamic := false },
    dx := { shape := [], data_type := .kInvalidDataType, is_dynamic := false },
    attrs := attrs }

/-- A stand-in for `ParamsUnfold3D::GetYShape` that returns the shape of `x`. -/
def sameShape : Int → List Int → UnfoldAttrs → Option (List Int) := fun _ x_shape _ =>
  some x_shape

/-- A forward unfold op `unfold1` whose input `x` needs a gradient exactly when
`need` is true. -/
def unfoldWrapper (need : Bool) : UserOpWrapper :=
  { op_name := "unfold1",
    input := fun name index => "in/" ++ name ++ toString index,
    output := fun name index => "unfold1/" ++ name ++ toString index,
    GetGradTensorWithOpOutput := fun name index => "grad/" ++ name ++ toString index,
    NeedGenGradTensor4OpInput := fun _ _ => need,
    attrs := unfold2dAttrs }

/-- A job of the system op `sys` followed by a user op that consumes `sys/b`. -/
def consumerJob : Job :=
  { job_name := "consumer_job",
    op := [systemOp,
           { name := "relu1",
             user_conf := some { op_type_name := "relu", input := [("in", ["sys/b"])],
                                 output := [("out", ["relu1/out"])],
                                 attr := [] } }] }

/-- The attributes `unfold2dAttrs` with a stride of 0 in the second place. -/
def zeroStrideAttrs : UnfoldAttrs :=
  { unfold2dAttrs with strides := [1, 0] }

/-- A context to which no signature has been added, with the data format `data_format`. -/
def freshSbpContext (data_format : String) : SbpContext :=
  { data_format := data_format, sbp_sig_list := [] }

/-- Calls of the registration phase: no unregistration and no copy among them. -/
def Call.isRegisterPhase : Call → Bool
  | .cudaHostRegister _ _ => true
  | .cudaGetLastError => true
  | _ => false

/-- Calls of the unregistration phase: no registration and no copy among them. -/
def Call.isUnregisterPhase : Call → Bool
  | .cudaHostUnregister _ => true
  | .cudaGetLastError => true
  | _ => false

/-- The copy calls. -/
def Call.isCopy : Call → Bool
  | .SyncAutoMemcpy _ _ _ _ _ => true
  | _ => false

/-- The calls made to the runtime between the state `w` and the later state `w1`. -/
def madeCalls (w w1 : World) : List Call := w1.calls.drop w.calls.length

/-! ## Helper lemmas -/

theorem madeCalls_eq (w w1 : World) (made : List Call) (h : w1.calls = w.calls ++ made) :
    madeCalls w w1 = made := by
  simp [madeCalls, h]

theorem SyncAutoMemcpy_ok_blob (rt : DeviceRuntime) (w : World) (dst_blob src_blob : Blob)
    (sz : Nat) (m1 m2 : MemoryCase)
    (hok : (SyncAutoMemcpy rt w dst_blob src_blob sz m1 m2).1 = .Ok) :
    (SyncAutoMemcpy rt w dst_blob src_blob sz m1 m2).2.2 =
      { dst_blob with body := src_blob.body.take sz ++ dst_blob.body.drop sz } := by
  by_cases h : (rt.memcpy w.cuda dst_blob.dptr src_blob.dptr sz).1 = .cudaSuccess
  · simp [SyncAutoMemcpy, h]
  · simp [SyncAutoMemcpy, h] at hok

theorem referenceRuntime_healthy : referenceRuntime.Healthy := by
  refine ⟨?_, ?_, ?_⟩
  · intro c ptr size
    by_cases h : ptr ∈ c.registered <;> simp [referenceRuntime, h]
  · intro c ptr
    by_cases h : ptr ∈ c.registered <;> simp [referenceRuntime, h]
  · intro c dst src sz
    simp [referenceRuntime]

theorem RegisterMemory_healthy (rt : DeviceRuntime) (w : World) (b : Blob)
    (hrt : rt.Healthy) (hp : b.dptr ≠ 0) :
    (RegisterMemory rt w (some b)).1 = .Ok := by
  cases hm : b.mem_case.has_cuda_pinned_mem
  · simp [RegisterMemory, hp, hm]
  · rcases hrt.1 w.cuda b.dptr b.AlignedByteSizeOfBlobBody with h | h <;>
      simp [RegisterMemory, hp, hm, h, OF_CUDA_CHECK]

theorem UnRegisterMemory_healthy (rt : DeviceRuntime) (w : World) (b : Blob)
    (hrt : rt.Healthy) (hp : b.dptr ≠ 0) :
    (UnRegisterMemory rt w (some b)).1 = .Ok := by
  cases hm : b.mem_case.has_cuda_pinned_mem
  · simp [UnRegisterMemory, hp, hm]
  · rcases hrt.2.1 w.cuda b.dptr with h | h <;>
      simp [UnRegisterMemory, hp, hm, h, OF_CUDA_CHECK]

theorem SyncAutoMemcpy_healthy (rt : DeviceRuntime) (w : World) (dst_blob src_blob : Blob)
    (sz : Nat) (m1 m2 : MemoryCase) (hrt : rt.Healthy) :
    (SyncAutoMemcpy rt w dst_blob src_blob sz m1 m2).1 = .Ok ∧
    (SyncAutoMemcpy rt w dst_blob src_blob sz m1 m2).2.2 =
      { dst_blob with body := src_blob.body.take sz ++ dst_blob.body.drop sz } := by
  simp [SyncAutoMemcpy, hrt.2.2]

theorem copy_whole_body (src_blob dst_blob : Blob)
    (hsize : src_blob.ByteSizeOfBlobBody = dst_blob.ByteSizeOfBlobBody) :
    src_blob.body.take src_blob.ByteSizeOfBlobBody ++
      dst_blob.body.drop src_blob.ByteSizeOfBlobBody = src_blob.body := by
  rw [hsize]
  simp [Blob.ByteSizeOfBlobBody] at *
  simp [← hsize]

/-- With exactly one endpoint on the accelerator, a non-null host-side data pointer and a
healthy runtime, `Run` returns `Ok` and the destination blob it leaves is the old
destination blob with the source's body. -/
theorem Run_healthy (rt : DeviceRuntime) (w : World) (instruction : Instruction)
    (src_tensor dst_tensor : MirroredTensor) (src_blob dst_blob : Blob)
    (hop : instruction.phy_instr_operand =
      some (.CopyBlobToOtherDevicePhyInstrOperand src_tensor dst_tensor))
    (hsrc : src_tensor.eager_blob_object = some src_blob)
    (hdst : dst_tensor.eager_blob_object = some dst_blob)
    (hsize : src_blob.ByteSizeOfBlobBody = dst_blob.ByteSizeOfBlobBody)
    (hone : src_tensor.is_cuda ≠ dst_tensor.is_cuda)
    (hsp : src_tensor.is_cuda = false → src_blob.dptr ≠ 0)
    (hdp : dst_tensor.is_cuda = false → dst_blob.dptr ≠ 0)
    (hrt : rt.Healthy) :
    (CopyBlobToOtherDeviceInstructionType.Run rt w instruction).1 = .Ok ∧
    (CopyBlobToOtherDeviceInstructionType.Run rt w instruction).2.2 =
      instruction.with_dst_blob src_tensor dst_tensor
        { dst_blob with body := src_blob.body } := by
  obtain ⟨b, hb, hbp, hb1⟩ : ∃ b, register_blob src_tensor dst_tensor src_blob dst_blob = some b ∧
      b.dptr ≠ 0 ∧ ∀ d : Blob, d.dptr = dst_blob.dptr → d.mem_case = dst_blob.mem_case →
        ∃ b1, register_blob src_tensor dst_tensor src_blob d = some b1 ∧ b1.dptr ≠ 0 := by
    cases hs : src_tensor.is_cuda <;> cases hd : dst_tensor.is_cuda <;>
      simp_all [register_blob]
  have hcopy := SyncAutoMemcpy_healthy rt (RegisterMemory rt w (some b)).2 dst_blob src_blob
    src_blob.ByteSizeOfBlobBody src_blob.mem_case dst_blob.mem_case hrt
  rw [copy_whole_body src_blob dst_blob hsize] at hcopy
  have hreg := RegisterMemory_healthy rt w b hrt hbp
  obtain ⟨b1, hb1e, hb1p⟩ := hb1 { dst_blob with body := src_blob.body } rfl rfl
  simp only [CopyBlobToOtherDeviceInstructionType.Run, hop, hsrc, hdst, hsize, hb, ne_eq,
    not_true_eq_false, if_false]
  rcases hr : RegisterMemory rt w (some b) with ⟨s, w1⟩
  rw [hr] at hreg hcopy
  simp only at hreg
  subst hreg
  simp only
  rcases hc : SyncAutoMemcpy rt w1 dst_blob src_blob dst_blob.ByteSizeOfBlobBody
    src_blob.mem_case dst_blob.mem_case with ⟨s2, w2, d1⟩
  rw [hsize] at hcopy
  rw [hc] at hcopy
  simp only at hcopy
  obtain ⟨h1, h2⟩ := hcopy
  subst h1 h2
  simp only [hb1e]
  have hun := UnRegisterMemory_healthy rt w2 b1 hrt hb1p
  rcases hu : UnRegisterMemory rt w2 (some b1) with ⟨s3, w3⟩
  rw [hu] at hun
  simp only at hun
  subst hun
  simp

theorem register_blob_same_region (src_tensor dst_tensor : MirroredTensor)
    (src_blob dst_blob d1 b : Blob)
    (hb : register_blob src_tensor dst_tensor src_blob dst_blob = some b)
    (h1 : d1.dptr = dst_blob.dptr) (h2 : d1.mem_case = dst_blob.mem_case) :
    ∃ b1, register_blob src_tensor dst_tensor src_blob d1 = some b1 ∧
      b1.dptr = b.dptr ∧ b1.mem_case = b.mem_case := by
  cases hs : src_tensor.is_cuda <;> cases hd : dst_tensor.is_cuda <;>
    simp_all [register_blob]

theorem RegisterMemory_calls (rt : DeviceRuntime) (w : World) (b : Blob)
    (hok : (RegisterMemory rt w (some b)).1 = .Ok) :
    b.dptr ≠ 0 ∧ ∃ g, (g = [] ∨ g = [.cudaGetLastError]) ∧
      (RegisterMemory rt w (some b)).2.calls = w.calls ++
        (if b.mem_case.has_cuda_pinned_mem then
          .cudaHostRegister b.dptr b.AlignedByteSizeOfBlobBody :: g else []) := by
  by_cases hp : b.dptr = 0
  · simp [RegisterMemory, hp] at hok
  refine ⟨hp, ?_⟩
  cases hm : b.mem_case.has_cuda_pinned_mem
  · exact ⟨[], Or.inl rfl, by simp [RegisterMemory, hp, hm]⟩
  · by_cases he : (rt.cudaHostRegister w.cuda b.dptr b.AlignedByteSizeOfBlobBody).1 =
        .cudaErrorHostMemoryAlreadyRegistered
    · exact ⟨[.cudaGetLastError], Or.inr rfl, by simp [RegisterMemory, hp, hm, he]⟩
    · refine ⟨[], Or.inl rfl, ?_⟩
      by_cases hs : (rt.cudaHostRegister w.cuda b.dptr b.AlignedByteSizeOfBlobBody).1 =
          .cudaSuccess <;> simp [RegisterMemory, hp, hm, he, hs, OF_CUDA_CHECK]

theorem UnRegisterMemory_calls (rt : DeviceRuntime) (w : World) (b : Blob)
    (hok : (UnRegisterMemory rt w (some b)).1 = .Ok) :
    ∃ g, (g = [] ∨ g = [.cudaGetLastError]) ∧
      (UnRegisterMemory rt w (some b)).2.calls = w.calls ++
        (if b.mem_case.has_cuda_pinned_mem then .cudaHostUnregister b.dptr :: g else []) := by
  by_cases hp : b.dptr = 0
  · simp [UnRegisterMemory, hp] at hok
  cases hm : b.mem_case.has_cuda_pinned_mem
  · exact ⟨[], Or.inl rfl, by simp [UnRegisterMemory, hp, hm]⟩
  · by_cases he : (rt.cudaHostUnregister w.cuda b.dptr).1 = .cudaErrorHostMemoryNotRegistered
    · exact ⟨[.cudaGetLastError], Or.inr rfl, by simp [UnRegisterMemory, hp, hm, he]⟩
    · refine ⟨[], Or.inl rfl, ?_⟩
      by_cases hs : (rt.cudaHostUnregister w.cuda b.dptr).1 = .cudaSuccess <;>
        simp [UnRegisterMemory, hp, hm, he, hs, OF_CUDA_CHECK]

theorem SyncAutoMemcpy_region (rt : DeviceRuntime) (w : World) (dst_blob src_blob : Blob)
    (sz : Nat) (m1 m2 : MemoryCase) :
    (SyncAutoMemcpy rt w dst_blob src_blob sz m1 m2).2.1.calls =
      w.calls ++ [.SyncAutoMemcpy dst_blob.dptr src_blob.dptr sz m1 m2] ∧
    (SyncAutoMemcpy rt w dst_blob src_blob sz m1 m2).2.2.dptr = dst_blob.dptr ∧
    (SyncAutoMemcpy rt w dst_blob src_blob sz m1 m2).2.2.mem_case = dst_blob.mem_case := by
  by_cases h : (rt.memcpy w.cuda dst_blob.dptr src_blob.dptr sz).1 = .cudaSuccess <;>
    simp [SyncAutoMemcpy, h]

/-- The shape of a run that returns `Ok`: the operand is a transfer operand with both
blobs present and of equal size, exactly one endpoint selects the register blob `b`, and
the calls `Run` made are the registration calls on `b` (when `b` is marked pinned), one
copy of the source's body size, and the unregistration calls on `b`. -/
theorem Run_ok_calls (rt : DeviceRuntime) (w : World) (instruction : Instruction)
    (hok : (CopyBlobToOtherDeviceInstructionType.Run rt w instruction).1 = .Ok) :
    ∃ (src_tensor dst_tensor : MirroredTensor) (src_blob dst_blob b : Blob)
      (g1 g2 : List Call),
      instruction.phy_instr_operand =
        some (.CopyBlobToOtherDevicePhyInstrOperand src_tensor dst_tensor) ∧
      src_tensor.eager_blob_object = some src_blob ∧
      dst_tensor.eager_blob_object = some dst_blob ∧
      src_blob.ByteSizeOfBlobBody = dst_blob.ByteSizeOfBlobBody ∧
      register_blob src_tensor dst_tensor src_blob dst_blob = some b ∧ b.dptr ≠ 0 ∧
      (g1 = [] ∨ g1 = [.cudaGetLastError]) ∧ (g2 = [] ∨ g2 = [.cudaGetLastError]) ∧
      (CopyBlobToOtherDeviceInstructionType.Run rt w instruction).2.1.calls = w.calls ++
        ((if b.mem_case.has_cuda_pinned_mem then
            .cudaHostRegister b.dptr b.AlignedByteSizeOfBlobBody :: g1 else []) ++
          [.SyncAutoMemcpy dst_blob.dptr src_blob.dptr src_blob.ByteSizeOfBlobBody
            src_blob.mem_case dst_blob.mem_case] ++
          (if b.mem_case.has_cuda_pinned_mem then .cudaHostUnregister b.dptr :: g2 else [])) ∧
      (CopyBlobToOtherDeviceInstructionType.Run rt w instruction).2.2 =
        instruction.with_dst_blob src_tensor dst_tensor
          { dst_blob with body := src_blob.body.take src_blob.ByteSizeOfBlobBody ++
              dst_blob.body.drop src_blob.ByteSizeOfBlobBody } := by
  cases hop : instruction.phy_instr_operand with
  | none => simp [CopyBlobToOtherDeviceInstructionType.Run, hop] at hok
  | some op =>
    cases op with
    | otherPhyInstrOperand => simp [CopyBlobToOtherDeviceInstructionType.Run, hop] at hok
    | AccessBlobArgCbPhyInstrOperand _ _ =>
      simp [CopyBlobToOtherDeviceInstructionType.Run, hop] at hok
    | CopyBlobToOtherDevicePhyInstrOperand src_tensor dst_tensor =>
      cases hsrc : src_tensor.eager_blob_object with
      | none => simp [CopyBlobToOtherDeviceInstructionType.Run, hop, hsrc] at hok
      | some src_blob =>
        cases hdst : dst_tensor.eager_blob_object with
        | none => simp [CopyBlobToOtherDeviceInstructionType.Run, hop, hsrc, hdst] at hok
        | some dst_blob =>
          by_cases hsize : src_blob.ByteSizeOfBlobBody = dst_blob.ByteSizeOfBlobBody
          swap
          · simp [CopyBlobToOtherDeviceInstructionType.Run, hop, hsrc, hdst, hsize] at hok
          cases hb : register_blob src_tensor dst_tensor src_blob dst_blob with
          | none =>
            simp [CopyBlobToOtherDeviceInstructionType.Run, hop, hsrc, hdst, hsize, hb,
              RegisterMemory] at hok
          | some b =>
            simp only [CopyBlobToOtherDeviceInstructionType.Run, hop, hsrc, hdst, hb] at hok ⊢
            rw [if_neg (fun h => h hsize)] at hok ⊢
            rcases hr : RegisterMemory rt w (some b) with ⟨s1, w1⟩
            rw [hr] at hok
            cases s1 <;> simp only at hok ⊢ <;> try (exact absurd hok (by decide))
            have hreg := RegisterMemory_calls rt w b (by rw [hr])
            rw [hr] at hreg
            obtain ⟨hbp, g1, hg1, hc1⟩ := hreg
            have hcp := SyncAutoMemcpy_region rt w1 dst_blob src_blob
              src_blob.ByteSizeOfBlobBody src_blob.mem_case dst_blob.mem_case
            have hcb := SyncAutoMemcpy_ok_blob rt w1 dst_blob src_blob
              src_blob.ByteSizeOfBlobBody src_blob.mem_case dst_blob.mem_case
            rcases hc : SyncAutoMemcpy rt w1 dst_blob src_blob src_blob.ByteSizeOfBlobBody
              src_blob.mem_case dst_blob.mem_case with ⟨s2, w2, d1⟩
            rw [hc] at hok hcp hcb
            simp only at hcp hcb
            obtain ⟨hc2, hd1, hd2⟩ := hcp
            cases s2 <;> simp only at hok ⊢ <;> try (exact absurd hok (by decide))
            obtain ⟨b1, hb1, hb1p, hb1m⟩ :=
              register_blob_same_region src_tensor dst_tensor src_blob dst_blob d1 b hb hd1 hd2
            rw [hb1] at hok ⊢
            rcases hu : UnRegisterMemory rt w2 (some b1) with ⟨s3, w3⟩
            rw [hu] at hok
            have hun := UnRegisterMemory_calls rt w2 b1
            rw [hu] at hun
            cases s3 <;> simp only at hok ⊢ <;> try (exact absurd hok (by decide))
            obtain ⟨g2, hg2, hc3⟩ := hun rfl
            refine ⟨src_tensor, dst_tensor, src_blob, dst_blob, b, g1, g2, rfl, hsrc, hdst,
              hsize, hb, hbp, hg1, hg2, ?_, ?_⟩
            · simp only at hc1 hc3
              rw [hc3, hc2, hc1, hb1p, hb1m]
              simp
            · rw [hcb rfl]

theorem RegisterMemory_phase (rt : DeviceRuntime) (w : World) (ob : Option Blob) :
    ∃ R, (RegisterMemory rt w ob).2.calls = w.calls ++ R ∧ ∀ c ∈ R, c.isRegisterPhase = true := by
  cases ob with
  | none => exact ⟨[], by simp [RegisterMemory]⟩
  | some b =>
    by_cases hp : b.dptr = 0
    · exact ⟨[], by simp [RegisterMemory, hp]⟩
    cases hm : b.mem_case.has_cuda_pinned_mem
    · exact ⟨[], by simp [RegisterMemory, hp, hm]⟩
    · by_cases he : (rt.cudaHostRegister w.cuda b.dptr b.AlignedByteSizeOfBlobBody).1 =
          .cudaErrorHostMemoryAlreadyRegistered
      · exact ⟨[.cudaHostRegister b.dptr b.AlignedByteSizeOfBlobBody, .cudaGetLastError],
          by simp [RegisterMemory, hp, hm, he, Call.isRegisterPhase]⟩
      · refine ⟨[.cudaHostRegister b.dptr b.AlignedByteSizeOfBlobBody], ?_⟩
        by_cases hs : (rt.cudaHostRegister w.cuda b.dptr b.AlignedByteSizeOfBlobBody).1 =
            .cudaSuccess <;>
          simp [RegisterMemory, hp, hm, he, hs, OF_CUDA_CHECK, Call.isRegisterPhase]

theorem UnRegisterMemory_phase (rt : DeviceRuntime) (w : World) (ob : Option Blob) :
    ∃ U, (UnRegisterMemory rt w ob).2.calls = w.calls ++ U ∧
      ∀ c ∈ U, c.isUnregisterPhase = true := by
  cases ob with
  | none => exact ⟨[], by simp [UnRegisterMemory]⟩
  | some b =>
    by_cases hp : b.dptr = 0
    · exact ⟨[], by simp [UnRegisterMemory, hp]⟩
    cases hm : b.mem_case.has_cuda_pinned_mem
    · exact ⟨[], by simp [UnRegisterMemory, hp, hm]⟩
    · by_cases he : (rt.cudaHostUnregister w.cuda b.dptr).1 =
          .cudaErrorHostMemoryNotRegistered
      · exact ⟨[.cudaHostUnregister b.dptr, .cudaGetLastError],
          by simp [UnRegisterMemory, hp, hm, he, Call.isUnregisterPhase]⟩
      · refine ⟨[.cudaHostUnregister b.dptr], ?_⟩
        by_cases hs : (rt.cudaHostUnregister w.cuda b.dptr).1 = .cudaSuccess <;>
          simp [UnRegisterMemory, hp, hm, he, hs, OF_CUDA_CHECK, Call.isUnregisterPhase]

theorem SyncAutoMemcpy_ok_success (rt : DeviceRuntime) (w : World) (dst_blob src_blob : Blob)
    (sz : Nat) (m1 m2 : MemoryCase)
    (hok : (SyncAutoMemcpy rt w dst_blob src_blob sz m1 m2).1 = .Ok) :
    (rt.memcpy w.cuda dst_blob.dptr src_blob.dptr sz).1 = .cudaSuccess := by
  by_cases h : (rt.memcpy w.cuda dst_blob.dptr src_blob.dptr sz).1 = .cudaSuccess
  · exact h
  · simp [SyncAutoMemcpy, h] at hok

/-- The calls of any run, on every exit path: a registration phase `R`; then, when the
copy was reached, the one copy of the source's body size between blobs of equal size;
then, when the copy reported success, an unregistration phase `U`. -/
theorem Run_calls_shape (rt : DeviceRuntime) (w : World) (instruction : Instruction) :
    ∃ R : List Call,
      (∀ c ∈ R, c.isRegisterPhase = true) ∧
      ((CopyBlobToOtherDeviceInstructionType.Run rt w instruction).2.1.calls = w.calls ++ R ∧
          (CopyBlobToOtherDeviceInstructionType.Run rt w instruction).1 ≠ .Ok ∨
        ∃ (src_tensor dst_tensor : MirroredTensor) (src_blob dst_blob : Blob),
          instruction.phy_instr_operand =
            some (.CopyBlobToOtherDevicePhyInstrOperand src_tensor dst_tensor) ∧
          src_tensor.eager_blob_object = some src_blob ∧
          dst_tensor.eager_blob_object = some dst_blob ∧
          src_blob.ByteSizeOfBlobBody = dst_blob.ByteSizeOfBlobBody ∧
          ((CopyBlobToOtherDeviceInstructionType.Run rt w instruction).2.1.calls =
              w.calls ++ R ++ [.SyncAutoMemcpy dst_blob.dptr src_blob.dptr
                src_blob.ByteSizeOfBlobBody src_blob.mem_case dst_blob.mem_case] ∧
              (CopyBlobToOtherDeviceInstructionType.Run rt w instruction).1 ≠ .Ok ∨
            ∃ U : List Call, (∀ c ∈ U, c.isUnregisterPhase = true) ∧
              (∃ c, (rt.memcpy c dst_blob.dptr src_blob.dptr
                src_blob.ByteSizeOfBlobBody).1 = .cudaSuccess) ∧
              (CopyBlobToOtherDeviceInstructionType.Run rt w instruction).2.1.calls =
                w.calls ++ R ++ [.SyncAutoMemcpy dst_blob.dptr src_blob.dptr
                  src_blob.ByteSizeOfBlobBody src_blob.mem_case dst_blob.mem_case] ++ U)) := by
  cases hop : instruction.phy_instr_operand with
  | none => exact ⟨[], by simp, Or.inl (by simp [CopyBlobToOtherDeviceInstructionType.Run, hop])⟩
  | some op =>
    cases op with
    | otherPhyInstrOperand =>
      exact ⟨[], by simp, Or.inl (by simp [CopyBlobToOtherDeviceInstructionType.Run, hop])⟩
    | AccessBlobArgCbPhyInstrOperand _ _ =>
      exact ⟨[], by simp, Or.inl (by simp [CopyBlobToOtherDeviceInstructionType.Run, hop])⟩
    | CopyBlobToOtherDevicePhyInstrOperand src_tensor dst_tensor =>
      cases hsrc : src_tensor.eager_blob_object with
      | none =>
        exact ⟨[], by simp,
          Or.inl (by simp [CopyBlobToOtherDeviceInstructionType.Run, hop, hsrc])⟩
      | some src_blob =>
        cases hdst : dst_tensor.eager_blob_object with
        | none =>
          exact ⟨[], by simp,
            Or.inl (by simp [CopyBlobToOtherDeviceInstructionType.Run, hop, hsrc, hdst])⟩
        | some dst_blob =>
          by_cases hsize : src_blob.ByteSizeOfBlobBody = dst_blob.ByteSizeOfBlobBody
          swap
          · exact ⟨[], by simp, Or.inl
              (by simp [CopyBlobToOtherDeviceInstructionType.Run, hop, hsrc, hdst, hsize])⟩
          obtain ⟨R, hR, hRp⟩ := RegisterMemory_phase rt w
            (register_blob src_tensor dst_tensor src_blob dst_blob)
          refine ⟨R, hRp, ?_⟩
          simp only [CopyBlobToOtherDeviceInstructionType.Run, hop, hsrc, hdst]
          rw [if_neg (fun h => h hsize)]
          rcases hr : RegisterMemory rt w
            (register_blob src_tensor dst_tensor src_blob dst_blob) with ⟨s1, w1⟩
          rw [hr] at hR
          simp only at hR
          cases s1 <;> simp only <;> try (exact Or.inl ⟨hR, by decide⟩)
          refine Or.inr ⟨src_tensor, dst_tensor, src_blob, dst_blob, rfl, hsrc, hdst, hsize, ?_⟩
          have hcp := SyncAutoMemcpy_region rt w1 dst_blob src_blob
            src_blob.ByteSizeOfBlobBody src_blob.mem_case dst_blob.mem_case
          have hcs := SyncAutoMemcpy_ok_success rt w1 dst_blob src_blob
            src_blob.ByteSizeOfBlobBody src_blob.mem_case dst_blob.mem_case
          rcases hc : SyncAutoMemcpy rt w1 dst_blob src_blob src_blob.ByteSizeOfBlobBody
            src_blob.mem_case dst_blob.mem_case with ⟨s2, w2, d1⟩
          rw [hc] at hcp hcs
          simp only at hcp hcs
          obtain ⟨hc2, -, -⟩ := hcp
          rw [hR] at hc2
          cases s2 <;> simp only <;> try (exact Or.inl ⟨hc2, by decide⟩)
          obtain ⟨U, hU, hUp⟩ := UnRegisterMemory_phase rt w2
            (register_blob src_tensor dst_tensor src_blob d1)
          refine Or.inr ⟨U, hUp, ⟨w1.cuda, hcs rfl⟩, ?_⟩
          rcases hu : UnRegisterMemory rt w2
            (register_blob src_tensor dst_tensor src_blob d1) with ⟨s3, w3⟩
          rw [hu] at hU
          simp only at hU
          cases s3 <;> simp only <;> rw [hU, hc2]

theorem RegisterMemory_not_error (rt : DeviceRuntime) (w : World) (ob : Option Blob) :
    (RegisterMemory rt w ob).1 ≠ .Error := by
  cases ob with
  | none => simp [RegisterMemory]
  | some b =>
    by_cases hp : b.dptr = 0
    · simp [RegisterMemory, hp]
    cases hm : b.mem_case.has_cuda_pinned_mem
    · simp [RegisterMemory, hp, hm]
    · by_cases he : (rt.cudaHostRegister w.cuda b.dptr b.AlignedByteSizeOfBlobBody).1 =
          .cudaErrorHostMemoryAlreadyRegistered
      · simp [RegisterMemory, hp, hm, he]
      · by_cases hs : (rt.cudaHostRegister w.cuda b.dptr b.AlignedByteSizeOfBlobBody).1 =
            .cudaSuccess <;> simp [RegisterMemory, hp, hm, he, hs, OF_CUDA_CHECK]

theorem UnRegisterMemory_not_error (rt : DeviceRuntime) (w : World) (ob : Option Blob) :
    (UnRegisterMemory rt w ob).1 ≠ .Error := by
  cases ob with
  | none => simp [UnRegisterMemory]
  | some b =>
    by_cases hp : b.dptr = 0
    · simp [UnRegisterMemory, hp]
    cases hm : b.mem_case.has_cuda_pinned_mem
    · simp [UnRegisterMemory, hp, hm]
    · by_cases he : (rt.cudaHostUnregister w.cuda b.dptr).1 =
          .cudaErrorHostMemoryNotRegistered
      · simp [UnRegisterMemory, hp, hm, he]
      · by_cases hs : (rt.cudaHostUnregister w.cuda b.dptr).1 = .cudaSuccess <;>
          simp [UnRegisterMemory, hp, hm, he, hs, OF_CUDA_CHECK]

theorem SyncAutoMemcpy_not_error (rt : DeviceRuntime) (w : World) (dst_blob src_blob : Blob)
    (sz : Nat) (m1 m2 : MemoryCase) :
    (SyncAutoMemcpy rt w dst_blob src_blob sz m1 m2).1 ≠ .Error := by
  by_cases h : (rt.memcpy w.cuda dst_blob.dptr src_blob.dptr sz).1 = .cudaSuccess <;>
    simp [SyncAutoMemcpy, h]

/-- The error return of `Run` (a `JUST` on a missing blob object) comes before any call to
the runtime: the state is the one `Run` started from. -/
theorem Run_error_world (rt : DeviceRuntime) (w : World) (instruction : Instruction)
    (herr : (CopyBlobToOtherDeviceInstructionType.Run rt w instruction).1 = .Error) :
    (CopyBlobToOtherDeviceInstructionType.Run rt w instruction).2.1 = w := by
  cases hop : instruction.phy_instr_operand with
  | none => simp [CopyBlobToOtherDeviceInstructionType.Run, hop]
  | some op =>
    cases op with
    | otherPhyInstrOperand => simp [CopyBlobToOtherDeviceInstructionType.Run, hop]
    | AccessBlobArgCbPhyInstrOperand _ _ =>
      simp [CopyBlobToOtherDeviceInstructionType.Run, hop]
    | CopyBlobToOtherDevicePhyInstrOperand src_tensor dst_tensor =>
      cases hsrc : src_tensor.eager_blob_object with
      | none => simp [CopyBlobToOtherDeviceInstructionType.Run, hop, hsrc]
      | some src_blob =>
        cases hdst : dst_tensor.eager_blob_object with
        | none => simp [CopyBlobToOtherDeviceInstructionType.Run, hop, hsrc, hdst]
        | some dst_blob =>
          by_cases hsize : src_blob.ByteSizeOfBlobBody = dst_blob.ByteSizeOfBlobBody
          swap
          · simp [CopyBlobToOtherDeviceInstructionType.Run, hop, hsrc, hdst, hsize]
          exfalso
          simp only [CopyBlobToOtherDeviceInstructionType.Run, hop, hsrc, hdst] at herr
          rw [if_neg (fun h => h hsize)] at herr
          have h1 := RegisterMemory_not_error rt w
            (register_blob src_tensor dst_tensor src_blob dst_blob)
          rcases hr : RegisterMemory rt w
            (register_blob src_tensor dst_tensor src_blob dst_blob) with ⟨s1, w1⟩
          rw [hr] at herr h1
          cases s1 <;> simp only at herr h1 <;> try (exact absurd herr (by decide))
          · have h2 := SyncAutoMemcpy_not_error rt w1 dst_blob src_blob
              src_blob.ByteSizeOfBlobBody src_blob.mem_case dst_blob.mem_case
            rcases hc : SyncAutoMemcpy rt w1 dst_blob src_blob src_blob.ByteSizeOfBlobBody
              src_blob.mem_case dst_blob.mem_case with ⟨s2, w2, d1⟩
            rw [hc] at herr h2
            cases s2 <;> simp only at herr h2 <;> try (exact absurd herr (by decide))
            · have h3 := UnRegisterMemory_not_error rt w2
                (register_blob src_tensor dst_tensor src_blob d1)
              rcases hu : UnRegisterMemory rt w2
                (register_blob src_tensor dst_tensor src_blob d1) with ⟨s3, w3⟩
              rw [hu] at herr h3
              cases s3 <;> simp only at herr h3 <;> try (exact absurd herr (by decide))
              exact h3 rfl
            · exact h2 rfl
          · exact h1 rfl

/-! ## C1: byte-exact transfer -/

/-- C1, as stated, fails: with both endpoints on the host (equal body sizes, reference
runtime), `register_blob` stays null, `RegisterMemory` goes through the null pointer and
`Run` does not complete; the destination keeps its old bytes. Hence the statement over
every combination of endpoint kinds is false. -/
theorem C1_counterexample_same_side_endpoints :
    ¬ (∀ (rt : DeviceRuntime) (w : World) (src_tensor dst_tensor : MirroredTensor)
        (src_blob dst_blob : Blob),
        src_tensor.eager_blob_object = some src_blob →
        dst_tensor.eager_blob_object = some dst_blob →
        src_blob.ByteSizeOfBlobBody = dst_blob.ByteSizeOfBlobBody →
        (CopyBlobToOtherDeviceInstructionType.Run rt w
            (transferInstruction src_tensor dst_tensor)).1 = .Ok ∧
        ((CopyBlobToOtherDeviceInstructionType.Run rt w
            (transferInstruction src_tensor dst_tensor)).2.2.dst_blob).map Blob.body =
          some src_blob.body) := by
  intro h
  have h1 := (h referenceRuntime emptyWorld (tensorOf false hostBlob) (tensorOf false hostBlob2)
    hostBlob hostBlob2 rfl rfl rfl).1
  revert h1
  decide

/-- C1, amended: for source and destination blobs of equal body byte size with exactly
one endpoint on the accelerator, a non-null data pointer on the host side and a device
runtime that reports no unexpected code, `Run` returns `Ok` and leaves the destination
blob with exactly the source's body bytes (data pointer, memory case and aligned size of
the destination are kept). This holds whether the host endpoint is pinned or not. -/
theorem C1_transfer_byte_exact (rt : DeviceRuntime) (w : World) (instruction : Instruction)
    (src_tensor dst_tensor : MirroredTensor) (src_blob dst_blob : Blob)
    (hop : instruction.phy_instr_operand =
      some (.CopyBlobToOtherDevicePhyInstrOperand src_tensor dst_tensor))
    (hsrc : src_tensor.eager_blob_object = some src_blob)
    (hdst : dst_tensor.eager_blob_object = some dst_blob)
    (hsize : src_blob.ByteSizeOfBlobBody = dst_blob.ByteSizeOfBlobBody)
    (hone : src_tensor.is_cuda ≠ dst_tensor.is_cuda)
    (hsp : src_tensor.is_cuda = false → src_blob.dptr ≠ 0)
    (hdp : dst_tensor.is_cuda = false → dst_blob.dptr ≠ 0)
    (hrt : rt.Healthy) :
    (CopyBlobToOtherDeviceInstructionType.Run rt w instruction).1 = .Ok ∧
    (CopyBlobToOtherDeviceInstructionType.Run rt w instruction).2.2.dst_blob =
      some { dst_blob with body := src_blob.body } := by
  have h := Run_healthy rt w instruction src_tensor dst_tensor src_blob dst_blob hop hsrc hdst
    hsize hone hsp hdp hrt
  refine ⟨h.1, ?_⟩
  rw [h.2]
  simp [Instruction.with_dst_blob, Instruction.dst_blob]

/-- Witness of C1: a pinned host blob copied to the accelerator under the reference
runtime. -/
theorem C1_transfer_byte_exact_witness :
    (CopyBlobToOtherDeviceInstructionType.Run referenceRuntime emptyWorld
        (transferInstruction (tensorOf false pinnedBlob) (tensorOf true deviceBlob))).1 = .Ok ∧
    (CopyBlobToOtherDeviceInstructionType.Run referenceRuntime emptyWorld
        (transferInstruction (tensorOf false pinnedBlob)
          (tensorOf true deviceBlob))).2.2.dst_blob =
      some { deviceBlob with body := pinnedBlob.body } :=
  C1_transfer_byte_exact referenceRuntime emptyWorld
    (transferInstruction (tensorOf false pinnedBlob) (tensorOf true deviceBlob))
    (tensorOf false pinnedBlob) (tensorOf true deviceBlob) pinnedBlob deviceBlob
    rfl rfl rfl rfl (by decide) (by decide) (by decide) referenceRuntime_healthy

/-! ## C2: size mismatch -/

/-- C2, as stated, fails: `Infer` returns normally on a transfer instruction whose source
(four bytes) and destination (one byte) body sizes differ. -/
theorem C2_counterexample_infer_accepts_mismatch :
    hostBlob.ByteSizeOfBlobBody ≠ shortDeviceBlob.ByteSizeOfBlobBody ∧
    (CopyBlobToOtherDeviceInstructionType.Infer
      (transferInstruction (tensorOf false hostBlob) (tensorOf true shortDeviceBlob))).1 =
        .Ok := by
  decide

/-- C2, amended: `Infer` validates no sizes. On every instruction carrying the transfer
operand it returns normally, also when the two body byte sizes differ; the mismatch is
caught by `Run`, which on the instruction (before or after `Infer`) aborts with a fatal
check failure, having made no runtime call and written no byte. -/
theorem C2_mismatch_rejected_by_run (rt : DeviceRuntime) (w : World)
    (instruction : Instruction) (src_tensor dst_tensor : MirroredTensor)
    (src_blob dst_blob : Blob)
    (hop : instruction.phy_instr_operand =
      some (.CopyBlobToOtherDevicePhyInstrOperand src_tensor dst_tensor))
    (hsrc : src_tensor.eager_blob_object = some src_blob)
    (hdst : dst_tensor.eager_blob_object = some dst_blob)
    (hsize : src_blob.ByteSizeOfBlobBody ≠ dst_blob.ByteSizeOfBlobBody) :
    (CopyBlobToOtherDeviceInstructionType.Infer instruction).1 = .Ok ∧
    CopyBlobToOtherDeviceInstructionType.Run rt w instruction = (.Fatal, w, instruction) ∧
    CopyBlobToOtherDeviceInstructionType.Run rt w
        (CopyBlobToOtherDeviceInstructionType.Infer instruction).2 =
      (.Fatal, w, (CopyBlobToOtherDeviceInstructionType.Infer instruction).2) := by
  refine ⟨?_, ?_, ?_⟩
  · simp [CopyBlobToOtherDeviceInstructionType.Infer, hop]
  · simp [CopyBlobToOtherDeviceInstructionType.Run, hop, hsrc, hdst, hsize]
  · simp [CopyBlobToOtherDeviceInstructionType.Infer, CopyBlobToOtherDeviceInstructionType.Run,
      hop, hsrc, hdst, hsize]

/-- Witness of C2: a four-byte host source and a one-byte accelerator destination. -/
theorem C2_mismatch_rejected_by_run_witness :
    (CopyBlobToOtherDeviceInstructionType.Infer
      (transferInstruction (tensorOf false hostBlob) (tensorOf true shortDeviceBlob))).1 = .Ok ∧
    CopyBlobToOtherDeviceInstructionType.Run referenceRuntime emptyWorld
        (transferInstruction (tensorOf false hostBlob) (tensorOf true shortDeviceBlob)) =
      (.Fatal, emptyWorld,
        transferInstruction (tensorOf false hostBlob) (tensorOf true shortDeviceBlob)) ∧
    CopyBlobToOtherDeviceInstructionType.Run referenceRuntime emptyWorld
        (CopyBlobToOtherDeviceInstructionType.Infer
          (transferInstruction (tensorOf false hostBlob) (tensorOf true shortDeviceBlob))).2 =
      (.Fatal, emptyWorld,
        (CopyBlobToOtherDeviceInstructionType.Infer
          (transferInstruction (tensorOf false hostBlob) (tensorOf true shortDeviceBlob))).2) :=
  C2_mismatch_rejected_by_run referenceRuntime emptyWorld
    (transferInstruction (tensorOf false hostBlob) (tensorOf true shortDeviceBlob))
    (tensorOf false hostBlob) (tensorOf true shortDeviceBlob) hostBlob shortDeviceBlob
    rfl rfl rfl (by decide)

/-! ## C3: host to device and back -/

/-- C3: for every host blob `h`, accelerator blob `d` and host blob `h2` of the same body
byte size (host data pointers non-null, device runtime reporting no unexpected code),
the `cpu.to.gpu` transfer from `h` to `d` returns `Ok` and leaves a destination tensor
`d1`; the `gpu.to.cpu` transfer from `d1` into `h2` then returns `Ok` and leaves `h2`
with exactly the original bytes of `h`. -/
theorem C3_host_device_round_trip (rt : DeviceRuntime) (w : World)
    (hT dT h2T : MirroredTensor) (h d h2 : Blob)
    (hh : hT.eager_blob_object = some h) (hd : dT.eager_blob_object = some d)
    (hh2 : h2T.eager_blob_object = some h2)
    (hhost : hT.is_cuda = false) (hdev : dT.is_cuda = true) (hhost2 : h2T.is_cuda = false)
    (hsz : h.ByteSizeOfBlobBody = d.ByteSizeOfBlobBody)
    (hsz2 : d.ByteSizeOfBlobBody = h2.ByteSizeOfBlobBody)
    (hp : h.dptr ≠ 0) (hp2 : h2.dptr ≠ 0) (hrt : rt.Healthy) :
    ∃ (w1 w2 : World) (dT1 : MirroredTensor) (i2 : Instruction),
      CpuCopyBlobToGpuInstructionType.Run rt w (transferInstruction hT dT) =
        (.Ok, w1, transferInstruction hT dT1) ∧
      GpuCopyBlobToCpuInstructionType.Run rt w1 (transferInstruction dT1 h2T) =
        (.Ok, w2, i2) ∧
      i2.dst_blob = some { h2 with body := h.body } := by
  have r1 := Run_healthy rt w (transferInstruction hT dT) hT dT h d rfl hh hd hsz
    (by simp [hhost, hdev]) (fun _ => hp) (by simp [hdev]) hrt
  let dT1 : MirroredTensor := { dT with eager_blob_object := some { d with body := h.body } }
  have hsz3 : ({ d with body := h.body } : Blob).ByteSizeOfBlobBody = h2.ByteSizeOfBlobBody := by
    simpa [Blob.ByteSizeOfBlobBody] using hsz.trans hsz2
  have r2 := Run_healthy rt (CopyBlobToOtherDeviceInstructionType.Run rt w
      (transferInstruction hT dT)).2.1 (transferInstruction dT1 h2T) dT1 h2T
    { d with body := h.body } h2 rfl rfl hh2 hsz3
    (by simp [dT1, hhost2, hdev]) (by simp [dT1, hdev]) (fun _ => hp2) hrt
  refine ⟨(CopyBlobToOtherDeviceInstructionType.Run rt w (transferInstruction hT dT)).2.1,
    (CopyBlobToOtherDeviceInstructionType.Run rt
      (CopyBlobToOtherDeviceInstructionType.Run rt w (transferInstruction hT dT)).2.1
      (transferInstruction dT1 h2T)).2.1, dT1,
    (transferInstruction dT1 h2T).with_dst_blob dT1 h2T { h2 with body := h.body }, ?_, ?_, ?_⟩
  · refine Prod.ext r1.1 (Prod.ext rfl ?_)
    exact r1.2.trans rfl
  · refine Prod.ext r2.1 (Prod.ext rfl ?_)
    exact r2.2
  · simp [Instruction.with_dst_blob, Instruction.dst_blob]

/-- Witness of C3: four bytes from a pinned host blob to the accelerator and back into
a second host blob, under the reference runtime. -/
theorem C3_host_device_round_trip_witness :
    ∃ (w1 w2 : World) (dT1 : MirroredTensor) (i2 : Instruction),
      CpuCopyBlobToGpuInstructionType.Run referenceRuntime emptyWorld
          (transferInstruction (tensorOf false pinnedBlob) (tensorOf true deviceBlob)) =
        (.Ok, w1, transferInstruction (tensorOf false pinnedBlob) dT1) ∧
      GpuCopyBlobToCpuInstructionType.Run referenceRuntime w1
          (transferInstruction dT1 (tensorOf false hostBlob2)) = (.Ok, w2, i2) ∧
      i2.dst_blob = some { hostBlob2 with body := pinnedBlob.body } :=
  C3_host_device_round_trip referenceRuntime emptyWorld (tensorOf false pinnedBlob)
    (tensorOf true deviceBlob) (tensorOf false hostBlob2) pinnedBlob deviceBlob hostBlob2
    rfl rfl rfl rfl rfl rfl rfl rfl (by decide) (by decide) referenceRuntime_healthy

/-! ## C4: which endpoint is registered -/

/-- C4 fails on the code: in a transfer from the accelerator to an unpinned host blob
`Run` makes no registration call at all (the only call is the copy), whereas to a host
blob marked pinned it calls `cudaHostRegister` and `cudaHostUnregister` on that blob. The
claim states the opposite on both counts. -/
theorem C4_registers_only_when_marked_pinned :
    hostBlob.mem_case.has_cuda_pinned_mem = false ∧
    madeCalls emptyWorld (CopyBlobToOtherDeviceInstructionType.Run referenceRuntime emptyWorld
        (transferInstruction (tensorOf true deviceBlob) (tensorOf false hostBlob))).2.1 =
      [.SyncAutoMemcpy 4096 8192 4 (.device_cuda_mem 0) (.host_mem false)] ∧
    pinnedBlob.mem_case.has_cuda_pinned_mem = true ∧
    madeCalls emptyWorld (CopyBlobToOtherDeviceInstructionType.Run referenceRuntime emptyWorld
        (transferInstruction (tensorOf true deviceBlob) (tensorOf false pinnedBlob))).2.1 =
      [.cudaHostRegister 4096 512,
        .SyncAutoMemcpy 4096 8192 4 (.device_cuda_mem 0) (.host_mem true),
        .cudaHostUnregister 4096] := by
  decide

/-! ## C5: unregistration on the exit paths -/

/-- C5, as stated, fails: when the copy reports a failure, `Run` aborts right there. In a
transfer to a pinned host blob at 4096 that was not registered before, `Run` has
registered the region, the region is still registered at the abort, and no
unregistration call was made. -/
theorem C5_counterexample_failing_copy_keeps_registration :
    (CopyBlobToOtherDeviceInstructionType.Run (failingCopyRuntime 2) emptyWorld
        (transferInstruction (tensorOf true deviceBlob) (tensorOf false pinnedBlob))).1 =
      .Fatal ∧
    4096 ∉ emptyWorld.cuda.registered ∧
    4096 ∈ (CopyBlobToOtherDeviceInstructionType.Run (failingCopyRuntime 2) emptyWorld
        (transferInstruction (tensorOf true deviceBlob)
          (tensorOf false pinnedBlob))).2.1.cuda.registered ∧
    madeCalls emptyWorld (CopyBlobToOtherDeviceInstructionType.Run (failingCopyRuntime 2)
        emptyWorld (transferInstruction (tensorOf true deviceBlob)
          (tensorOf false pinnedBlob))).2.1 =
      [.cudaHostRegister 4096 512,
        .SyncAutoMemcpy 4096 8192 4 (.device_cuda_mem 0) (.host_mem true)] := by
  decide

/-- C5, amended: for every device runtime and every instruction, (1) on the paths on
which `Run` returns to its caller (`Ok`, or the early error return), every registration
call it made for a region is followed, later in the same run, by the unregistration call
for that region; (2) when the copy fails, `Run` does not return `Ok` and has made no
unregistration call at all. -/
theorem C5_unregisters_on_the_returning_path (rt : DeviceRuntime) (w : World)
    (instruction : Instruction) :
    ((CopyBlobToOtherDeviceInstructionType.Run rt w instruction).1 = .Ok ∨
        (CopyBlobToOtherDeviceInstructionType.Run rt w instruction).1 = .Error →
      ∀ ptr size, Call.cudaHostRegister ptr size ∈
          madeCalls w (CopyBlobToOtherDeviceInstructionType.Run rt w instruction).2.1 →
        ∃ pre post,
          madeCalls w (CopyBlobToOtherDeviceInstructionType.Run rt w instruction).2.1 =
            pre ++ Call.cudaHostRegister ptr size :: post ∧
          Call.cudaHostUnregister ptr ∈ post) ∧
    ((∀ c dst src sz, (rt.memcpy c dst src sz).1 ≠ .cudaSuccess) →
      (CopyBlobToOtherDeviceInstructionType.Run rt w instruction).1 ≠ .Ok ∧
      ∀ ptr, Call.cudaHostUnregister ptr ∉
        madeCalls w (CopyBlobToOtherDeviceInstructionType.Run rt w instruction).2.1) := by
  constructor
  · intro hret ptr size hmem
    rcases hret with hok | herr
    swap
    · rw [Run_error_world rt w instruction herr] at hmem
      simp [madeCalls] at hmem
    obtain ⟨src_tensor, dst_tensor, src_blob, dst_blob, b, g1, g2, -, -, -, -, -, -, hg1, hg2,
      hcalls, -⟩ := Run_ok_calls rt w instruction hok
    rw [madeCalls_eq _ _ _ hcalls] at hmem ⊢
    cases hm : b.mem_case.has_cuda_pinned_mem
    · simp [hm] at hmem
    · simp only [hm, if_true] at hmem ⊢
      have hptr : ptr = b.dptr ∧ size = b.AlignedByteSizeOfBlobBody := by
        rcases hg1 with h | h <;> rcases hg2 with h2 | h2 <;> subst h <;> subst h2 <;>
          simpa using hmem
      obtain ⟨h1, h2⟩ := hptr
      subst h1 h2
      exact ⟨[], g1 ++ [.SyncAutoMemcpy dst_blob.dptr src_blob.dptr src_blob.ByteSizeOfBlobBody
        src_blob.mem_case dst_blob.mem_case] ++ .cudaHostUnregister b.dptr :: g2, by simp,
        by simp⟩
  · intro hfail
    have hR : ∀ (R : List Call), (∀ c ∈ R, c.isRegisterPhase = true) →
        ∀ ptr, Call.cudaHostUnregister ptr ∉ R := by
      intro R hRp ptr hin
      have := hRp _ hin
      simp [Call.isRegisterPhase] at this
    obtain ⟨R, hRp, h | ⟨src_tensor, dst_tensor, src_blob, dst_blob, -, -, -, -, h | h⟩⟩ :=
      Run_calls_shape rt w instruction
    · refine ⟨h.2, fun ptr => ?_⟩
      rw [madeCalls_eq _ _ _ h.1]
      exact hR R hRp ptr
    · refine ⟨h.2, fun ptr => ?_⟩
      rw [madeCalls_eq _ _ (R ++ [.SyncAutoMemcpy dst_blob.dptr src_blob.dptr
        src_blob.ByteSizeOfBlobBody src_blob.mem_case dst_blob.mem_case]) (by simp [h.1])]
      intro hin
      rcases List.mem_append.1 hin with h1 | h1
      · exact hR R hRp ptr h1
      · simp at h1
    · obtain ⟨U, -, ⟨c, hc⟩, -⟩ := h
      exact absurd hc (hfail _ _ _ _)

/-- Witness of C5: under the reference runtime the transfer to the pinned host blob
returns `Ok` and its registration call is followed by the unregistration call; under the
runtime with a failing copy the run does not return `Ok` and makes no unregistration
call. -/
theorem C5_unregisters_on_the_returning_path_witness :
    (∀ ptr size, Call.cudaHostRegister ptr size ∈
        madeCalls emptyWorld (CopyBlobToOtherDeviceInstructionType.Run referenceRuntime
          emptyWorld (transferInstruction (tensorOf true deviceBlob)
            (tensorOf false pinnedBlob))).2.1 →
      ∃ pre post,
        madeCalls emptyWorld (CopyBlobToOtherDeviceInstructionType.Run referenceRuntime
          emptyWorld (transferInstruction (tensorOf true deviceBlob)
            (tensorOf false pinnedBlob))).2.1 =
          pre ++ Call.cudaHostRegister ptr size :: post ∧
        Call.cudaHostUnregister ptr ∈ post) ∧
    ((CopyBlobToOtherDeviceInstructionType.Run (failingCopyRuntime 2) emptyWorld
        (transferInstruction (tensorOf true deviceBlob) (tensorOf false pinnedBlob))).1 ≠ .Ok ∧
      ∀ ptr, Call.cudaHostUnregister ptr ∉
        madeCalls emptyWorld (CopyBlobToOtherDeviceInstructionType.Run (failingCopyRuntime 2)
          emptyWorld (transferInstruction (tensorOf true deviceBlob)
            (tensorOf false pinnedBlob))).2.1) :=
  ⟨(C5_unregisters_on_the_returning_path referenceRuntime emptyWorld
      (transferInstruction (tensorOf true deviceBlob) (tensorOf false pinnedBlob))).1
      (Or.inl (by decide)),
    (C5_unregisters_on_the_returning_path (failingCopyRuntime 2) emptyWorld
      (transferInstruction (tensorOf true deviceBlob) (tensorOf false pinnedBlob))).2
      (by intro c dst src sz; simp [failingCopyRuntime])⟩

/-! ## C6: the registry before and after a transfer -/

theorem RegisterMemory_reference (w : World) (b : Blob) (hp : b.dptr ≠ 0) :
    (RegisterMemory referenceRuntime w (some b)).1 = .Ok ∧
    (RegisterMemory referenceRuntime w (some b)).2.cuda.registered =
      if b.mem_case.has_cuda_pinned_mem = true ∧ b.dptr ∉ w.cuda.registered
      then b.dptr :: w.cuda.registered else w.cuda.registered := by
  cases hm : b.mem_case.has_cuda_pinned_mem
  · simp [RegisterMemory, hp, hm]
  · by_cases hr : b.dptr ∈ w.cuda.registered <;>
      simp [RegisterMemory, hp, hm, hr, referenceRuntime, OF_CUDA_CHECK]

theorem UnRegisterMemory_reference (w : World) (b : Blob) (hp : b.dptr ≠ 0) :
    (UnRegisterMemory referenceRuntime w (some b)).1 = .Ok ∧
    (UnRegisterMemory referenceRuntime w (some b)).2.cuda.registered =
      if b.mem_case.has_cuda_pinned_mem = true
      then w.cuda.registered.filter (fun q => q ≠ b.dptr) else w.cuda.registered := by
  cases hm : b.mem_case.has_cuda_pinned_mem
  · simp [UnRegisterMemory, hp, hm]
  · by_cases hr : b.dptr ∈ w.cuda.registered
    · simp [UnRegisterMemory, hp, hm, hr, referenceRuntime, OF_CUDA_CHECK]
    · simp only [UnRegisterMemory, hp, hm, hr, referenceRuntime, if_false, if_true, true_and]
      symm
      rw [List.filter_eq_self]
      intro q hq
      have : q ≠ b.dptr := fun h => hr (h ▸ hq)
      simpa using this

theorem SyncAutoMemcpy_reference (w : World) (dst_blob src_blob : Blob) (sz : Nat)
    (m1 m2 : MemoryCase) :
    (SyncAutoMemcpy referenceRuntime w dst_blob src_blob sz m1 m2).2.1.cuda = w.cuda := by
  simp [SyncAutoMemcpy, referenceRuntime]

/-- Under the reference runtime, a transfer between blobs of equal size whose register
blob `b` has a non-null data pointer returns `Ok`, and the registered regions afterwards
are those registered before, minus the region of `b` when `b` carries `cuda_pinned_mem`
(the condition under which lines 130 and 144 make their calls). -/
theorem Run_reference_registry (w : World) (instruction : Instruction)
    (src_tensor dst_tensor : MirroredTensor) (src_blob dst_blob b : Blob)
    (hop : instruction.phy_instr_operand =
      some (.CopyBlobToOtherDevicePhyInstrOperand src_tensor dst_tensor))
    (hsrc : src_tensor.eager_blob_object = some src_blob)
    (hdst : dst_tensor.eager_blob_object = some dst_blob)
    (hsize : src_blob.ByteSizeOfBlobBody = dst_blob.ByteSizeOfBlobBody)
    (hb : register_blob src_tensor dst_tensor src_blob dst_blob = some b)
    (hp : b.dptr ≠ 0) :
    (CopyBlobToOtherDeviceInstructionType.Run referenceRuntime w instruction).1 = .Ok ∧
    (CopyBlobToOtherDeviceInstructionType.Run referenceRuntime w
        instruction).2.1.cuda.registered =
      (if b.mem_case.has_cuda_pinned_mem = true
        then w.cuda.registered.filter (fun q => q ≠ b.dptr) else w.cuda.registered) := by
  simp only [CopyBlobToOtherDeviceInstructionType.Run, hop, hsrc, hdst, hb]
  rw [if_neg (fun h => h hsize)]
  have hreg := RegisterMemory_reference w b hp
  rcases hr : RegisterMemory referenceRuntime w (some b) with ⟨s1, w1⟩
  rw [hr] at hreg
  obtain ⟨hs1, hw1⟩ := hreg
  simp only at hs1 hw1
  subst hs1
  simp only
  have hcp := SyncAutoMemcpy_region referenceRuntime w1 dst_blob src_blob
    src_blob.ByteSizeOfBlobBody src_blob.mem_case dst_blob.mem_case
  have hcs := SyncAutoMemcpy_healthy referenceRuntime w1 dst_blob src_blob
    src_blob.ByteSizeOfBlobBody src_blob.mem_case dst_blob.mem_case referenceRuntime_healthy
  have hcc := SyncAutoMemcpy_reference w1 dst_blob src_blob
    src_blob.ByteSizeOfBlobBody src_blob.mem_case dst_blob.mem_case
  rcases hc : SyncAutoMemcpy referenceRuntime w1 dst_blob src_blob
    src_blob.ByteSizeOfBlobBody src_blob.mem_case dst_blob.mem_case with ⟨s2, w2, d1⟩
  rw [hc] at hcp hcs hcc
  simp only at hcp hcs hcc
  obtain ⟨-, hd1, hd2⟩ := hcp
  obtain ⟨hs2, -⟩ := hcs
  subst hs2
  simp only
  obtain ⟨b1, hb1, hb1p, hb1m⟩ :=
    register_blob_same_region src_tensor dst_tensor src_blob dst_blob d1 b hb hd1 hd2
  rw [hb1]
  have hun := UnRegisterMemory_reference w2 b1 (hb1p ▸ hp)
  rcases hu : UnRegisterMemory referenceRuntime w2 (some b1) with ⟨s3, w3⟩
  rw [hu] at hun
  obtain ⟨hs3, hw3⟩ := hun
  simp only at hs3 hw3
  subst hs3
  simp only [true_and]
  rw [hw3, hb1p, hb1m, hcc, hw1]
  cases hm : b.mem_case.has_cuda_pinned_mem
  · simp
  · by_cases hin : b.dptr ∈ w.cuda.registered <;> simp [hin]

/-- C6, as stated, fails: the region at 4096 is registered before the transfer; the
transfer makes a registration call for it and completes, and afterwards the region is no
longer registered. -/
theorem C6_counterexample_prior_registration_dropped :
    4096 ∈ registeredWorld.cuda.registered ∧
    Call.cudaHostRegister 4096 512 ∈ madeCalls registeredWorld
      (CopyBlobToOtherDeviceInstructionType.Run referenceRuntime registeredWorld
        (transferInstruction (tensorOf false pinnedBlob) (tensorOf true deviceBlob))).2.1 ∧
    (CopyBlobToOtherDeviceInstructionType.Run referenceRuntime registeredWorld
        (transferInstruction (tensorOf false pinnedBlob) (tensorOf true deviceBlob))).1 = .Ok ∧
    4096 ∉ (CopyBlobToOtherDeviceInstructionType.Run referenceRuntime registeredWorld
        (transferInstruction (tensorOf false pinnedBlob)
          (tensorOf true deviceBlob))).2.1.cuda.registered ∧
    (CopyBlobToOtherDeviceInstructionType.Run referenceRuntime registeredWorld
        (transferInstruction (tensorOf false pinnedBlob)
          (tensorOf true deviceBlob))).2.1.cuda.registered ≠
      registeredWorld.cuda.registered := by
  decide

/-- C6, amended: registration around a transfer is not reference-counted. Under the
reference runtime, for every transfer that completes: when `Run` made a registration call
for a region, the regions registered afterwards are those registered before without that
region, so the region is not registered after the transfer even if it was registered
before it; hence `Run` leaves the registered regions exactly as it found them when the
region it made the call for was not registered before the transfer, and also when it
made no registration call. -/
theorem C6_no_reference_count (w : World) (instruction : Instruction)
    (hok : (CopyBlobToOtherDeviceInstructionType.Run referenceRuntime w instruction).1 = .Ok) :
    (∀ ptr size, Call.cudaHostRegister ptr size ∈
        madeCalls w (CopyBlobToOtherDeviceInstructionType.Run referenceRuntime w
          instruction).2.1 →
      (CopyBlobToOtherDeviceInstructionType.Run referenceRuntime w
          instruction).2.1.cuda.registered = w.cuda.registered.filter (fun q => q ≠ ptr) ∧
      ptr ∉ (CopyBlobToOtherDeviceInstructionType.Run referenceRuntime w
          instruction).2.1.cuda.registered ∧
      (ptr ∉ w.cuda.registered →
        (CopyBlobToOtherDeviceInstructionType.Run referenceRuntime w
          instruction).2.1.cuda.registered = w.cuda.registered)) ∧
    (callsRegister (madeCalls w (CopyBlobToOtherDeviceInstructionType.Run referenceRuntime w
          instruction).2.1) = false →
      (CopyBlobToOtherDeviceInstructionType.Run referenceRuntime w
          instruction).2.1.cuda.registered = w.cuda.registered) := by
  obtain ⟨src_tensor, dst_tensor, src_blob, dst_blob, b, g1, g2, hop, hsrc, hdst, hsize, hb,
    hbp, hg1, hg2, hcalls, -⟩ := Run_ok_calls referenceRuntime w instruction hok
  have hreg := (Run_reference_registry w instruction src_tensor dst_tensor src_blob dst_blob b
    hop hsrc hdst hsize hb hbp).2
  have hmade := madeCalls_eq _ _ _ hcalls
  rw [hmade, hreg]
  cases hm : b.mem_case.has_cuda_pinned_mem
  · refine ⟨?_, ?_⟩
    · intro ptr size hin
      simp at hin
    · intro _
      simp
  · refine ⟨?_, ?_⟩
    · intro ptr size hin
      have hptr : ptr = b.dptr := by
        rcases hg1 with h1 | h1 <;> rcases hg2 with h2 | h2 <;> subst h1 <;> subst h2 <;>
          simp at hin <;> exact hin.1
      subst hptr
      refine ⟨by simp, by simp, ?_⟩
      intro hnot
      simp only [if_true]
      rw [List.filter_eq_self]
      intro q hq
      have : q ≠ b.dptr := fun h => hnot (h ▸ hq)
      simpa using this
    · intro hno
      simp [callsRegister] at hno

/-- Witness of C6: in a state where 4096 is registered, the transfer that makes a
registration call for 4096 completes and leaves no region registered; the same transfer
started with no region registered leaves none registered. -/
theorem C6_no_reference_count_witness :
    (CopyBlobToOtherDeviceInstructionType.Run referenceRuntime registeredWorld
        (transferInstruction (tensorOf false pinnedBlob) (tensorOf true deviceBlob))).1 = .Ok ∧
    ((CopyBlobToOtherDeviceInstructionType.Run referenceRuntime registeredWorld
        (transferInstruction (tensorOf false pinnedBlob)
          (tensorOf true deviceBlob))).2.1.cuda.registered =
        registeredWorld.cuda.registered.filter (fun q => q ≠ 4096) ∧
      4096 ∉ (CopyBlobToOtherDeviceInstructionType.Run referenceRuntime registeredWorld
        (transferInstruction (tensorOf false pinnedBlob)
          (tensorOf true deviceBlob))).2.1.cuda.registered ∧
      (4096 ∉ registeredWorld.cuda.registered →
        (CopyBlobToOtherDeviceInstructionType.Run referenceRuntime registeredWorld
          (transferInstruction (tensorOf false pinnedBlob)
            (tensorOf true deviceBlob))).2.1.cuda.registered =
          registeredWorld.cuda.registered)) ∧
    (CopyBlobToOtherDeviceInstructionType.Run referenceRuntime emptyWorld
        (transferInstruction (tensorOf false pinnedBlob)
          (tensorOf true deviceBlob))).2.1.cuda.registered = emptyWorld.cuda.registered :=
  ⟨by decide,
    (C6_no_reference_count registeredWorld
      (transferInstruction (tensorOf false pinnedBlob) (tensorOf true deviceBlob))
      (by decide)).1 4096 512 (by decide),
    ((C6_no_reference_count emptyWorld
      (transferInstruction (tensorOf false pinnedBlob) (tensorOf true deviceBlob))
      (by decide)).1 4096 512 (by decide)).2.2 (by decide)⟩

/-! ## C7: the pin and unpin instructions are idempotent -/

/-- C7: for every host blob that has a region (its data pointer is non-null unless it is
marked pinned, in which case the pointer is not read), under the reference runtime:
`CudaHostRegisterBlob` on a region that is already registered returns normally and leaves
the registered regions unchanged, and `CudaHostUnregisterBlob` on a region that is not
registered returns normally and leaves the registered regions unchanged. -/
theorem C7_pin_unpin_idempotent (w : World) (instruction : Instruction) (blob : Blob)
    (hi : instruction.blob = some blob)
    (hhost : blob.mem_case.has_host_mem = true)
    (hp : blob.mem_case.has_cuda_pinned_mem = false → blob.dptr ≠ 0) :
    (blob.dptr ∈ w.cuda.registered →
      (CudaHostRegisterBlobInstructionType.Compute referenceRuntime w instruction).1 = .Ok ∧
      (CudaHostRegisterBlobInstructionType.Compute referenceRuntime w
        instruction).2.cuda.registered = w.cuda.registered) ∧
    (blob.dptr ∉ w.cuda.registered →
      (CudaHostUnregisterBlobInstructionType.Compute referenceRuntime w instruction).1 = .Ok ∧
      (CudaHostUnregisterBlobInstructionType.Compute referenceRuntime w
        instruction).2.cuda.registered = w.cuda.registered) := by
  cases hm : blob.mem_case.has_cuda_pinned_mem
  · have hp0 := hp hm
    constructor
    · intro hr
      simp [CudaHostRegisterBlobInstructionType.Compute, hi, hhost, hm, hp0, hr,
        referenceRuntime]
    · intro hr
      simp [CudaHostUnregisterBlobInstructionType.Compute, hi, hhost, hm, hp0, hr,
        referenceRuntime]
  · constructor
    · intro _
      simp [CudaHostRegisterBlobInstructionType.Compute, hi, hhost, hm]
    · intro _
      simp [CudaHostUnregisterBlobInstructionType.Compute, hi, hhost, hm]

/-- Witness of C7: pinning the unpinned host blob at 4096 while 4096 is registered. -/
theorem C7_pin_unpin_idempotent_witness :
    (hostBlob.dptr ∈ registeredWorld.cuda.registered →
      (CudaHostRegisterBlobInstructionType.Compute referenceRuntime registeredWorld
        (pinInstruction hostBlob)).1 = .Ok ∧
      (CudaHostRegisterBlobInstructionType.Compute referenceRuntime registeredWorld
        (pinInstruction hostBlob)).2.cuda.registered = registeredWorld.cuda.registered) ∧
    (hostBlob.dptr ∉ registeredWorld.cuda.registered →
      (CudaHostUnregisterBlobInstructionType.Compute referenceRuntime registeredWorld
        (pinInstruction hostBlob)).1 = .Ok ∧
      (CudaHostUnregisterBlobInstructionType.Compute referenceRuntime registeredWorld
        (pinInstruction hostBlob)).2.cuda.registered = registeredWorld.cuda.registered) :=
  C7_pin_unpin_idempotent registeredWorld (pinInstruction hostBlob) hostBlob rfl rfl
    (fun _ => by decide)

/-! ## C8: result codes in the registration helpers -/

/-- C8: for every device runtime and every blob on which the helpers reach the runtime
call (non-null data pointer, memory case marked pinned): `RegisterMemory` returns
normally exactly when the runtime reported success or "already registered", and
`UnRegisterMemory` exactly when it reported success or "not registered"; on every other
code the helper ends in a fatal error. -/
theorem C8_benign_codes_in_helpers (rt : DeviceRuntime) (w : World) (blob : Blob)
    (hp : blob.dptr ≠ 0) (hm : blob.mem_case.has_cuda_pinned_mem = true) :
    (RegisterMemory rt w (some blob)).1 =
      (if (rt.cudaHostRegister w.cuda blob.dptr blob.AlignedByteSizeOfBlobBody).1 =
            .cudaSuccess ∨
          (rt.cudaHostRegister w.cuda blob.dptr blob.AlignedByteSizeOfBlobBody).1 =
            .cudaErrorHostMemoryAlreadyRegistered
        then .Ok else .Fatal) ∧
    (UnRegisterMemory rt w (some blob)).1 =
      (if (rt.cudaHostUnregister w.cuda blob.dptr).1 = .cudaSuccess ∨
          (rt.cudaHostUnregister w.cuda blob.dptr).1 = .cudaErrorHostMemoryNotRegistered
        then .Ok else .Fatal) := by
  constructor
  · by_cases he : (rt.cudaHostRegister w.cuda blob.dptr blob.AlignedByteSizeOfBlobBody).1 =
        .cudaErrorHostMemoryAlreadyRegistered
    · simp [RegisterMemory, hp, hm, he]
    · by_cases hs : (rt.cudaHostRegister w.cuda blob.dptr blob.AlignedByteSizeOfBlobBody).1 =
          .cudaSuccess <;> simp [RegisterMemory, hp, hm, he, hs, OF_CUDA_CHECK]
  · by_cases he : (rt.cudaHostUnregister w.cuda blob.dptr).1 =
        .cudaErrorHostMemoryNotRegistered
    · simp [UnRegisterMemory, hp, hm, he]
    · by_cases hs : (rt.cudaHostUnregister w.cuda blob.dptr).1 = .cudaSuccess <;>
        simp [UnRegisterMemory, hp, hm, he, hs, OF_CUDA_CHECK]

/-- Witness of C8: the pinned host blob at 4096 under the reference runtime, in a state
where 4096 is registered. -/
theorem C8_benign_codes_in_helpers_witness :
    (RegisterMemory referenceRuntime registeredWorld (some pinnedBlob)).1 =
      (if (referenceRuntime.cudaHostRegister registeredWorld.cuda pinnedBlob.dptr
            pinnedBlob.AlignedByteSizeOfBlobBody).1 = .cudaSuccess ∨
          (referenceRuntime.cudaHostRegister registeredWorld.cuda pinnedBlob.dptr
            pinnedBlob.AlignedByteSizeOfBlobBody).1 = .cudaErrorHostMemoryAlreadyRegistered
        then .Ok else .Fatal) ∧
    (UnRegisterMemory referenceRuntime registeredWorld (some pinnedBlob)).1 =
      (if (referenceRuntime.cudaHostUnregister registeredWorld.cuda pinnedBlob.dptr).1 =
            .cudaSuccess ∨
          (referenceRuntime.cudaHostUnregister registeredWorld.cuda pinnedBlob.dptr).1 =
            .cudaErrorHostMemoryNotRegistered
        then .Ok else .Fatal) :=
  C8_benign_codes_in_helpers referenceRuntime registeredWorld pinnedBlob (by decide) rfl

/-! ## C9: the size of the copy -/

/-- C9: for every device runtime and every transfer instruction with both blobs present:
(1) on every exit path, each copy `Run` issued goes from the source's to the
destination's data pointer with size `min` of the two body byte sizes; (2) when `Run`
returns `Ok` it issued exactly one copy, and the destination holds the first `min` bytes
of the source followed by its own bytes beyond `min`; (3) when the two sizes differ,
`Run` aborts with a fatal error, having made no runtime call (so nothing is registered)
and with the instruction, hence every destination byte, unchanged. -/
theorem C9_copy_size_and_mismatch_abort (rt : DeviceRuntime) (w : World)
    (instruction : Instruction) (src_tensor dst_tensor : MirroredTensor)
    (src_blob dst_blob : Blob)
    (hop : instruction.phy_instr_operand =
      some (.CopyBlobToOtherDevicePhyInstrOperand src_tensor dst_tensor))
    (hsrc : src_tensor.eager_blob_object = some src_blob)
    (hdst : dst_tensor.eager_blob_object = some dst_blob) :
    (∀ dst src sz m1 m2, Call.SyncAutoMemcpy dst src sz m1 m2 ∈
        madeCalls w (CopyBlobToOtherDeviceInstructionType.Run rt w instruction).2.1 →
      dst = dst_blob.dptr ∧ src = src_blob.dptr ∧
      sz = min src_blob.ByteSizeOfBlobBody dst_blob.ByteSizeOfBlobBody) ∧
    ((CopyBlobToOtherDeviceInstructionType.Run rt w instruction).1 = .Ok →
      (madeCalls w (CopyBlobToOtherDeviceInstructionType.Run rt w instruction).2.1).filter
          Call.isCopy =
        [.SyncAutoMemcpy dst_blob.dptr src_blob.dptr
          (min src_blob.ByteSizeOfBlobBody dst_blob.ByteSizeOfBlobBody)
          src_blob.mem_case dst_blob.mem_case] ∧
      (CopyBlobToOtherDeviceInstructionType.Run rt w instruction).2.2.dst_blob =
        some { dst_blob with
          body := src_blob.body.take
              (min src_blob.ByteSizeOfBlobBody dst_blob.ByteSizeOfBlobBody) ++
            dst_blob.body.drop
              (min src_blob.ByteSizeOfBlobBody dst_blob.ByteSizeOfBlobBody) }) ∧
    (src_blob.ByteSizeOfBlobBody ≠ dst_blob.ByteSizeOfBlobBody →
      CopyBlobToOtherDeviceInstructionType.Run rt w instruction = (.Fatal, w, instruction) ∧
      madeCalls w (CopyBlobToOtherDeviceInstructionType.Run rt w instruction).2.1 = []) := by
  have hR : ∀ (R : List Call), (∀ c ∈ R, c.isRegisterPhase = true) →
      ∀ dst src sz m1 m2, Call.SyncAutoMemcpy dst src sz m1 m2 ∉ R := by
    intro R hRp dst src sz m1 m2 hin
    have := hRp _ hin
    simp [Call.isRegisterPhase] at this
  have hU : ∀ (U : List Call), (∀ c ∈ U, c.isUnregisterPhase = true) →
      ∀ dst src sz m1 m2, Call.SyncAutoMemcpy dst src sz m1 m2 ∉ U := by
    intro U hUp dst src sz m1 m2 hin
    have := hUp _ hin
    simp [Call.isUnregisterPhase] at this
  refine ⟨?_, ?_, ?_⟩
  · intro dst src sz m1 m2 hin
    obtain ⟨R, hRp, h | ⟨st, dt, sb, db, hop2, hsrc2, hdst2, hsize, h⟩⟩ :=
      Run_calls_shape rt w instruction
    · rw [madeCalls_eq _ _ _ h.1] at hin
      exact absurd hin (hR R hRp _ _ _ _ _)
    · rw [hop] at hop2
      simp only [Option.some.injEq, PhyInstrOperand.CopyBlobToOtherDevicePhyInstrOperand.injEq]
        at hop2
      obtain ⟨h1, h2⟩ := hop2
      subst h1 h2
      rw [hsrc] at hsrc2
      rw [hdst] at hdst2
      simp only [Option.some.injEq] at hsrc2 hdst2
      subst hsrc2 hdst2
      have hcopy : ∀ (U : List Call), (∀ c ∈ U, c.isUnregisterPhase = true) →
          Call.SyncAutoMemcpy dst src sz m1 m2 ∈ R ++ [Call.SyncAutoMemcpy dst_blob.dptr
            src_blob.dptr src_blob.ByteSizeOfBlobBody src_blob.mem_case dst_blob.mem_case] ++ U →
          dst = dst_blob.dptr ∧ src = src_blob.dptr ∧
            sz = min src_blob.ByteSizeOfBlobBody dst_blob.ByteSizeOfBlobBody := by
        intro U hUp hmem
        rcases List.mem_append.1 hmem with h1 | h1
        · rcases List.mem_append.1 h1 with h2 | h2
          · exact absurd h2 (hR R hRp _ _ _ _ _)
          · simp only [List.mem_singleton, Call.SyncAutoMemcpy.injEq] at h2
            exact ⟨h2.1, h2.2.1, by rw [h2.2.2.1, hsize, Nat.min_self]⟩
        · exact absurd h1 (hU U hUp _ _ _ _ _)
      rcases h with h | ⟨U, hUp, -, h⟩
      · rw [madeCalls_eq _ _ (R ++ [.SyncAutoMemcpy dst_blob.dptr src_blob.dptr
          src_blob.ByteSizeOfBlobBody src_blob.mem_case dst_blob.mem_case])
          (by simp [h.1])] at hin
        exact hcopy [] (by simp) (by simpa using hin)
      · rw [madeCalls_eq _ _ (R ++ [.SyncAutoMemcpy dst_blob.dptr src_blob.dptr
          src_blob.ByteSizeOfBlobBody src_blob.mem_case dst_blob.mem_case] ++ U)
          (by simp [h])] at hin
        exact hcopy U hUp hin
  · intro hok
    obtain ⟨st, dt, sb, db, b, g1, g2, hop2, hsrc2, hdst2, hsize, -, -, hg1, hg2, hcalls,
      hinstr⟩ := Run_ok_calls rt w instruction hok
    rw [hop] at hop2
    simp only [Option.some.injEq, PhyInstrOperand.CopyBlobToOtherDevicePhyInstrOperand.injEq]
      at hop2
    obtain ⟨h1, h2⟩ := hop2
    subst h1 h2
    rw [hsrc] at hsrc2
    rw [hdst] at hdst2
    simp only [Option.some.injEq] at hsrc2 hdst2
    subst hsrc2 hdst2
    rw [madeCalls_eq _ _ _ hcalls, hinstr]
    have hmin : min src_blob.ByteSizeOfBlobBody dst_blob.ByteSizeOfBlobBody =
        src_blob.ByteSizeOfBlobBody := by rw [hsize, Nat.min_self]
    rw [hmin]
    constructor
    · cases b.mem_case.has_cuda_pinned_mem <;> rcases hg1 with h | h <;>
        rcases hg2 with h2 | h2 <;> subst h <;> subst h2 <;>
        simp [List.filter, Call.isCopy]
    · simp [Instruction.with_dst_blob, Instruction.dst_blob]
  · intro hne
    have hrun : CopyBlobToOtherDeviceInstructionType.Run rt w instruction =
        (.Fatal, w, instruction) := by
      simp [CopyBlobToOtherDeviceInstructionType.Run, hop, hsrc, hdst, hne]
    refine ⟨hrun, ?_⟩
    rw [hrun]
    simp [madeCalls]

/-- Witness of C9: the size mismatch between the four-byte host blob and the one-byte
accelerator blob, under the reference runtime. -/
theorem C9_copy_size_and_mismatch_abort_witness :
    hostBlob.ByteSizeOfBlobBody ≠ shortDeviceBlob.ByteSizeOfBlobBody ∧
    CopyBlobToOtherDeviceInstructionType.Run referenceRuntime emptyWorld
        (transferInstruction (tensorOf false hostBlob) (tensorOf true shortDeviceBlob)) =
      (.Fatal, emptyWorld,
        transferInstruction (tensorOf false hostBlob) (tensorOf true shortDeviceBlob)) ∧
    madeCalls emptyWorld (CopyBlobToOtherDeviceInstructionType.Run referenceRuntime emptyWorld
        (transferInstruction (tensorOf false hostBlob) (tensorOf true shortDeviceBlob))).2.1 =
      [] :=
  ⟨by decide,
    (C9_copy_size_and_mismatch_abort referenceRuntime emptyWorld
      (transferInstruction (tensorOf false hostBlob) (tensorOf true shortDeviceBlob))
      (tensorOf false hostBlob) (tensorOf true shortDeviceBlob) hostBlob shortDeviceBlob
      rfl rfl rfl).2.2 (by decide)⟩

/-! ## C10: the two transfer instruction types -/

/-- C10: `cpu.to.gpu.CopyBlobToOtherDevice` and `gpu.to.cpu.CopyBlobToOtherDevice` answer
with the same `Infer` and the same `Run`; the blob handed to the registration helpers is
decided by the two `is_cuda` flags alone (destination blob when only the source is on the
accelerator, source blob when only the destination is, none otherwise); the two types
differ in their stream type, the host-to-device copy stream for the former and the
device-to-host copy stream for the latter, which are distinct (and in the name they are
registered under). -/
theorem C10_transfer_types_share_algorithm :
    CpuCopyBlobToGpuInstructionType.Infer = GpuCopyBlobToCpuInstructionType.Infer ∧
    CpuCopyBlobToGpuInstructionType.Run = GpuCopyBlobToCpuInstructionType.Run ∧
    (∀ (src_tensor dst_tensor : MirroredTensor) (src_blob dst_blob : Blob),
      register_blob src_tensor dst_tensor src_blob dst_blob =
        match src_tensor.is_cuda, dst_tensor.is_cuda with
        | true, false => some dst_blob
        | false, true => some src_blob
        | _, _ => none) ∧
    CpuCopyBlobToGpuInstructionType.stream_type = .CudaCopyH2DStreamType ∧
    GpuCopyBlobToCpuInstructionType.stream_type = .CudaCopyD2HStreamType ∧
    CpuCopyBlobToGpuInstructionType.stream_type ≠ GpuCopyBlobToCpuInstructionType.stream_type ∧
    CpuCopyBlobToGpuInstructionType.name = "cpu.to.gpu.CopyBlobToOtherDevice" ∧
    GpuCopyBlobToCpuInstructionType.name = "gpu.to.cpu.CopyBlobToOtherDevice" := by
  refine ⟨rfl, rfl, ?_, rfl, rfl, by decide, rfl, rfl⟩
  intro src_tensor dst_tensor src_blob dst_blob
  cases hs : src_tensor.is_cuda <;> cases hd : dst_tensor.is_cuda <;>
    simp [register_blob, hs, hd]

/-! ## C11: `Infer` touches metadata only -/

/-- C11: `Infer` of the transfer instruction, on an instruction carrying a transfer
operand, returns normally and changes nothing but the destination tensor, which gets the
source's shape, dtype, requires_grad and retain_grad and `is_leaf = false`, and keeps its
device and its blob (every byte of it); the source tensor and the rest of the instruction
are as before, and no runtime state is involved. On any other operand it changes nothing.
`Infer` of the pin and of the unpin instruction returns the runtime state and the
instruction unchanged. -/
theorem C11_infer_metadata_only (w : World) (instruction : Instruction) :
    (∀ src_tensor dst_tensor, instruction.phy_instr_operand =
        some (.CopyBlobToOtherDevicePhyInstrOperand src_tensor dst_tensor) →
      ∃ dst1 : MirroredTensor,
        CopyBlobToOtherDeviceInstructionType.Infer instruction =
          (.Ok, instruction.with_operand
            (.CopyBlobToOtherDevicePhyInstrOperand src_tensor dst1)) ∧
        dst1.shape = src_tensor.shape ∧ dst1.dtype = src_tensor.dtype ∧
        dst1.requires_grad = src_tensor.requires_grad ∧
        dst1.retain_grad = src_tensor.retain_grad ∧ dst1.is_leaf = false ∧
        dst1.is_cuda = dst_tensor.is_cuda ∧
        dst1.eager_blob_object = dst_tensor.eager_blob_object) ∧
    (instruction.transfer_tensors = none →
      (CopyBlobToOtherDeviceInstructionType.Infer instruction).2 = instruction) ∧
    CudaHostRegisterBlobInstructionType.Infer w instruction = (.Ok, w, instruction) ∧
    CudaHostUnregisterBlobInstructionType.Infer w instruction = (.Ok, w, instruction) := by
  refine ⟨?_, ?_, rfl, rfl⟩
  · intro src_tensor dst_tensor hop
    refine ⟨
      { dst_tensor with
        shape := src_tensor.shape
        dtype := src_tensor.dtype
        requires_grad := src_tensor.requires_grad
        retain_grad := src_tensor.retain_grad
        is_leaf := false }, ?_, rfl, rfl, rfl, rfl, rfl, rfl, rfl⟩
    simp [CopyBlobToOtherDeviceInstructionType.Infer, hop, Instruction.with_operand]
  · intro hnone
    cases hop : instruction.phy_instr_operand with
    | none => simp [CopyBlobToOtherDeviceInstructionType.Infer, hop]
    | some op =>
      cases op with
      | otherPhyInstrOperand => simp [CopyBlobToOtherDeviceInstructionType.Infer, hop]
      | AccessBlobArgCbPhyInstrOperand _ _ =>
        simp [CopyBlobToOtherDeviceInstructionType.Infer, hop]
      | CopyBlobToOtherDevicePhyInstrOperand src_tensor dst_tensor =>
        simp [Instruction.transfer_tensors, hop] at hnone

/-- Witness of C11: `Infer` on the transfer from a host tensor to an accelerator tensor
holding a one-byte blob. -/
theorem C11_infer_metadata_only_witness :
    ∃ dst1 : MirroredTensor,
      CopyBlobToOtherDeviceInstructionType.Infer
          (transferInstruction (tensorOf false hostBlob) (tensorOf true shortDeviceBlob)) =
        (.Ok, (transferInstruction (tensorOf false hostBlob)
          (tensorOf true shortDeviceBlob)).with_operand
            (.CopyBlobToOtherDevicePhyInstrOperand (tensorOf false hostBlob) dst1)) ∧
      dst1.shape = (tensorOf false hostBlob).shape ∧
      dst1.dtype = (tensorOf false hostBlob).dtype ∧
      dst1.requires_grad = (tensorOf false hostBlob).requires_grad ∧
      dst1.retain_grad = (tensorOf false hostBlob).retain_grad ∧ dst1.is_leaf = false ∧
      dst1.is_cuda = (tensorOf true shortDeviceBlob).is_cuda ∧
      dst1.eager_blob_object = (tensorOf true shortDeviceBlob).eager_blob_object :=
  (C11_infer_metadata_only emptyWorld
    (transferInstruction (tensorOf false hostBlob) (tensorOf true shortDeviceBlob))).1
    (tensorOf false hostBlob) (tensorOf true shortDeviceBlob) rfl

/-! ## C12: access by callback -/

/-- C12: on every instruction carrying an access-by-callback operand with blob `b` and
callback `cb`, `Compute` returns normally, has invoked the callback exactly once, on the
accessor made of the stream's device context and exactly `b`, and leaves the blob and the
captured state exactly as that one call of `cb` left them. -/
theorem C12_callback_invoked_once (instruction : Instruction) (caller : CallerState)
    (b : Blob) (cb : Callback)
    (hop : instruction.phy_instr_operand = some (.AccessBlobArgCbPhyInstrOperand b cb)) :
    (AccessBlobByCallbackInstructionType.Compute instruction caller).1 = .Ok ∧
    (AccessBlobByCallbackInstructionType.Compute instruction caller).2.2.2 =
      [{ device_ctx := instruction.stream.device_ctx, blob := b }] ∧
    (AccessBlobByCallbackInstructionType.Compute instruction caller).2.1.accessed_blob =
      some (cb { device_ctx := instruction.stream.device_ctx, blob := b } caller).1 ∧
    (AccessBlobByCallbackInstructionType.Compute instruction caller).2.2.1 =
      (cb { device_ctx := instruction.stream.device_ctx, blob := b } caller).2 ∧
    (AccessBlobByCallbackInstructionType.Compute instruction caller).2.1 =
      instruction.with_operand (.AccessBlobArgCbPhyInstrOperand
        (cb { device_ctx := instruction.stream.device_ctx, blob := b } caller).1 cb) := by
  simp [AccessBlobByCallbackInstructionType.Compute, hop, Instruction.accessed_blob,
    Instruction.with_operand]

/-- Witness of C12: the callback that overwrites the first byte, on the host blob. -/
theorem C12_callback_invoked_once_witness :
    (AccessBlobByCallbackInstructionType.Compute (accessInstruction hostBlob pokeCallback)
      idleCaller).1 = .Ok ∧
    (AccessBlobByCallbackInstructionType.Compute (accessInstruction hostBlob pokeCallback)
      idleCaller).2.2.2 = [{ device_ctx := 5, blob := hostBlob }] ∧
    (AccessBlobByCallbackInstructionType.Compute (accessInstruction hostBlob pokeCallback)
      idleCaller).2.1.accessed_blob =
        some (pokeCallback { device_ctx := 5, blob := hostBlob } idleCaller).1 ∧
    (AccessBlobByCallbackInstructionType.Compute (accessInstruction hostBlob pokeCallback)
      idleCaller).2.2.1 = (pokeCallback { device_ctx := 5, blob := hostBlob } idleCaller).2 ∧
    (AccessBlobByCallbackInstructionType.Compute (accessInstruction hostBlob pokeCallback)
      idleCaller).2.1 =
      (accessInstruction hostBlob pokeCallback).with_operand
        (.AccessBlobArgCbPhyInstrOperand
          (pokeCallback { device_ctx := 5, blob := hostBlob } idleCaller).1 pokeCallback) :=
  C12_callback_invoked_once (accessInstruction hostBlob pokeCallback) idleCaller hostBlob
    pokeCallback rfl

/-! ## C13: lazy reference -/

/-- C13: when the name operand yields the logical name `lbn`, the parallel description
resolves the stream's machine and device to `parallel_id`, and the register manager
returns the blob address `blob` for that name and parallel id, `Run` returns `Ok` and the
output operand holds a `LazyRefBlobObject` of exactly that address (a reference, no
bytes). When reading the name operand fails with `e`, or the name is read and resolving
the parallel context fails with `e`, `Run` returns the error `e` and the output operand is
left unbound. -/
theorem C13_lazy_reference_binds (mgr : RegstMgr) (instruction : Instruction) :
    (∀ lbn parallel_id lbi blob, instruction.lbn_sym_id = .ok lbn →
      instruction.parallel_desc.GetParallelContext instruction.stream.machine_id
        instruction.stream.device_id = .ok parallel_id →
      mgr.GenLogicalBlobId lbn = some lbi →
      mgr.Blob4LbiAndParallelId lbi parallel_id = some blob →
      LazyReferenceInstructionType.Run mgr instruction =
        (.Ok, none, some { blob := blob })) ∧
    (∀ e, instruction.lbn_sym_id = .error e →
      LazyReferenceInstructionType.Run mgr instruction = (.Error, some e, none)) ∧
    (∀ lbn e, instruction.lbn_sym_id = .ok lbn →
      instruction.parallel_desc.GetParallelContext instruction.stream.machine_id
        instruction.stream.device_id = .error e →
      LazyReferenceInstructionType.Run mgr instruction = (.Error, some e, none)) := by
  refine ⟨?_, ?_, ?_⟩
  · intro lbn parallel_id lbi blob h1 h2 h3 h4
    simp [LazyReferenceInstructionType.Run, h1, h2, h3, h4]
  · intro e h1
    simp [LazyReferenceInstructionType.Run, h1]
  · intro lbn e h1 h2
    simp [LazyReferenceInstructionType.Run, h1, h2]

/-- Witness of C13: binding `conv1/out` on machine 0, device 1; a failed read of the
name operand; and a device outside the placement. -/
theorem C13_lazy_reference_binds_witness :
    LazyReferenceInstructionType.Run oneBlobRegstMgr (lazyInstruction (.ok "conv1/out") 1) =
      (.Ok, none, some { blob := 20480 }) ∧
    LazyReferenceInstructionType.Run oneBlobRegstMgr
        (lazyInstruction (.error "not a string object") 1) =
      (.Error, some "not a string object", none) ∧
    LazyReferenceInstructionType.Run oneBlobRegstMgr (lazyInstruction (.ok "conv1/out") 3) =
      (.Error, some "device not in placement", none) :=
  ⟨(C13_lazy_reference_binds oneBlobRegstMgr (lazyInstruction (.ok "conv1/out") 1)).1
      "conv1/out" 1 { op_name := "conv1", blob_name := "out" } 20480 rfl rfl rfl rfl,
    (C13_lazy_reference_binds oneBlobRegstMgr
      (lazyInstruction (.error "not a string object") 1)).2.1 "not a string object" rfl,
    (C13_lazy_reference_binds oneBlobRegstMgr (lazyInstruction (.ok "conv1/out") 3)).2.2
      "conv1/out" "device not in placement" rfl rfl⟩

/-! ## C14: roles declared by the host-binding copies -/

theorem MapAt_of_mem (stem : String) (seq : List (String × Int))
    (hnodup : (seq.map Prod.snd).Nodup) (t : String) (d : Int) (hmem : (t, d) ∈ seq) :
    MapAt (data_type2func_name stem seq) d = .ok (stem ++ t) := by
  induction seq with
  | nil => simp at hmem
  | cons hd tl ih =>
    simp only [List.map_cons, List.nodup_cons] at hnodup
    rcases List.mem_cons.1 hmem with h | h
    · subst h
      simp [MapAt, data_type2func_name]
    · have hne : hd.2 ≠ d := by
        intro heq
        exact hnodup.1 (List.mem_map.2 ⟨(t, d), h, heq.symm⟩)
      have := ih hnodup.2 h
      simp only [MapAt, data_type2func_name, List.map_cons, List.find?_cons] at this ⊢
      have hb : (hd.2 == d) = false := by simpa using hne
      simp only [hb]
      exact this

theorem MapAt_of_not_mem (stem : String) (seq : List (String × Int)) (d : Int)
    (hnot : d ∉ seq.map Prod.snd) :
    MapAt (data_type2func_name stem seq) d = .error "key not found" := by
  induction seq with
  | nil => simp [MapAt, data_type2func_name]
  | cons hd tl ih =>
    simp only [List.map_cons, List.mem_cons, not_or] at hnot
    have := ih hnot.2
    simp only [MapAt, data_type2func_name, List.map_cons, List.find?_cons] at this ⊢
    have hb : (hd.2 == d) = false := by simpa using fun h : hd.2 = d => hnot.1 h.symm
    simp only [hb]
    exact this

/-- C16: for every sequence of element types with pairwise distinct data type values,
and every pair (type name `t`, data type `d`) of it, the two lookups return
`_copy_to_numpy_t` and `_copy_from_numpy_t`, and both names are among the methods
exported on `LocalTensor`; for every data type that is in no pair of the sequence both
lookups fail with an error. -/
theorem C16_copy_method_names (POD_DATA_TYPE_SEQ : List (String × Int))
    (hnodup : (POD_DATA_TYPE_SEQ.map Prod.snd).Nodup) :
    (∀ t d, (t, d) ∈ POD_DATA_TYPE_SEQ →
      GetCopyMirroredTensorToNumpyFuncName POD_DATA_TYPE_SEQ d =
        .ok ("_copy_to_numpy_" ++ t) ∧
      GetCopyMirroredTensorFromNumpyFuncName POD_DATA_TYPE_SEQ d =
        .ok ("_copy_from_numpy_" ++ t) ∧
      "_copy_to_numpy_" ++ t ∈ ExportTensor_LocalTensor POD_DATA_TYPE_SEQ ∧
      "_copy_from_numpy_" ++ t ∈ ExportTensor_LocalTensor POD_DATA_TYPE_SEQ) ∧
    (∀ d, d ∉ POD_DATA_TYPE_SEQ.map Prod.snd →
      (∃ e, GetCopyMirroredTensorToNumpyFuncName POD_DATA_TYPE_SEQ d = .error e) ∧
      (∃ e, GetCopyMirroredTensorFromNumpyFuncName POD_DATA_TYPE_SEQ d = .error e)) := by
  constructor
  · intro t d hmem
    refine ⟨MapAt_of_mem _ _ hnodup t d hmem, MapAt_of_mem _ _ hnodup t d hmem, ?_, ?_⟩
    · simp only [ExportTensor_LocalTensor, SpecializedDef_MirroredTensor, List.mem_append,
        List.mem_flatten, List.mem_map]
      exact Or.inr (Or.inl ⟨_, ⟨(t, d), hmem, rfl⟩, by simp⟩)
    · simp only [ExportTensor_LocalTensor, SpecializedDef_MirroredTensor, List.mem_append,
        List.mem_flatten, List.mem_map]
      exact Or.inr (Or.inl ⟨_, ⟨(t, d), hmem, rfl⟩, by simp⟩)
  · intro d hnot
    exact ⟨⟨_, MapAt_of_not_mem _ _ d hnot⟩, ⟨_, MapAt_of_not_mem _ _ d hnot⟩⟩

/-- Witness of C16: the example sequence, in which `int32_t` has data type 5 and no type
has data type 9. -/
theorem C16_copy_method_names_witness :
    (GetCopyMirroredTensorToNumpyFuncName examplePodSeq 5 = .ok ("_copy_to_numpy_" ++ "int32_t") ∧
      GetCopyMirroredTensorFromNumpyFuncName examplePodSeq 5 =
        .ok ("_copy_from_numpy_" ++ "int32_t") ∧
      "_copy_to_numpy_" ++ "int32_t" ∈ ExportTensor_LocalTensor examplePodSeq ∧
      "_copy_from_numpy_" ++ "int32_t" ∈ ExportTensor_LocalTensor examplePodSeq) ∧
    ((∃ e, GetCopyMirroredTensorToNumpyFuncName examplePodSeq 9 = .error e) ∧
      (∃ e, GetCopyMirroredTensorFromNumpyFuncName examplePodSeq 9 = .error e)) :=
  ⟨(C16_copy_method_names examplePodSeq (by decide)).1 "int32_t" 5 (by decide),
    (C16_copy_method_names examplePodSeq (by decide)).2 9 (by decide)⟩

/-! ## C15: the caller returns only after the callback has run -/

theorem CopyBetweenMirroredTensorAndNumpy.inv_init (Copy : CopyFn) (device_ctx : Nat)
    (blob : Blob) (array : List Byte) :
    CopyBetweenMirroredTensorAndNumpy.Inv Copy device_ctx blob array
      (CopyBetweenMirroredTensorAndNumpy.init blob array) := by
  simp [CopyBetweenMirroredTensorAndNumpy.Inv, CopyBetweenMirroredTensorAndNumpy.init]

theorem CopyBetweenMirroredTensorAndNumpy.inv_step (Copy : CopyFn) (device_ctx : Nat)
    (blob : Blob) (array : List Byte) (t : Thread) (s : WaitState)
    (h : CopyBetweenMirroredTensorAndNumpy.Inv Copy device_ctx blob array s) :
    CopyBetweenMirroredTensorAndNumpy.Inv Copy device_ctx blob array
      (CopyBetweenMirroredTensorAndNumpy.step Copy device_ctx t s) := by
  obtain ⟨c, wk, sub, lk, sy, bl, ar⟩ := s
  simp only [CopyBetweenMirroredTensorAndNumpy.Inv] at h ⊢
  cases t <;> cases c <;> cases wk <;> cases sub <;> cases sy <;>
    simp_all [CopyBetweenMirroredTensorAndNumpy.step]

theorem CopyBetweenMirroredTensorAndNumpy.inv_run (Copy : CopyFn) (device_ctx : Nat)
    (blob : Blob) (array : List Byte) (schedule : List Thread) (s : WaitState)
    (h : CopyBetweenMirroredTensorAndNumpy.Inv Copy device_ctx blob array s) :
    CopyBetweenMirroredTensorAndNumpy.Inv Copy device_ctx blob array
      (CopyBetweenMirroredTensorAndNumpy.run Copy device_ctx schedule s) := by
  induction schedule generalizing s with
  | nil => exact h
  | cons t rest ih =>
    exact ih _ (CopyBetweenMirroredTensorAndNumpy.inv_step Copy device_ctx blob array t s h)

/-- The two steps of the worker are the callback that `Compute` invokes: from a state
in which the access is submitted and the worker has not started, they leave the blob, the
array and the flag as `copyCallback Copy` leaves them on the accessor of the worker's
device context and the blob. -/
theorem CopyBetweenMirroredTensorAndNumpy.worker_runs_callback (Copy : CopyFn)
    (device_ctx : Nat) (s : WaitState) (hsub : s.submitted = true) (hidle : s.worker = .idle) :
    ((CopyBetweenMirroredTensorAndNumpy.run Copy device_ctx [.worker, .worker] s).blob,
      ({ array := (CopyBetweenMirroredTensorAndNumpy.run Copy device_ctx
            [.worker, .worker] s).array,
         synced := (CopyBetweenMirroredTensorAndNumpy.run Copy device_ctx
            [.worker, .worker] s).synced } : CallerState)) =
      copyCallback Copy { device_ctx := device_ctx, blob := s.blob }
        { array := s.array, synced := s.synced } := by
  simp [CopyBetweenMirroredTensorAndNumpy.run, CopyBetweenMirroredTensorAndNumpy.step,
    hsub, hidle, copyCallback]

/-- C15: in every state the caller and the stream worker can reach, in whatever order
they move: if the caller has returned, the worker has finished the callback, the flag is
up, and the blob and array are those the one call of `Copy` left; the flag is up only
once the worker is past the copy (the flag is set after the copy); and while the caller is
in the spin loop it does not hold the foreign lock. The caller does return when the
worker gets to run: the schedule caller, caller, worker, worker, caller, caller ends
with the caller returned and the lock held again. -/
theorem C15_returns_after_callback (Copy : CopyFn) (device_ctx : Nat) (blob : Blob)
    (array : List Byte) (schedule : List Thread) :
    ((CopyBetweenMirroredTensorAndNumpy.run Copy device_ctx schedule
        (CopyBetweenMirroredTensorAndNumpy.init blob array)).caller = .returned →
      (CopyBetweenMirroredTensorAndNumpy.run Copy device_ctx schedule
        (CopyBetweenMirroredTensorAndNumpy.init blob array)).worker = .finished ∧
      (CopyBetweenMirroredTensorAndNumpy.run Copy device_ctx schedule
        (CopyBetweenMirroredTensorAndNumpy.init blob array)).synced = true ∧
      (CopyBetweenMirroredTensorAndNumpy.run Copy device_ctx schedule
        (CopyBetweenMirroredTensorAndNumpy.init blob array)).blob =
          (Copy { device_ctx := device_ctx, blob := blob } array).1 ∧
      (CopyBetweenMirroredTensorAndNumpy.run Copy device_ctx schedule
        (CopyBetweenMirroredTensorAndNumpy.init blob array)).array =
          (Copy { device_ctx := device_ctx, blob := blob } array).2) ∧
    ((CopyBetweenMirroredTensorAndNumpy.run Copy device_ctx schedule
        (CopyBetweenMirroredTensorAndNumpy.init blob array)).synced = true →
      (CopyBetweenMirroredTensorAndNumpy.run Copy device_ctx schedule
        (CopyBetweenMirroredTensorAndNumpy.init blob array)).worker = .finished) ∧
    ((CopyBetweenMirroredTensorAndNumpy.run Copy device_ctx schedule
        (CopyBetweenMirroredTensorAndNumpy.init blob array)).caller = .spinning →
      (CopyBetweenMirroredTensorAndNumpy.run Copy device_ctx schedule
        (CopyBetweenMirroredTensorAndNumpy.init blob array)).lockHeld = false) ∧
    ((CopyBetweenMirroredTensorAndNumpy.run Copy device_ctx
        [.caller, .caller, .worker, .worker, .caller, .caller]
        (CopyBetweenMirroredTensorAndNumpy.init blob array)).caller = .returned ∧
      (CopyBetweenMirroredTensorAndNumpy.run Copy device_ctx
        [.caller, .caller, .worker, .worker, .caller, .caller]
        (CopyBetweenMirroredTensorAndNumpy.init blob array)).lockHeld = true) := by
  have hinv := CopyBetweenMirroredTensorAndNumpy.inv_run Copy device_ctx blob array schedule
    _ (CopyBetweenMirroredTensorAndNumpy.inv_init Copy device_ctx blob array)
  obtain ⟨h1, h2, h3, -, h5⟩ := hinv
  refine ⟨?_, ?_, ?_, ?_⟩
  · intro hret
    have hs := h2 (Or.inr hret)
    have hw := h1.1 hs
    have hne : (CopyBetweenMirroredTensorAndNumpy.run Copy device_ctx schedule
        (CopyBetweenMirroredTensorAndNumpy.init blob array)).worker ≠ .idle := by
      rw [hw]; decide
    exact ⟨hw, hs, (h5 hne).1, (h5 hne).2⟩
  · exact h1.1
  · intro hspin
    exact h3.2 (Or.inl hspin)
  · simp [CopyBetweenMirroredTensorAndNumpy.run, CopyBetweenMirroredTensorAndNumpy.step,
      CopyBetweenMirroredTensorAndNumpy.init]

/-- Witness of C15: reading the host blob into an empty array, with the schedule on
which the caller spins twice before the worker runs. -/
theorem C15_returns_after_callback_witness :
    (CopyBetweenMirroredTensorAndNumpy.run OfBlob_CopyToBuffer 5
        [.caller, .caller, .caller, .caller, .worker, .worker, .caller, .caller]
        (CopyBetweenMirroredTensorAndNumpy.init hostBlob [])).caller = .returned ∧
    ((CopyBetweenMirroredTensorAndNumpy.run OfBlob_CopyToBuffer 5
        [.caller, .caller, .caller, .caller, .worker, .worker, .caller, .caller]
        (CopyBetweenMirroredTensorAndNumpy.init hostBlob [])).worker = .finished ∧
      (CopyBetweenMirroredTensorAndNumpy.run OfBlob_CopyToBuffer 5
        [.caller, .caller, .caller, .caller, .worker, .worker, .caller, .caller]
        (CopyBetweenMirroredTensorAndNumpy.init hostBlob [])).synced = true ∧
      (CopyBetweenMirroredTensorAndNumpy.run OfBlob_CopyToBuffer 5
        [.caller, .caller, .caller, .caller, .worker, .worker, .caller, .caller]
        (CopyBetweenMirroredTensorAndNumpy.init hostBlob [])).blob =
          (OfBlob_CopyToBuffer { device_ctx := 5, blob := hostBlob } []).1 ∧
      (CopyBetweenMirroredTensorAndNumpy.run OfBlob_CopyToBuffer 5
        [.caller, .caller, .caller, .caller, .worker, .worker, .caller, .caller]
        (CopyBetweenMirroredTensorAndNumpy.init hostBlob [])).array =
          (OfBlob_CopyToBuffer { device_ctx := 5, blob := hostBlob } []).2) :=
  ⟨by decide,
    (C15_returns_after_callback OfBlob_CopyToBuffer 5 hostBlob []
      [.caller, .caller, .caller, .caller, .worker, .worker, .caller, .caller]).1
      (by decide)⟩

/-! ## C17: `GroupRequests` returns a partition -/

theorem RequestDesc.compatible_iff (a b : RequestDesc) :
    a.compatible b = true ↔
      a.op_kind = b.op_kind ∧ a.participants = b.participants ∧ a.shape = b.shape := by
  simp [RequestDesc.compatible, and_assoc]

theorem Executor.GroupRequests_flatten (ex : Executor) (request_ids : List Int) :
    (ex.GroupRequests request_ids).flatten = request_ids := by
  induction request_ids with
  | nil => simp [Executor.GroupRequests]
  | cons id rest ih =>
    simp only [Executor.GroupRequests]
    rcases hg : ex.GroupRequests rest with _ | ⟨g, groups⟩
    · rw [hg] at ih
      simp at ih
      simp [ih]
    · rw [hg] at ih
      cases g with
      | nil => simpa using ih
      | cons next group =>
        by_cases hc : (ex.plan id).compatible (ex.plan next) = true
        · simp only [hc, if_true]
          simpa using ih
        · simp only [hc]
          simpa using ih

theorem Executor.GroupRequests_compatible (ex : Executor) (request_ids : List Int) :
    ∀ g ∈ ex.GroupRequests request_ids, ∀ a ∈ g, ∀ b ∈ g,
      (ex.plan a).compatible (ex.plan b) = true := by
  induction request_ids with
  | nil => simp [Executor.GroupRequests]
  | cons id rest ih =>
    have hself : ∀ a : Int, (ex.plan a).compatible (ex.plan a) = true := by
      intro a
      simp [RequestDesc.compatible]
    simp only [Executor.GroupRequests]
    rcases hg : ex.GroupRequests rest with _ | ⟨g, groups⟩
    · intro g hgm a ha b hb
      simp only [List.mem_singleton] at hgm
      subst hgm
      simp only [List.mem_singleton] at ha hb
      subst ha hb
      exact hself _
    · rw [hg] at ih
      cases g with
      | nil =>
        intro g hgm a ha b hb
        rcases List.mem_cons.1 hgm with h | h
        · subst h
          simp only [List.mem_singleton] at ha hb
          subst ha hb
          exact hself _
        · exact ih g (List.mem_cons_of_mem _ h) a ha b hb
      | cons next group =>
        by_cases hc : (ex.plan id).compatible (ex.plan next) = true
        · simp only [hc, if_true]
          intro g hgm a ha b hb
          rcases List.mem_cons.1 hgm with h | h
          · subst h
            have hnext : ∀ x ∈ next :: group,
                (ex.plan id).compatible (ex.plan x) = true := by
              intro x hx
              have h1 := ih (next :: group) (List.mem_cons_self _ _) next
                (List.mem_cons_self _ _) x hx
              rw [RequestDesc.compatible_iff] at hc h1 ⊢
              exact ⟨hc.1.trans h1.1, hc.2.1.trans h1.2.1, hc.2.2.trans h1.2.2⟩
            rcases List.mem_cons.1 ha with ha1 | ha1 <;>
              rcases List.mem_cons.1 hb with hb1 | hb1
            · subst ha1 hb1
              exact hself _
            · subst ha1
              exact hnext b hb1
            · subst hb1
              have := hnext a ha1
              rw [RequestDesc.compatible_iff] at this ⊢
              exact ⟨this.1.symm, this.2.1.symm, this.2.2.symm⟩
            · exact ih (next :: group) (List.mem_cons_self _ _) a ha1 b hb1
          · exact ih g (List.mem_cons_of_mem _ h) a ha b hb
        · simp only [hc]
          intro g hgm a ha b hb
          rcases List.mem_cons.1 hgm with h | h
          · subst h
            simp only [List.mem_singleton] at ha hb
            subst ha hb
            exact hself _
          · exact ih g h a ha b hb

/-- C17: for every batch of request identifiers, the groups `GroupRequests` returns,
laid end to end, are exactly the batch: every given identifier appears, as often as it
was given, and no other identifier appears; when the identifiers of the batch are
distinct, each lies in exactly one group; and any two requests of one group are
compatible, that is, can be issued as a single combined operation. -/
theorem C17_group_requests_partition (ex : Executor) (request_ids : List Int) :
    (ex.GroupRequests request_ids).flatten = request_ids ∧
    (∀ id, id ∈ request_ids ↔ ∃ g ∈ ex.GroupRequests request_ids, id ∈ g) ∧
    (request_ids.Nodup → ∀ id ∈ request_ids,
      ∃! g, g ∈ ex.GroupRequests request_ids ∧ id ∈ g) ∧
    (∀ g ∈ ex.GroupRequests request_ids, ∀ a ∈ g, ∀ b ∈ g,
      (ex.plan a).compatible (ex.plan b) = true) := by
  have hflat := Executor.GroupRequests_flatten ex request_ids
  have hmem : ∀ id, id ∈ request_ids ↔ ∃ g ∈ ex.GroupRequests request_ids, id ∈ g := by
    intro id
    conv_lhs => rw [← hflat]
    simp [List.mem_flatten]
  refine ⟨hflat, hmem, ?_, Executor.GroupRequests_compatible ex request_ids⟩
  intro hnodup id hid
  obtain ⟨g, hg, hidg⟩ := (hmem id).1 hid
  refine ⟨g, ⟨hg, hidg⟩, ?_⟩
  rintro g2 ⟨hg2, hidg2⟩
  by_contra hne
  rw [← hflat, List.nodup_flatten] at hnodup
  have hdis := hnodup.2.forall (fun _ _ h => h.symm) hg2 hg hne
  exact hdis hidg2 hidg

/-- Witness of C17: the batch 0, 1, 100, 2 under the plan in which request 100 is of
another kind: each identifier lies in exactly one group. -/
theorem C17_group_requests_partition_witness :
    ∀ id ∈ [0, 1, 100, 2],
      ∃! g, g ∈ (Executor.Init mixedPlan eightPendingStore).GroupRequests [0, 1, 100, 2] ∧
        id ∈ g :=
  (C17_group_requests_partition (Executor.Init mixedPlan eightPendingStore)
    [0, 1, 100, 2]).2.2.1 (by decide)

/-! ## C18: eight compatible requests form one group -/

theorem Executor.GroupRequests_all_compatible (ex : Executor) (request_ids : List Int)
    (hne : request_ids ≠ [])
    (hsame : ∀ a ∈ request_ids, ∀ b ∈ request_ids,
      (ex.plan a).compatible (ex.plan b) = true) :
    ex.GroupRequests request_ids = [request_ids] := by
  induction request_ids with
  | nil => exact absurd rfl hne
  | cons id rest ih =>
    cases rest with
    | nil => simp [Executor.GroupRequests]
    | cons next tail =>
      have hrest := ih (by simp) (fun a ha b hb =>
        hsame a (List.mem_cons_of_mem _ ha) b (List.mem_cons_of_mem _ hb))
      have hc := hsame id (List.mem_cons_self _ _) next
        (List.mem_cons_of_mem _ (List.mem_cons_self _ _))
      rw [Executor.GroupRequests, hrest]
      simp [hc]

/-- C18: when the requests of a non-empty batch are pairwise compatible (same operation
kind, same participant set, same data shape), `GroupRequests` returns exactly one group,
the whole batch, and after `ExecuteRequests` on the batch the completion callback of
every request of the batch has been invoked and none of them is pending any more. With a
batch of 8 requests from 4 participants this is the scenario of the spec. -/
theorem C18_one_group_all_complete (ex : Executor) (request_ids : List Int)
    (hne : request_ids ≠ [])
    (hsame : ∀ a ∈ request_ids, ∀ b ∈ request_ids,
      (ex.plan a).compatible (ex.plan b) = true) :
    ex.GroupRequests request_ids = [request_ids] ∧
    (∀ id ∈ request_ids,
      id ∈ (ex.ExecuteRequests request_ids).request_store.completed ∧
      id ∉ (ex.ExecuteRequests request_ids).request_store.pending) ∧
    (∀ id ∈ ex.request_store.pending, id ∉ request_ids →
      id ∈ (ex.ExecuteRequests request_ids).request_store.pending) := by
  refine ⟨Executor.GroupRequests_all_compatible ex request_ids hne hsame, ?_, ?_⟩
  · intro id hid
    simp [Executor.ExecuteRequests, hid]
  · intro id hid hnot
    simp [Executor.ExecuteRequests, hid, hnot]

/-- Witness of C18: the store holds the 8 pending requests 0 to 7, issued by the 4
participants 0 to 3, all of one operation kind and data shape. -/
theorem C18_one_group_all_complete_witness :
    eightPendingStore.pending.length = 8 ∧
    (eightPendingStore.pending.map (fun id => (uniformPlan id).rank)).dedup.length = 4 ∧
    (Executor.Init uniformPlan eightPendingStore).GroupRequests eightPendingStore.pending =
      [eightPendingStore.pending] ∧
    (∀ id ∈ eightPendingStore.pending,
      id ∈ ((Executor.Init uniformPlan eightPendingStore).ExecuteRequests
        eightPendingStore.pending).request_store.completed ∧
      id ∉ ((Executor.Init uniformPlan eightPendingStore).ExecuteRequests
        eightPendingStore.pending).request_store.pending) :=
  ⟨by decide, by decide,
    (C18_one_group_all_complete (Executor.Init uniformPlan eightPendingStore)
      eightPendingStore.pending (by decide) (by decide)).1,
    (C18_one_group_all_complete (Executor.Init uniformPlan eightPendingStore)
      eightPendingStore.pending (by decide) (by decide)).2.1⟩

/-! ## C19: attributes there and back -/

theorem Importer.convertArrayElement_int64_stuck (key : String) (vs : List Int)
    (user_attr : AttrValue) :
    (vs.map (ElementAttr.IntegerAttr .i64)).foldl
        (Importer.convertArrayElement key .NoneType)
        (user_attr, "fail to convert op attr to int list, key: " ++ key) =
      (user_attr, "fail to convert op attr to int list, key: " ++ key) := by
  induction vs with
  | nil => rfl
  | cons v vs ih => simpa [Importer.convertArrayElement] using ih

theorem Importer.convertArrayElement_string_stuck (key : String) (vs : List String)
    (user_attr : AttrValue) :
    (vs.map ElementAttr.StringAttr).foldl (Importer.convertArrayElement key .NoneType)
        (user_attr, "fail to convert op attr to list, key: " ++ key) =
      (user_attr, "fail to convert op attr to list, key: " ++ key) := by
  induction vs with
  | nil => rfl
  | cons v vs ih => simpa [Importer.convertArrayElement] using ih

theorem AttrValue.foldl_add_dim (vs dim : List Int) :
    vs.foldl AttrValue.add_dim (.at_shape dim) = .at_shape (dim ++ vs) := by
  induction vs generalizing dim with
  | nil => simp
  | cons v vs ih => simp [AttrValue.add_dim, ih]

theorem Importer.convertArrayElement_int32 (key err : String) (vs val : List Int) :
    (vs.map (ElementAttr.IntegerAttr .i32)).foldl
        (Importer.convertArrayElement key .NoneType) (.at_list_int32 val, err) =
      (.at_list_int32 (val ++ vs), err) := by
  induction vs generalizing val with
  | nil => simp
  | cons v vs ih => simp [Importer.convertArrayElement, AttrValue.add_list_int32, ih]

theorem Importer.convertArrayElement_float (key err : String) (vs val : List Nat) :
    (vs.map (ElementAttr.FloatAttr .f32)).foldl
        (Importer.convertArrayElement key .NoneType) (.at_list_float val, err) =
      (.at_list_float (val ++ vs), err) := by
  induction vs generalizing val with
  | nil => simp
  | cons v vs ih => simp [Importer.convertArrayElement, AttrValue.add_list_float, ih]

/-- The kinds of attribute value that do come back unchanged and without an error:
32-bit and 64-bit integers, booleans, floats and doubles, strings that do not start with
`dt::`, shapes and lists of 32-bit integers and of floats that are not empty, and the
eleven named data types. -/
theorem Importer.roundTripAttr_faithful (name : String) :
    (∀ v, Importer.roundTripAttr name (.at_int32 v) = some (.at_int32 v, "")) ∧
    (∀ v, Importer.roundTripAttr name (.at_int64 v) = some (.at_int64 v, "")) ∧
    (∀ v, Importer.roundTripAttr name (.at_bool v) = some (.at_bool v, "")) ∧
    (∀ bits, Importer.roundTripAttr name (.at_float bits) = some (.at_float bits, "")) ∧
    (∀ bits, Importer.roundTripAttr name (.at_double bits) = some (.at_double bits, "")) ∧
    (∀ v, startswith v "dt::" = false →
      Importer.roundTripAttr name (.at_string v) = some (.at_string v, "")) ∧
    (∀ d dim, Importer.roundTripAttr name (.at_shape (d :: dim)) =
      some (.at_shape (d :: dim), "")) ∧
    (∀ v val, Importer.roundTripAttr name (.at_list_int32 (v :: val)) =
      some (.at_list_int32 (v :: val), "")) ∧
    (∀ v val, Importer.roundTripAttr name (.at_list_float (v :: val)) =
      some (.at_list_float (v :: val), "")) ∧
    (∀ dt : IrDataType, Importer.roundTripAttr name (.at_data_type (DataType.ofIr dt)) =
      some (.at_data_type (DataType.ofIr dt), "")) := by
  refine ⟨?_, ?_, ?_, ?_, ?_, ?_, ?_, ?_, ?_, ?_⟩
  · intro v
    simp [Importer.roundTripAttr, Importer.attributeFromAttrValue,
      Importer.attrValueFromAttribute]
  · intro v
    simp [Importer.roundTripAttr, Importer.attributeFromAttrValue,
      Importer.attrValueFromAttribute]
  · intro v
    cases v <;>
      simp [Importer.roundTripAttr, Importer.attributeFromAttrValue,
        Importer.attrValueFromAttribute, getBoolAttr]
  · intro bits
    simp [Importer.roundTripAttr, Importer.attributeFromAttrValue,
      Importer.attrValueFromAttribute]
  · intro bits
    simp [Importer.roundTripAttr, Importer.attributeFromAttrValue,
      Importer.attrValueFromAttribute]
  · intro v hv
    simp [Importer.roundTripAttr, Importer.attributeFromAttrValue,
      Importer.attrValueFromAttribute, hv]
  · intro d dim
    simp [Importer.roundTripAttr, Importer.attributeFromAttrValue,
      Importer.attrValueFromAttribute, AttrValue.add_dim, AttrValue.foldl_add_dim]
  · intro v val
    simp only [Importer.roundTripAttr, Importer.attributeFromAttrValue,
      Importer.attrValueFromAttribute, getI32ArrayAttr, Attribute.getType, List.map_cons,
      List.foldl_cons]
    simp [Importer.convertArrayElement, AttrValue.add_list_int32,
      Importer.convertArrayElement_int32]
  · intro v val
    simp only [Importer.roundTripAttr, Importer.attributeFromAttrValue,
      Importer.attrValueFromAttribute, getF32ArrayAttr, Attribute.getType, List.map_cons,
      List.foldl_cons]
    simp [Importer.convertArrayElement, AttrValue.add_list_float,
      Importer.convertArrayElement_float]
  · intro dt
    cases dt <;> rfl

/-- C19 fails on the code. A list of 64-bit integers that is not empty is accepted by
the import and converting it back ends in the error "fail to convert op attr to int
list" with no value set: line 435 compares the type of the array attribute, not of the
element, with the 64-bit integer type. A list of strings that is not empty ends in the
error "fail to convert op attr to list": the conversion back has no branch for string
elements. The string `dt::Float` comes back as the data type `kFloat`, and an empty shape
comes back as a value with no case set. -/
theorem C19_round_trip_fails_on_int64_lists (name : String) :
    (∀ v val, Importer.roundTripAttr name (.at_list_int64 (v :: val)) =
      some (.VALUE_NOT_SET, "fail to convert op attr to int list, key: " ++ name)) ∧
    (∀ v val, Importer.roundTripAttr name (.at_list_string (v :: val)) =
      some (.VALUE_NOT_SET, "fail to convert op attr to list, key: " ++ name)) ∧
    Importer.roundTripAttr name (.at_string "dt::Float") =
      some (.at_data_type .kFloat, "") ∧
    Importer.roundTripAttr name (.at_shape []) = some (.VALUE_NOT_SET, "") := by
  refine ⟨?_, ?_, ?_, ?_⟩
  · intro v val
    simp only [Importer.roundTripAttr, Importer.attributeFromAttrValue,
      Importer.attrValueFromAttribute, getI64ArrayAttr, Attribute.getType, List.map_cons,
      List.foldl_cons]
    have h : Importer.convertArrayElement name .NoneType (.VALUE_NOT_SET, "")
        (.IntegerAttr .i64 v) =
        (.VALUE_NOT_SET, "fail to convert op attr to int list, key: " ++ name) := by
      simp [Importer.convertArrayElement]
    rw [h, Importer.convertArrayElement_int64_stuck]
  · intro v val
    simp only [Importer.roundTripAttr, Importer.attributeFromAttrValue,
      Importer.attrValueFromAttribute, getStrArrayAttr, Attribute.getType, List.map_cons,
      List.foldl_cons]
    have h : Importer.convertArrayElement name .NoneType (.VALUE_NOT_SET, "")
        (.StringAttr v) =
        (.VALUE_NOT_SET, "fail to convert op attr to list, key: " ++ name) := by
      simp [Importer.convertArrayElement]
    rw [h, Importer.convertArrayElement_string_stuck]
  · simp only [Importer.roundTripAttr, Importer.attributeFromAttrValue,
      Importer.attrValueFromAttribute]
    decide
  · simp [Importer.roundTripAttr, Importer.attributeFromAttrValue,
      Importer.attrValueFromAttribute]

/-! ## C20: trace output and the debug toggle -/

theorem Importer.convertOps_keeps_first (block : List Operation)
    (st : LogicalResult × List Output × String) (o : Output) (h : o ∈ st.2.1) :
    o ∈ (block.foldl (fun st op => Importer.convertOps op st) st).2.1 := by
  induction block generalizing st with
  | nil => exact h
  | cons op rest ih =>
    apply ih
    simp only [Importer.convertOps]
    split
    · split
      · split <;> simp [h]
      · exact h
    · exact h

/-- Whenever the import of the job succeeds, "try updating job" is written on standard
output, whatever the environment. -/
theorem RoundTripOneFlowJob_always_prints (job_wrapper : RoundTripOneFlowJobWrapperInterface)
    (driver : List Operation → Bool × List Operation) (getenv : String → Option String)
    (hok : (Importer.create job_wrapper).processJob.1 = .success) :
    "try updating job\n" ∈ stdoutOf (RoundTripOneFlowJob job_wrapper driver getenv) := by
  have hmem : ∀ block, Output.cout "try updating job\n" ∈
      (Importer.tryToUpdateJob block).2 := by
    intro block
    have h := Importer.convertOps_keeps_first block
      (.success, [Output.cout "try updating job\n"], "") (.cout "try updating job\n")
      (by simp)
    simp only [Importer.tryToUpdateJob]
    rcases hf : block.foldl (fun st op => Importer.convertOps op st)
      (.success, [Output.cout "try updating job\n"], "") with ⟨r, out, err⟩
    rw [hf] at h
    simp only at h
    cases r <;> simp only
    · split
      · exact h
      · exact List.mem_append_left _ h
    · exact h
    · exact h
  have hcout : ∀ out : List Output, Output.cout "try updating job\n" ∈ out →
      "try updating job\n" ∈ stdoutOf out := by
    intro out h
    simp only [stdoutOf, List.mem_filterMap]
    exact ⟨_, h, rfl⟩
  simp only [RoundTripOneFlowJob]
  rcases hp : (Importer.create job_wrapper).processJob with ⟨r, imp1⟩
  rw [hp] at hok
  simp only at hok
  subst hok
  simp only
  apply hcout
  split
  · rename_i heq
    have := hmem (applyRoundTripPatterns driver imp1.block
      (getenv "ONEFLOW_DEBUG_MODE").isSome).1
    rw [heq] at this
    simp only [List.mem_append]
    exact Or.inl (Or.inr this)
  · rename_i heq
    have := hmem (applyRoundTripPatterns driver imp1.block
      (getenv "ONEFLOW_DEBUG_MODE").isSome).1
    rw [heq] at this
    simp only [List.mem_append]
    exact Or.inr this

/-- C20 fails on the code. With `ONEFLOW_DEBUG_MODE` not set, the round trip of a job
with no operator, which imports and exports successfully, writes "try updating job" on
standard output; the round trip of a job with one `relu` op writes that text and dumps
the op. With the variable set, the same text follows the three gated progress texts. -/
theorem C20_trace_without_the_toggle :
    noEnv "ONEFLOW_DEBUG_MODE" = none ∧
    RoundTripOneFlowJob (wrapperOf emptyJob) identityDriver noEnv =
      [.cout "try updating job\n"] ∧
    RoundTripOneFlowJob (wrapperOf reluJob) identityDriver noEnv =
      [.cout "try updating job\n", .dump "oneflow.relu"] ∧
    stdoutOf (RoundTripOneFlowJob (wrapperOf emptyJob) identityDriver debugEnv) =
      ["import:\n", "optimized:\n", "to export:\n", "try updating job\n"] := by
  decide

/-! ## C21: the pin instruction and the transfer register under opposite conditions -/

theorem madeCalls_self (w : World) : madeCalls w w = [] := by
  simp [madeCalls]

/-- C22: executing the pin or the unpin instruction on a buffer whose memory case is not
host memory, or on a host buffer not marked pinned whose data pointer is null, is a fatal
error that leaves the runtime state and the call log as they were: no call is made. -/
theorem C22_pin_unpin_reject_non_host_and_null (rt : DeviceRuntime) (w : World)
    (instruction : Instruction) (blob : Blob)
    (hblob : instruction.blob = some blob)
    (hbad : blob.mem_case.has_host_mem = false ∨
      (blob.mem_case.has_host_mem = true ∧ blob.mem_case.has_cuda_pinned_mem = false ∧
        blob.dptr = 0)) :
    CudaHostRegisterBlobInstructionType.Compute rt w instruction = (.Fatal, w) ∧
    CudaHostUnregisterBlobInstructionType.Compute rt w instruction = (.Fatal, w) ∧
    madeCalls w (CudaHostRegisterBlobInstructionType.Compute rt w instruction).2 = [] ∧
    madeCalls w (CudaHostUnregisterBlobInstructionType.Compute rt w instruction).2 = [] := by
  have h1 : CudaHostRegisterBlobInstructionType.Compute rt w instruction = (.Fatal, w) := by
    rcases hbad with h | ⟨h, hm, hp⟩
    · simp [CudaHostRegisterBlobInstructionType.Compute, hblob, h]
    · simp [CudaHostRegisterBlobInstructionType.Compute, hblob, h, hm, hp]
  have h2 : CudaHostUnregisterBlobInstructionType.Compute rt w instruction = (.Fatal, w) := by
    rcases hbad with h | ⟨h, hm, hp⟩
    · simp [CudaHostUnregisterBlobInstructionType.Compute, hblob, h]
    · simp [CudaHostUnregisterBlobInstructionType.Compute, hblob, h, hm, hp]
  refine ⟨h1, h2, ?_, ?_⟩
  · rw [h1]
    exact madeCalls_self w
  · rw [h2]
    exact madeCalls_self w

/-- The statement of C22 at the reference runtime, for a blob in accelerator memory. -/
theorem C22_pin_unpin_reject_non_host_and_null_witness :
    CudaHostRegisterBlobInstructionType.Compute referenceRuntime emptyWorld
        (pinInstruction deviceBlob) = (.Fatal, emptyWorld) ∧
    CudaHostUnregisterBlobInstructionType.Compute referenceRuntime emptyWorld
        (pinInstruction deviceBlob) = (.Fatal, emptyWorld) :=
  have h := C22_pin_unpin_reject_non_host_and_null referenceRuntime emptyWorld
    (pinInstruction deviceBlob) deviceBlob rfl (Or.inl rfl)
  ⟨h.1, h.2.1⟩

/-! ## C23: which result an output name is bound to -/

/-- C23, evaluated: a system op with the two outputs `sys/a` and `sys/b` is created with
two results, and both names are bound to result 0; a later op that consumes `sys/b`
receives result 0. A user op with the two output keys `out` and `mask`, of one name each,
is created with two results, and both names are bound to result 0. Within one output
key the numbering is as claimed: the second name of the only key of `split2` is bound to
result 1. -/
theorem C23_distinct_names_bound_to_result_zero :
    ((Importer.create (twoOutputWrapper emptyJob)).processSystemOp systemOp).1 = .success ∧
    (((Importer.create (twoOutputWrapper emptyJob)).processSystemOp systemOp).2.block.map
      fun o => o.results.length) = [2] ∧
    ((Importer.create (twoOutputWrapper emptyJob)).processSystemOp systemOp).2.find "sys/a"
      = some { owner := 0, index := 0 } ∧
    ((Importer.create (twoOutputWrapper emptyJob)).processSystemOp systemOp).2.find "sys/b"
      = some { owner := 0, index := 0 } ∧
    ((Importer.create (twoOutputWrapper consumerJob)).processJob.2.block.map
      fun o => (o.name, o.operands)) =
        [("oneflow.system", []), ("oneflow.relu", [{ owner := 0, index := 0 }]),
          ("std.return", [])] ∧
    ((Importer.create (wrapperOf emptyJob)).processUserOp twoKeyUserOp).1 = .success ∧
    (((Importer.create (wrapperOf emptyJob)).processUserOp twoKeyUserOp).2.block.map
      fun o => o.results.length) = [2] ∧
    ((Importer.create (wrapperOf emptyJob)).processUserOp twoKeyUserOp).2.find "split1/out_0"
      = some { owner := 0, index := 0 } ∧
    ((Importer.create (wrapperOf emptyJob)).processUserOp twoKeyUserOp).2.find "split1/mask_0"
      = some { owner := 0, index := 0 } ∧
    ((Importer.create (wrapperOf emptyJob)).processUserOp oneKeyUserOp).2.find "split2/out_0"
      = some { owner := 0, index := 0 } ∧
    ((Importer.create (wrapperOf emptyJob)).processUserOp oneKeyUserOp).2.find "split2/out_1"
      = some { owner := 0, index := 1 } := by
  decide

/-! ## C24: the checks of the forward shape inference -/

theorem any_not_pos (l : List Int) :
    l.any (fun k => decide (¬ k > 0)) = true ↔ ¬ ∀ k ∈ l, 0 < k := by
  simp [List.any_eq_true]

/-- C24: for every `dim` (1, 2 and 3 among them), the forward shape inference returns an
error and leaves the context, the descriptor of `y` in it, as it was whenever one of
`kernel_size`, `strides`, `dilation_rate` does not have exactly `dim` entries or has an
entry that is not strictly positive. When all three have `dim` strictly positive entries
no check fails: the function goes on to `ParamsUnfold3D` and, when that returns a shape,
returns `Ok` with `y` set to the descriptor of `x` carrying that shape. -/
theorem C24_unfold_infer_checks
    (GetYShape : Int → List Int → UnfoldAttrs → Option (List Int)) (dim : Int)
    (ctx : InferContext) :
    (¬ (((ctx.attrs.kernel_size.length : Int) = dim ∧ ∀ k ∈ ctx.attrs.kernel_size, 0 < k) ∧
        ((ctx.attrs.strides.length : Int) = dim ∧ ∀ k ∈ ctx.attrs.strides, 0 < k) ∧
        ((ctx.attrs.dilation_rate.length : Int) = dim ∧
          ∀ k ∈ ctx.attrs.dilation_rate, 0 < k)) →
      MakeFwTensorDescInferFn GetYShape dim ctx = (.Error, ctx)) ∧
    ((((ctx.attrs.kernel_size.length : Int) = dim ∧ ∀ k ∈ ctx.attrs.kernel_size, 0 < k) ∧
        ((ctx.attrs.strides.length : Int) = dim ∧ ∀ k ∈ ctx.attrs.strides, 0 < k) ∧
        ((ctx.attrs.dilation_rate.length : Int) = dim ∧
          ∀ k ∈ ctx.attrs.dilation_rate, 0 < k)) →
      (MakeFwTensorDescInferFn GetYShape dim ctx).1 ≠ .Error ∧
      (∀ y_shape, GetYShape dim ctx.x.shape ctx.attrs = some y_shape →
        MakeFwTensorDescInferFn GetYShape dim ctx =
          (.Ok, { ctx with y := { ctx.x with shape := y_shape } })) ∧
      (GetYShape dim ctx.x.shape ctx.attrs = none →
        MakeFwTensorDescInferFn GetYShape dim ctx = (.Fatal, ctx))) := by
  have a1 := any_not_pos ctx.attrs.kernel_size
  have a2 := any_not_pos ctx.attrs.strides
  have a3 := any_not_pos ctx.attrs.dilation_rate
  constructor
  · intro hbad
    unfold MakeFwTensorDescInferFn
    by_cases h1 : (ctx.attrs.kernel_size.length : Int) = dim
    swap
    · rw [if_pos h1]
    rw [if_neg (fun h => h h1)]
    by_cases h2 : ∀ k ∈ ctx.attrs.kernel_size, 0 < k
    swap
    · rw [if_pos (a1.2 h2)]
    rw [if_neg (fun h => a1.1 h h2)]
    by_cases h3 : (ctx.attrs.strides.length : Int) = dim
    swap
    · rw [if_pos h3]
    rw [if_neg (fun h => h h3)]
    by_cases h4 : ∀ k ∈ ctx.attrs.strides, 0 < k
    swap
    · rw [if_pos (a2.2 h4)]
    rw [if_neg (fun h => a2.1 h h4)]
    by_cases h5 : (ctx.attrs.dilation_rate.length : Int) = dim
    swap
    · rw [if_pos h5]
    rw [if_neg (fun h => h h5)]
    by_cases h6 : ∀ k ∈ ctx.attrs.dilation_rate, 0 < k
    swap
    · rw [if_pos (a3.2 h6)]
    exact absurd ⟨⟨h1, h2⟩, ⟨h3, h4⟩, ⟨h5, h6⟩⟩ hbad
  · rintro ⟨⟨h1, h2⟩, ⟨h3, h4⟩, ⟨h5, h6⟩⟩
    have hrun : MakeFwTensorDescInferFn GetYShape dim ctx =
        match GetYShape dim ctx.x.shape ctx.attrs with
        | none => (.Fatal, ctx)
        | some y_shape => (.Ok, { ctx with y := { ctx.x with shape := y_shape } }) := by
      unfold MakeFwTensorDescInferFn
      rw [if_neg (fun h => h h1), if_neg (fun h => a1.1 h h2), if_neg (fun h => h h3),
        if_neg (fun h => a2.1 h h4), if_neg (fun h => h h5), if_neg (fun h => a3.1 h h6)]
    refine ⟨?_, ?_, ?_⟩
    · rw [hrun]
      cases GetYShape dim ctx.x.shape ctx.attrs <;> simp
    · intro y_shape hy
      rw [hrun, hy]
    · intro hy
      rw [hrun, hy]

/-- The statement of C24 for the two-dimensional unfold: a stride of 0 is an error that
leaves the context as it was, and the attributes of a 3 by 3 kernel pass every check. -/
theorem C24_unfold_infer_checks_witness :
    MakeFwTensorDescInferFn sameShape 2 (unfoldContext zeroStrideAttrs) =
      (.Error, unfoldContext zeroStrideAttrs) ∧
    MakeFwTensorDescInferFn sameShape 2 (unfoldContext unfold2dAttrs) =
      (.Ok, { unfoldContext unfold2dAttrs with
        y := { (unfoldContext unfold2dAttrs).x with shape := [1, 4, 8, 8] } }) :=
  ⟨(C24_unfold_infer_checks sameShape 2 (unfoldContext zeroStrideAttrs)).1 (by decide),
    ((C24_unfold_infer_checks sameShape 2 (unfoldContext unfold2dAttrs)).2 (by decide)).2.1
      [1, 4, 8, 8] rfl⟩

/-! ## C25: the gradient op of unfold -/

/-- C25: the gradient generator adds no op and binds nothing when `x` needs no gradient.
When `x` needs a gradient it adds exactly one op: named after the forward op with `_grad`
appended, of type `unfold_<dim>d_grad` (a registered op type for `dim` 1, 2 and 3), with
the inputs `x`, `y` and `dy` taken from the forward op's input `x`, output `y` and the
gradient of `y`, with the one output `dx`, and with the eight forward attributes under
their names and with their values; and it binds output `dx` of that op as the gradient
of input `x`. -/
theorem C25_unfold_gradient_op (dim : Int) (op : UserOpWrapper)
    (hdim : dim = 1 ∨ dim = 2 ∨ dim = 3) :
    (op.NeedGenGradTensor4OpInput "x" 0 = false →
      MakeGenBackwardOpConfFn dim op = { added := [], bound := [] }) ∧
    (op.NeedGenGradTensor4OpInput "x" 0 = true →
      ∃ grad_op : UserOpConfWrapper,
        (MakeGenBackwardOpConfFn dim op).added = [grad_op] ∧
        grad_op.op_name = op.op_name ++ "_grad" ∧
        grad_op.op_type_name = "unfold_" ++ to_string dim ++ "d_grad" ∧
        (dim = 1 → grad_op.op_type_name = "unfold_1d_grad") ∧
        (dim = 2 → grad_op.op_type_name = "unfold_2d_grad") ∧
        (dim = 3 → grad_op.op_type_name = "unfold_3d_grad") ∧
        grad_op.op_type_name ∈ registeredUnfoldOps ∧
        grad_op.input = [("x", op.input "x" 0), ("y", op.output "y" 0),
          ("dy", op.GetGradTensorWithOpOutput "y" 0)] ∧
        grad_op.output = ["dx"] ∧
        grad_op.attr = op.attrs.named ∧
        (MakeGenBackwardOpConfFn dim op).bound =
          [({ op_name := grad_op.op_name, arg_name := "dx", index := 0 }, "x", 0)]) := by
  constructor
  · intro hneed
    simp [MakeGenBackwardOpConfFn, hneed]
  · intro hneed
    refine ⟨{ op_name := op.op_name ++ "_grad",
              op_type_name := "unfold_" ++ to_string dim ++ "d_grad",
              input := [("x", op.input "x" 0), ("y", op.output "y" 0),
                ("dy", op.GetGradTensorWithOpOutput "y" 0)],
              output := ["dx"],
              attr := op.attrs.named },
      by simp only [MakeGenBackwardOpConfFn, hneed, if_true, UnfoldAttrs.named], rfl, rfl,
      ?_, ?_, ?_, ?_, rfl, rfl, rfl,
      by simp only [MakeGenBackwardOpConfFn, hneed, if_true]⟩
    · intro h
      subst h
      rfl
    · intro h
      subst h
      rfl
    · intro h
      subst h
      rfl
    · rcases hdim with h | h | h
      · subst h
        exact (by decide : "unfold_" ++ to_string 1 ++ "d_grad" ∈ registeredUnfoldOps)
      · subst h
        exact (by decide : "unfold_" ++ to_string 2 ++ "d_grad" ∈ registeredUnfoldOps)
      · subst h
        exact (by decide : "unfold_" ++ to_string 3 ++ "d_grad" ∈ registeredUnfoldOps)

/-- The statement of C25 for `dim` 2 and the op `unfold1` whose `x` needs a gradient. -/
theorem C25_unfold_gradient_op_witness :
    ∃ grad_op : UserOpConfWrapper,
      (MakeGenBackwardOpConfFn 2 (unfoldWrapper true)).added = [grad_op] ∧
      grad_op.op_name = "unfold1_grad" ∧
      grad_op.op_type_name = "unfold_2d_grad" ∧
      grad_op.attr = unfold2dAttrs.named :=
  match (C25_unfold_gradient_op 2 (unfoldWrapper true) (Or.inr (Or.inl rfl))).2 rfl with
  | ⟨grad_op, h1, h2, _, _, h5, _, _, _, _, h10, _⟩ => ⟨grad_op, h1, h2, h5 rfl, h10⟩

/-! ## C26: the parallel-split signatures of unfold -/

/-- C26: the forward function adds the signature that splits `x` and `y` on axis 0, then,
exactly when `data_format` is `channels_first`, the one that splits them on axis 1, and
nothing else; the backward function does the same with `x`, `y`, `dy` and `dx`. Both
return `Ok`. So a signature is among the added ones exactly when it is the axis-0 split
of all arguments, or `data_format` is `channels_first` and it is their axis-1 split. -/
theorem C26_unfold_sbp_signatures (ctx : SbpContext) :
    (FwGetSbpFn ctx).1 = .Ok ∧ (BwGetSbpFn ctx).1 = .Ok ∧
    (FwGetSbpFn ctx).2.data_format = ctx.data_format ∧
    (BwGetSbpFn ctx).2.data_format = ctx.data_format ∧
    (FwGetSbpFn ctx).2.sbp_sig_list = ctx.sbp_sig_list ++
      (if ctx.data_format = "channels_first" then
        [splitAll ["x", "y"] 0, splitAll ["x", "y"] 1]
      else [splitAll ["x", "y"] 0]) ∧
    (BwGetSbpFn ctx).2.sbp_sig_list = ctx.sbp_sig_list ++
      (if ctx.data_format = "channels_first" then
        [splitAll ["x", "y", "dy", "dx"] 0, splitAll ["x", "y", "dy", "dx"] 1]
      else [splitAll ["x", "y", "dy", "dx"] 0]) ∧
    (∀ signature : SbpSignature,
      signature ∈ (FwGetSbpFn ctx).2.sbp_sig_list.drop ctx.sbp_sig_list.length ↔
        signature = splitAll ["x", "y"] 0 ∨
          (ctx.data_format = "channels_first" ∧ signature = splitAll ["x", "y"] 1)) ∧
    (∀ signature : SbpSignature,
      signature ∈ (BwGetSbpFn ctx).2.sbp_sig_list.drop ctx.sbp_sig_list.length ↔
        signature = splitAll ["x", "y", "dy", "dx"] 0 ∨
          (ctx.data_format = "channels_first" ∧
            signature = splitAll ["x", "y", "dy", "dx"] 1)) := by
  by_cases h : ctx.data_format = "channels_first" <;>
    simp [FwGetSbpFn, BwGetSbpFn, SbpContext.Build, splitAll, h]

end oneflow
